import Mathlib

/-!
Ignition: storage stage (filesystem reconciliation), resource fetcher, unit
files and entry point.

A shallow embedding of `internal/exec/stages/disks/filesystems.go`,
`internal/resource/url.go`, `internal/exec/stages/files/units.go`,
`internal/main.go` with `internal/oem/oem.go`, and of `formatUUID` of
`tests/validator.go`.

Go strings are byte sequences: `len` counts bytes and `s[i]` is the byte at
index `i`.  They are modelled as lists of byte values.  The effects of
`createFilesystem` (the three blkid-style probes and the one formatter
command) are recorded in a trace of events, in program order, next to the
returned error.  Logger output carries no decision and is not part of the
model.  The fetcher is modelled the same way: libraries, network and operating
system are an environment, a fetch returns the calls it made, the destination
file afterwards and the returned error.
-/

namespace Ignition

/-! ## Strings -/

/-- A Go `string`: its bytes, in order. -/
abbrev GoString := List Nat

/-- The bytes of an ASCII literal of the source. -/
def lit (s : String) : GoString := s.toList.map Char.toNat

/-- Go `strings.ToLower`.  A string made only of ASCII bytes (every byte below
`utf8.RuneSelf = 0x80`) takes the fast path of the standard library, which maps
`A..Z` to `a..z` byte by byte.  Any other string goes through
`strings.Map(unicode.ToLower, s)`; the Unicode tables are outside this
repository, so that mapping is the parameter `uni`. -/
def ToLower (uni : GoString → GoString) (s : GoString) : GoString :=
  if s.all (fun c => decide (c < 128)) then
    s.map (fun c => if 65 ≤ c ∧ c ≤ 90 then c + 32 else c)
  else
    uni s

/-- Source: `canonicalizeFilesystemUUID` (filesystems.go, lines 246-259). -/
def canonicalizeFilesystemUUID (uni : GoString → GoString) (format uuid : GoString) :
    GoString :=
  let uuid := ToLower uni uuid
  if format = lit "vfat" then
    if uuid.length ≥ 5 ∧ uuid[4]? = some 45 then
      uuid.take 4 ++ uuid.drop 5
    else
      uuid
  else
    uuid

/-! ## Configuration types (`types.Mount`, `types.Create`) -/

/-- The `create` record of a mount (`types.Create`), as used by the source:
`Force` and `Options`. -/
structure Create where
  Force : Bool
  Options : List GoString
  deriving DecidableEq, Repr

/-- The `mount` record of a configured filesystem (`types.Mount`), with the
fields the source reads.  `Label`, `UUID` and `Create` are pointers in Go;
`none` is the nil pointer. -/
structure Mount where
  Device : GoString
  Format : GoString
  WipeFilesystem : Bool
  Options : List GoString
  Label : Option GoString
  UUID : Option GoString
  Create : Option Create
  deriving DecidableEq, Repr

/-! ## Errors -/

/-- The error values `createFilesystem` can return. -/
inductive GoError where
  /-- The package variable `ErrBadFilesystem`. -/
  | ErrBadFilesystem
  /-- An error produced outside this package (a probe of `util`, or the
  command run by `LogCmd`), with its message. -/
  | external (msg : GoString)
  /-- The value of `fmt.Errorf("unsupported filesystem format: %q", fs.Format)`. -/
  | unsupportedFormat (format : GoString)
  /-- The value of `fmt.Errorf("mkfs failed: %v", err)`. -/
  | mkfsFailed (cause : GoError)
  /-- The value of `errors.New(strings.Join(errs, "\n"))` built by
  `createFilesystems`, with its message. -/
  | combined (msg : GoString)
  deriving DecidableEq, Repr

/-! ## The environment of the stage -/

/-- What `createFilesystem` consumes from outside the file: the probes of
package `util`, the device alias, the formatter paths of package `distro`, the
outcome of running a command through `Logger.LogCmd` (`none` is a nil error),
and the Unicode lower-casing used by `strings.ToLower` on non-ASCII input. -/
structure Env where
  FilesystemType : GoString → Except GoError GoString
  FilesystemUUID : GoString → Except GoError GoString
  FilesystemLabel : GoString → Except GoError GoString
  DeviceAlias : GoString → GoString
  BtrfsMkfsCmd : GoString
  Ext4MkfsCmd : GoString
  XfsMkfsCmd : GoString
  SwapMkfsCmd : GoString
  VfatMkfsCmd : GoString
  LogCmd : GoString → List GoString → Option GoError
  uni : GoString → GoString

/-- An observable step of `createFilesystem`. -/
inductive Event where
  | probeType (device : GoString)
  | probeUUID (device : GoString)
  | probeLabel (device : GoString)
  /-- An external command: `exec.Command(name, args...)` run by `LogCmd`. -/
  | exec (name : GoString) (args : List GoString)
  deriving DecidableEq, Repr

/-- Source: `filesystemInfo` (filesystems.go, lines 211-215). -/
structure filesystemInfo where
  format : GoString
  uuid : GoString
  label : GoString
  deriving DecidableEq, Repr

/-- Source: `translateMountOptionSliceToStringSlice` (lines 194-200). -/
def translateMountOptionSliceToStringSlice (opts : List GoString) : List GoString :=
  opts.map (fun o => o)

/-- Source: `translateCreateOptionSliceToStringSlice` (lines 203-209). -/
def translateCreateOptionSliceToStringSlice (opts : List GoString) : List GoString :=
  opts.map (fun o => o)

/-- Source: `stage.readFilesystemInfo` (filesystems.go, lines 217-241): the
type, UUID and label probes in that order, stopping at the first error. -/
def readFilesystemInfo (w : Env) (fs : Mount) : List Event × Except GoError filesystemInfo :=
  match w.FilesystemType fs.Device with
  | .error err => ([.probeType fs.Device], .error err)
  | .ok format =>
    match w.FilesystemUUID fs.Device with
    | .error err => ([.probeType fs.Device, .probeUUID fs.Device], .error err)
    | .ok uuid =>
      match w.FilesystemLabel fs.Device with
      | .error err =>
        ([.probeType fs.Device, .probeUUID fs.Device, .probeLabel fs.Device], .error err)
      | .ok label =>
        ([.probeType fs.Device, .probeUUID fs.Device, .probeLabel fs.Device],
          .ok { format := format, uuid := uuid, label := label })

/-- What lines 100-120 of `createFilesystem` decide: return early with the
given error value (`some none` is `return nil`), or fall through to mkfs. -/
def reconcile (w : Env) (fs : Mount) (info : filesystemInfo) : Option (Option GoError) :=
  match fs.Create with
  | some create =>
    if !create.Force ∧ info.format ≠ lit "" then
      some (some .ErrBadFilesystem)
    else
      none
  | none =>
    if !fs.WipeFilesystem then
      if (info.format = fs.Format ∨ info.label = lit "OEM") ∧
          (fs.Label = none ∨ some info.label = fs.Label) ∧
          (fs.UUID = none ∨
            (fs.UUID.map (canonicalizeFilesystemUUID w.uni fs.Format)) =
              some (canonicalizeFilesystemUUID w.uni info.format info.uuid)) then
        some none
      else if info.format ≠ lit "" then
        some (some .ErrBadFilesystem)
      else
        none
    else
      none

/-- Lines 129-178 of `createFilesystem`: the `switch fs.Format` choosing the
formatter and appending its flags to `args`; `none` is the `default` case. -/
def mkfsSwitch (w : Env) (fs : Mount) (args : List GoString) :
    Option (GoString × List GoString) :=
  if fs.Format = lit "btrfs" then
    let args := args ++ [lit "--force"]
    let args := match fs.UUID with
      | some uuid => args ++ [lit "-U", canonicalizeFilesystemUUID w.uni fs.Format uuid]
      | none => args
    let args := match fs.Label with
      | some label => args ++ [lit "-L", label]
      | none => args
    some (w.BtrfsMkfsCmd, args)
  else if fs.Format = lit "ext4" then
    let args := args ++ [lit "-F"]
    let args := match fs.UUID with
      | some uuid => args ++ [lit "-U", canonicalizeFilesystemUUID w.uni fs.Format uuid]
      | none => args
    let args := match fs.Label with
      | some label => args ++ [lit "-L", label]
      | none => args
    some (w.Ext4MkfsCmd, args)
  else if fs.Format = lit "xfs" then
    let args := args ++ [lit "-f"]
    let args := match fs.UUID with
      | some uuid =>
        args ++ [lit "-m", lit "uuid=" ++ canonicalizeFilesystemUUID w.uni fs.Format uuid]
      | none => args
    let args := match fs.Label with
      | some label => args ++ [lit "-L", label]
      | none => args
    some (w.XfsMkfsCmd, args)
  else if fs.Format = lit "swap" then
    let args := args ++ [lit "-f"]
    let args := match fs.UUID with
      | some uuid => args ++ [lit "-U", canonicalizeFilesystemUUID w.uni fs.Format uuid]
      | none => args
    let args := match fs.Label with
      | some label => args ++ [lit "-L", label]
      | none => args
    some (w.SwapMkfsCmd, args)
  else if fs.Format = lit "vfat" then
    let args := match fs.UUID with
      | some uuid => args ++ [lit "-i", canonicalizeFilesystemUUID w.uni fs.Format uuid]
      | none => args
    let args := match fs.Label with
      | some label => args ++ [lit "-n", label]
      | none => args
    some (w.VfatMkfsCmd, args)
  else
    none

/-- Source: `stage.createFilesystem` (filesystems.go, lines 94-191).  Returns
the trace of probes and commands, and the returned error (`none` is nil). -/
def createFilesystem (w : Env) (fs : Mount) : List Event × Option GoError :=
  match readFilesystemInfo w fs with
  | (tr, .error err) => (tr, some err)
  | (tr, .ok info) =>
    match reconcile w fs info with
    | some result => (tr, result)
    | none =>
      let args := match fs.Create with
        | none => translateMountOptionSliceToStringSlice fs.Options
        | some create => translateCreateOptionSliceToStringSlice create.Options
      match mkfsSwitch w fs args with
      | none => (tr, some (.unsupportedFormat fs.Format))
      | some (mkfs, args) =>
        let devAlias := w.DeviceAlias fs.Device
        let args := args ++ [devAlias]
        match w.LogCmd mkfs args with
        | some err => (tr ++ [.exec mkfs args], some (.mkfsFailed err))
        | none => (tr ++ [.exec mkfs args], none)

/-- The external commands of a trace, in order. -/
def execs : List Event → List (GoString × List GoString)
  | [] => []
  | .exec name args :: rest => (name, args) :: execs rest
  | _ :: rest => execs rest

/-- The probes of the device of `fs` succeed and report `info`. -/
def Probed (w : Env) (fs : Mount) (info : filesystemInfo) : Prop :=
  w.FilesystemType fs.Device = .ok info.format ∧
  w.FilesystemUUID fs.Device = .ok info.uuid ∧
  w.FilesystemLabel fs.Device = .ok info.label

/-- The trace of three successful probes of a device. -/
def probeTrace (device : GoString) : List Event :=
  [.probeType device, .probeUUID device, .probeLabel device]

/-- The formats with a case in the `switch` of `createFilesystem`. -/
def SupportedFormat (format : GoString) : Prop :=
  format = lit "btrfs" ∨ format = lit "ext4" ∨ format = lit "xfs" ∨
  format = lit "swap" ∨ format = lit "vfat"

instance (format : GoString) : Decidable (SupportedFormat format) := by
  unfold SupportedFormat; infer_instance

/-- An environment for concrete scenarios: every probe succeeds with the given
values, the formatter paths are the distribution defaults, and running a
command yields `cmd`. -/
def scenarioEnv (format uuid label : GoString) (cmd : Option GoError) : Env where
  FilesystemType := fun _ => .ok format
  FilesystemUUID := fun _ => .ok uuid
  FilesystemLabel := fun _ => .ok label
  DeviceAlias := fun d => lit "/run/ignition/dev_aliases" ++ d
  BtrfsMkfsCmd := lit "mkfs.btrfs"
  Ext4MkfsCmd := lit "mkfs.ext4"
  XfsMkfsCmd := lit "mkfs.xfs"
  SwapMkfsCmd := lit "mkswap"
  VfatMkfsCmd := lit "mkfs.vfat"
  LogCmd := fun _ _ => cmd
  uni := fun s => s

/-- A mount of `/dev/sda1` without options. -/
def scenarioMount (format : GoString) (label uuid : Option GoString) (wipe : Bool)
    (create : Option Create) : Mount where
  Device := lit "/dev/sda1"
  Format := format
  WipeFilesystem := wipe
  Options := []
  Label := label
  UUID := uuid
  Create := create

/-- The user-provided options handed to the formatter (lines 124-128). -/
def userArgs (fs : Mount) : List GoString :=
  match fs.Create with
  | none => translateMountOptionSliceToStringSlice fs.Options
  | some create => translateCreateOptionSliceToStringSlice create.Options

/-! ### The argument list of the formatter, as the specification words it -/

/-- Specification: the forced-write flag of a format (btrfs `--force`, ext4
`-F`, xfs `-f`, swap `-f`, none for vfat). -/
def specForceFlag (format : GoString) : List GoString :=
  if format = lit "btrfs" then [lit "--force"]
  else if format = lit "ext4" then [lit "-F"]
  else if format = lit "xfs" then [lit "-f"]
  else if format = lit "swap" then [lit "-f"]
  else []

/-- Specification: the UUID flag of a format with the UUID `u` (btrfs, ext4 and
swap `-U u`; xfs `-m uuid=u`; vfat `-i u`). -/
def specUUIDFlag (format u : GoString) : List GoString :=
  if format = lit "xfs" then [lit "-m", lit "uuid=" ++ u]
  else if format = lit "vfat" then [lit "-i", u]
  else [lit "-U", u]

/-- Specification: the label flag of a format (`-n l` for vfat, `-L l` for the
others). -/
def specLabelFlag (format l : GoString) : List GoString :=
  if format = lit "vfat" then [lit "-n", l] else [lit "-L", l]

/-- Specification: the user-provided options, `create.options` when create is
set and the mount options otherwise. -/
def specUserOptions (fs : Mount) : List GoString :=
  match fs.Create with
  | some create => create.Options
  | none => fs.Options

/-- Specification: the whole argument list, in order: user options, force
flag, UUID flag with the canonical UUID iff a UUID is set, label flag iff a
label is set, device alias. -/
def specMkfsArgs (w : Env) (fs : Mount) : List GoString :=
  specUserOptions fs ++ specForceFlag fs.Format ++
    (match fs.UUID with
      | some u => specUUIDFlag fs.Format (canonicalizeFilesystemUUID w.uni fs.Format u)
      | none => []) ++
    (match fs.Label with
      | some l => specLabelFlag fs.Format l
      | none => []) ++
    [w.DeviceAlias fs.Device]

/-- The environment `w` with another outcome of running commands. -/
def withLogCmd (w : Env) (cmd : GoString → List GoString → Option GoError) : Env where
  FilesystemType := w.FilesystemType
  FilesystemUUID := w.FilesystemUUID
  FilesystemLabel := w.FilesystemLabel
  DeviceAlias := w.DeviceAlias
  BtrfsMkfsCmd := w.BtrfsMkfsCmd
  Ext4MkfsCmd := w.Ext4MkfsCmd
  XfsMkfsCmd := w.XfsMkfsCmd
  SwapMkfsCmd := w.SwapMkfsCmd
  VfatMkfsCmd := w.VfatMkfsCmd
  LogCmd := cmd
  uni := w.uni

/-! ## Resource fetcher (`internal/resource/url.go`): data -/

/-- The error values of the fetcher. -/
inductive FetchError where
  | ErrSchemeUnsupported
  | ErrPathNotAbsolute
  | ErrNotFound
  | ErrFailed
  | ErrCompressionUnsupported
  /-- The value `configErrors.ErrCompressionInvalid`. -/
  | ErrCompressionInvalid
  /-- The value `util.ErrHashMismatch{Calculated, Expected}`. -/
  | ErrHashMismatch (Calculated Expected : GoString)
  /-- An error produced by a library or by the operating system, with its
  message. -/
  | external (msg : GoString)
  /-- The value of `fmt.Errorf("couldn't determine the region for bucket %q: %v", ...)`. -/
  | bucketRegion (host : GoString) (cause : FetchError)
  /-- The value of `fmt.Errorf("failed to mount btrfs device %q at %q: %v", ...)`. -/
  | mountBtrfs (device path : GoString) (cause : FetchError)
  deriving DecidableEq, Repr

/-- A `url.URL`, with the fields the source reads. -/
structure URL where
  Scheme : GoString
  Host : GoString
  Path : GoString
  RawQuery : GoString
  deriving DecidableEq, Repr

/-- A `hash.Hash`: the digest function of the algorithm and the bytes absorbed
since the last `Reset`. -/
structure Hasher where
  digest : List Nat → List Nat
  absorbed : List Nat

/-- The method `Reset` of `hash.Hash`. -/
def Hasher.Reset (h : Hasher) : Hasher := ⟨h.digest, []⟩

/-- The method `Write` of `hash.Hash`; it never fails. -/
def Hasher.Write (h : Hasher) (p : List Nat) : Hasher := ⟨h.digest, h.absorbed ++ p⟩

/-- The call `Sum(nil)` of `hash.Hash`. -/
def Hasher.Sum (h : Hasher) : List Nat := h.digest h.absorbed

/-- Source: `FetchOptions` (url.go, lines 85-101); `Hash = none` is a nil
hasher. -/
structure FetchOptions where
  Headers : List (GoString × List GoString)
  Hash : Option Hasher
  ExpectedSum : List Nat
  Compression : GoString

/-- An `io.Reader` as the copy sees it: the bytes it delivers, then `io.EOF`
(`err = none`) or an error. -/
structure Reader where
  data : List Nat
  err : Option FetchError
  deriving DecidableEq, Repr

/-- The destination `*os.File`: the bytes it holds, how many more bytes it
accepts before `Write` fails with `writeErr` (`room = none`: writes never fail),
and the outcome of seeking to the start and of reading it back. -/
structure File where
  content : List Nat
  room : Option Nat
  writeErr : FetchError
  seekErr : Option FetchError
  readErr : Option FetchError
  deriving DecidableEq, Repr

/-- Writing `p` to the file: all of `p` when it fits, else the part that fits
and the write error. -/
def File.Write (f : File) (p : List Nat) : File × Option FetchError :=
  match f.room with
  | none => (⟨f.content ++ p, none, f.writeErr, f.seekErr, f.readErr⟩, none)
  | some n =>
    if p.length ≤ n then
      (⟨f.content ++ p, some (n - p.length), f.writeErr, f.seekErr, f.readErr⟩, none)
    else
      (⟨f.content ++ p.take n, some 0, f.writeErr, f.seekErr, f.readErr⟩, some f.writeErr)

/-- Reading the file from its start, after a successful seek. -/
def File.reader (f : File) : Reader := ⟨f.content, f.readErr⟩

/-- One hexadecimal digit of `hex.EncodeToString` (table `0123456789abcdef`). -/
def hexDigit (n : Nat) : Nat := if n < 10 then 48 + n else 87 + n

/-- Go `hex.EncodeToString`: two digits per byte, high nibble first. -/
def EncodeToString (src : List Nat) : GoString :=
  src.flatMap (fun v => [hexDigit (v / 16 % 16), hexDigit (v % 16)])

/-- Go `io.Copy(dest, src)` where `dest` is the file, or
`io.MultiWriter(file, hash)` when a hasher is given.  The copy moves the stream
chunk by chunk and writes each chunk to the file before the hasher; the model
takes the delivered bytes as one chunk.  A failed write ends the copy with the
write error; otherwise the copy ends with the reader's error, or with success
at `io.EOF`. -/
def ioCopy (dest : File) (hash : Option Hasher) (src : Reader) :
    File × Option Hasher × Option FetchError :=
  match dest.Write src.data with
  | (dest, some err) => (dest, hash, some err)
  | (dest, none) => (dest, hash.map (fun h => h.Write src.data), src.err)

/-! ## Resource fetcher: environment -/

/-- An AWS session as the source uses it: whether its credentials are
`credentials.AnonymousCredentials`, and its region. -/
structure Session where
  anonymous : Bool
  Region : GoString
  deriving DecidableEq, Repr

/-- The `s3.GetObjectInput` built by `FetchFromS3`; `VersionId = none` is the
nil pointer. -/
structure GetObjectInput where
  Bucket : GoString
  Key : GoString
  VersionId : Option GoString
  deriving DecidableEq, Repr

/-- A TFTP transfer started by `c.Receive`: the bytes `wt.WriteTo(pWriter)`
pushes into the pipe (which `pReader` then delivers, followed by `io.EOF` once
the pipe is closed), the error of `WriteTo`, the error of `pWriter.Close()`, and
how many of these two results the goroutine has already sent on `doneChan` at
the moment `checkForDoneChanErr` does its non-blocking receive. -/
structure TFTPTransfer where
  data : List Nat
  writeErr : Option FetchError
  closeErr : Option FetchError
  reported : Nat

/-- Source: `Fetcher` (url.go, lines 66-83), with the state the fetch functions
branch on: whether `client` is nil, the AWS session, the region hint. -/
structure Fetcher where
  clientNil : Bool
  AWSSession : Option Session
  S3RegionHint : GoString

/-- What the fetcher consumes from outside the file: libraries (gzip, tftp,
dataurl, the AWS SDK, path handling), the HTTP client of this package, and the
operating system.  An `Option FetchError` is a Go `error` (`none` is nil). -/
structure Net where
  gzipNewReader : Reader → Except FetchError Reader
  newHttpClient : Option FetchError
  getReaderWithHeader : URL → List (GoString × List GoString) → Except FetchError (Reader × Nat)
  tftpNewClient : GoString → Option FetchError
  tftpReceive : GoString → GoString → GoString → Except FetchError TFTPTransfer
  dataurlDecode : URL → Except FetchError (List Nat)
  filepathClean : GoString → GoString
  filepathJoin : GoString → GoString → GoString
  OEMLookasideDir : GoString
  OEMDevicePath : GoString
  osOpen : GoString → Except FetchError Reader
  osIsNotExist : FetchError → Bool
  TempDir : GoString → GoString → Except FetchError GoString
  WaitOnDevices : List GoString → GoString → Option FetchError
  MkdirAll : GoString → Option FetchError
  Mount : GoString → GoString → GoString → Option FetchError
  NewSession : Except FetchError Session
  GetBucketRegion : Session → GoString → GoString → Except FetchError GoString
  awsErrCode : FetchError → Option GoString
  defaultHTTPClient : Option FetchError
  Download : Session → GetObjectInput → File → File × Option FetchError
  queryGet : GoString → GoString → Option (List GoString)
  TempFile : Except FetchError File

/-- An observable step of a fetch: a call that leaves the process. -/
inductive FetchEvent where
  | newHttpClient
  | httpGet (u : URL) (headers : List (GoString × List GoString))
  | tftpNewClient (addr : GoString)
  | tftpReceive (path mode : GoString)
  | dataurlDecode (u : URL)
  | osOpen (path : GoString)
  | tempDir
  | waitOnDevices (devs : List GoString)
  | mkdirAll (path : GoString)
  | mount (device path fstype : GoString)
  | unmount (path : GoString)
  | remove (path : GoString)
  | newSession
  | getBucketRegion (bucket hint : GoString)
  | download (sess : Session) (input : GetObjectInput)
  | tempFile
  deriving DecidableEq, Repr

/-- The outcome of a fetch: the calls made, the destination file afterwards,
and the returned error (`none` is nil). -/
structure FetchResult where
  trace : List FetchEvent
  dest : File
  err : Option FetchError
  deriving DecidableEq, Repr

/-! ## Resource fetcher: functions -/

/-- Source: `Fetcher.uncompress` (url.go, lines 416-425). -/
def uncompress (n : Net) (r : Reader) (opts : FetchOptions) : Except FetchError Reader :=
  if opts.Compression = lit "" then
    .ok r
  else if opts.Compression = lit "gzip" then
    n.gzipNewReader r
  else
    .error .ErrCompressionInvalid

/-- Source: `Fetcher.decompressCopyHashAndVerify` (url.go, lines 431-456). -/
def decompressCopyHashAndVerify (n : Net) (dest : File) (src : Reader) (opts : FetchOptions) :
    File × Option FetchError :=
  match uncompress n src opts with
  | .error err => (dest, some err)
  | .ok decompressor =>
    let hash := opts.Hash.map Hasher.Reset
    match ioCopy dest hash decompressor with
    | (dest, _, some err) => (dest, some err)
    | (dest, hash, none) =>
      match hash with
      | some h =>
        let calculatedSum := h.Sum
        if calculatedSum ≠ opts.ExpectedSum then
          (dest, some (.ErrHashMismatch (EncodeToString calculatedSum)
            (EncodeToString opts.ExpectedSum)))
        else
          (dest, none)
      | none => (dest, none)

/-- Source: the closure `checkForDoneChanErr` of `FetchFromTFTP` (url.go, lines
177-192).  `doneChan` holds the values already sent on the channel, oldest
first; the `select` takes the oldest one, or the `default` branch when there is
none. -/
def checkForDoneChanErr (doneChan : List (Option FetchError)) (err : FetchError) :
    FetchError :=
  match doneChan with
  | writeErr :: _ =>
    match writeErr with
    | some w => w
    | none => err
  | [] => err

/-- Source: `Fetcher.FetchFromTFTP` (url.go, lines 159-217).  The rune `:` is
the byte 58. -/
def FetchFromTFTP (n : Net) (u : URL) (dest : File) (opts : FetchOptions) : FetchResult :=
  let host := if ¬ (58 ∈ u.Host) then u.Host ++ lit ":69" else u.Host
  match n.tftpNewClient host with
  | some err => ⟨[.tftpNewClient host], dest, some err⟩
  | none =>
    match n.tftpReceive host u.Path (lit "octet") with
    | .error err =>
      ⟨[.tftpNewClient host, .tftpReceive u.Path (lit "octet")], dest, some err⟩
    | .ok wt =>
      let doneChan := [wt.writeErr, wt.closeErr].take wt.reported
      match decompressCopyHashAndVerify n dest ⟨wt.data, none⟩ opts with
      | (dest, some err) =>
        ⟨[.tftpNewClient host, .tftpReceive u.Path (lit "octet")], dest,
          some (checkForDoneChanErr doneChan err)⟩
      | (dest, none) =>
        match wt.writeErr with
        | some err =>
          ⟨[.tftpNewClient host, .tftpReceive u.Path (lit "octet")], dest, some err⟩
        | none =>
          match wt.closeErr with
          | some err =>
            ⟨[.tftpNewClient host, .tftpReceive u.Path (lit "octet")], dest, some err⟩
          | none =>
            ⟨[.tftpNewClient host, .tftpReceive u.Path (lit "octet")], dest, none⟩

/-- Source: `Fetcher.FetchFromHTTP` (url.go, lines 221-253).  The status codes
are `http.StatusOK = 200`, `http.StatusNoContent = 204`,
`http.StatusNotFound = 404`. -/
def FetchFromHTTP (n : Net) (f : Fetcher) (u : URL) (dest : File) (opts : FetchOptions) :
    FetchResult :=
  let pre : List FetchEvent := if f.clientNil then [.newHttpClient] else []
  match (if f.clientNil then n.newHttpClient else none) with
  | some err => ⟨pre, dest, some err⟩
  | none =>
    match n.getReaderWithHeader u opts.Headers with
    | .error err => ⟨pre ++ [.httpGet u opts.Headers], dest, some err⟩
    | .ok (dataReader, status) =>
      if status = 200 ∨ status = 204 then
        match decompressCopyHashAndVerify n dest dataReader opts with
        | (dest, err) => ⟨pre ++ [.httpGet u opts.Headers], dest, err⟩
      else if status = 404 then
        ⟨pre ++ [.httpGet u opts.Headers], dest, some .ErrNotFound⟩
      else
        ⟨pre ++ [.httpGet u opts.Headers], dest, some .ErrFailed⟩

/-- Source: `Fetcher.FetchFromDataURL` (url.go, lines 257-267). -/
def FetchFromDataURL (n : Net) (u : URL) (dest : File) (opts : FetchOptions) : FetchResult :=
  if opts.Compression ≠ lit "" then
    ⟨[], dest, some .ErrCompressionUnsupported⟩
  else
    match n.dataurlDecode u with
    | .error err => ⟨[.dataurlDecode u], dest, some err⟩
    | .ok data =>
      match decompressCopyHashAndVerify n dest ⟨data, none⟩ opts with
      | (dest, err) => ⟨[.dataurlDecode u], dest, err⟩

/-- Source: `Fetcher.mountOEM` (url.go, lines 460-492). -/
def mountOEM (n : Net) (oemMountPath : GoString) : List FetchEvent × Option FetchError :=
  let dev := [n.OEMDevicePath]
  match n.WaitOnDevices dev (lit "oem-cmdline") with
  | some err => ([.waitOnDevices dev], some err)
  | none =>
    match n.MkdirAll oemMountPath with
    | some err => ([.waitOnDevices dev, .mkdirAll oemMountPath], some err)
    | none =>
      match n.Mount n.OEMDevicePath oemMountPath (lit "ext4") with
      | some _ =>
        match n.Mount n.OEMDevicePath oemMountPath (lit "btrfs") with
        | some err =>
          ([.waitOnDevices dev, .mkdirAll oemMountPath,
              .mount n.OEMDevicePath oemMountPath (lit "ext4"),
              .mount n.OEMDevicePath oemMountPath (lit "btrfs")],
            some (.mountBtrfs n.OEMDevicePath oemMountPath err))
        | none =>
          ([.waitOnDevices dev, .mkdirAll oemMountPath,
              .mount n.OEMDevicePath oemMountPath (lit "ext4"),
              .mount n.OEMDevicePath oemMountPath (lit "btrfs")], none)
      | none =>
        ([.waitOnDevices dev, .mkdirAll oemMountPath,
            .mount n.OEMDevicePath oemMountPath (lit "ext4")], none)

/-- Source: `Fetcher.FetchFromOEM` (url.go, lines 271-314).  `filepath.IsAbs`
on Linux tests for a leading `/` (byte 47).  The deferred `umountOEM` and
`os.Remove` run at return, in that order. -/
def FetchFromOEM (n : Net) (u : URL) (dest : File) (opts : FetchOptions) : FetchResult :=
  let path := n.filepathClean u.Path
  if path.head? ≠ some 47 then
    ⟨[], dest, some .ErrPathNotAbsolute⟩
  else
    let absPath := n.filepathJoin n.OEMLookasideDir path
    match n.osOpen absPath with
    | .ok fi =>
      match decompressCopyHashAndVerify n dest fi opts with
      | (dest, err) => ⟨[.osOpen absPath], dest, err⟩
    | .error err =>
      if ¬ n.osIsNotExist err then
        ⟨[.osOpen absPath], dest, some .ErrFailed⟩
      else
        match n.TempDir (lit "/mnt") (lit "oem") with
        | .error _ => ⟨[.osOpen absPath, .tempDir], dest, some .ErrFailed⟩
        | .ok oemMountPath =>
          match mountOEM n oemMountPath with
          | (tr, some _) => ⟨[.osOpen absPath, .tempDir] ++ tr, dest, some .ErrFailed⟩
          | (tr, none) =>
            let absPath2 := n.filepathJoin oemMountPath path
            match n.osOpen absPath2 with
            | .error _ =>
              ⟨[.osOpen absPath, .tempDir] ++ tr ++
                [.osOpen absPath2, .unmount oemMountPath, .remove oemMountPath],
                dest, some .ErrFailed⟩
            | .ok fi =>
              match decompressCopyHashAndVerify n dest fi opts with
              | (dest, err) =>
                ⟨[.osOpen absPath, .tempDir] ++ tr ++
                  [.osOpen absPath2, .unmount oemMountPath, .remove oemMountPath],
                  dest, err⟩

/-- Source: `Fetcher.fetchFromS3WithCreds` (url.go, lines 393-412).  The
function calls itself; `fuel` bounds the number of calls, and `none` means the
bound was reached. -/
def fetchFromS3WithCreds (n : Net) (input : GetObjectInput) :
    Nat → File → Session → Option (List FetchEvent × File × Option FetchError)
  | 0, _, _ => none
  | fuel + 1, dest, sess =>
    match n.defaultHTTPClient with
    | some err => some ([], dest, some err)
    | none =>
      match n.Download sess input dest with
      | (dest, some err) =>
        if n.awsErrCode err = some (lit "EC2RoleRequestError") then
          match fetchFromS3WithCreds n input fuel dest ⟨true, sess.Region⟩ with
          | none => none
          | some (tr, dest, res) => some (.download sess input :: tr, dest, res)
        else
          some ([.download sess input], dest, some err)
      | (dest, none) => some ([.download sess input], dest, none)

/-- Source: `Fetcher.FetchFromS3` (url.go, lines 320-391).  The context
deadline is not modelled. -/
def FetchFromS3 (fuel : Nat) (n : Net) (f : Fetcher) (u : URL) (dest : File)
    (opts : FetchOptions) : Option FetchResult :=
  if opts.Compression ≠ lit "" then
    some ⟨[], dest, some .ErrCompressionUnsupported⟩
  else
    let pre : List FetchEvent := if f.AWSSession = none then [.newSession] else []
    let session : Except FetchError Session :=
      match f.AWSSession with
      | none => n.NewSession
      | some s => .ok s
    match session with
    | .error err => some ⟨pre, dest, some err⟩
    | .ok sess =>
      let regionHint := if f.S3RegionHint ≠ lit "" then f.S3RegionHint else lit "us-east-1"
      match n.GetBucketRegion sess u.Host regionHint with
      | .error err =>
        if n.awsErrCode err = some (lit "NotFound") then
          some ⟨pre ++ [.getBucketRegion u.Host regionHint], dest,
            some (.bucketRegion u.Host err)⟩
        else
          some ⟨pre ++ [.getBucketRegion u.Host regionHint], dest, some err⟩
      | .ok region =>
        let sess : Session := ⟨sess.anonymous, region⟩
        let versionId : Option GoString :=
          match n.queryGet u.RawQuery (lit "versionId") with
          | some (v :: _) => some v
          | _ => none
        let input : GetObjectInput := ⟨u.Host, u.Path, versionId⟩
        match fetchFromS3WithCreds n input fuel dest sess with
        | none => none
        | some (tr, dest, some err) =>
          some ⟨pre ++ [.getBucketRegion u.Host regionHint] ++ tr, dest, some err⟩
        | some (tr, dest, none) =>
          match opts.Hash with
          | some h =>
            let h := h.Reset
            match dest.seekErr with
            | some err =>
              some ⟨pre ++ [.getBucketRegion u.Host regionHint] ++ tr, dest, some err⟩
            | none =>
              match dest.reader.err with
              | some err =>
                some ⟨pre ++ [.getBucketRegion u.Host regionHint] ++ tr, dest, some err⟩
              | none =>
                let calculatedSum := (h.Write dest.reader.data).Sum
                if calculatedSum ≠ opts.ExpectedSum then
                  some ⟨pre ++ [.getBucketRegion u.Host regionHint] ++ tr, dest,
                    some (.ErrHashMismatch (EncodeToString calculatedSum)
                      (EncodeToString opts.ExpectedSum))⟩
                else
                  some ⟨pre ++ [.getBucketRegion u.Host regionHint] ++ tr, dest, none⟩
          | none => some ⟨pre ++ [.getBucketRegion u.Host regionHint] ++ tr, dest, none⟩

/-- Source: `Fetcher.Fetch` (url.go, lines 138-155).  `none` only arises from
the fuel bound of the S3 retry. -/
def Fetch (fuel : Nat) (n : Net) (f : Fetcher) (u : URL) (dest : File)
    (opts : FetchOptions) : Option FetchResult :=
  if u.Scheme = lit "http" ∨ u.Scheme = lit "https" then
    some (FetchFromHTTP n f u dest opts)
  else if u.Scheme = lit "tftp" then
    some (FetchFromTFTP n u dest opts)
  else if u.Scheme = lit "data" then
    some (FetchFromDataURL n u dest opts)
  else if u.Scheme = lit "oem" then
    some (FetchFromOEM n u dest opts)
  else if u.Scheme = lit "s3" then
    FetchFromS3 fuel n f u dest opts
  else if u.Scheme = lit "" then
    some ⟨[], dest, none⟩
  else
    some ⟨[], dest, some .ErrSchemeUnsupported⟩

/-- Source: `Fetcher.FetchToBuffer` (url.go, lines 106-126).  Returns the calls
made, the returned bytes (`none` is nil) and the returned error. -/
def FetchToBuffer (fuel : Nat) (n : Net) (f : Fetcher) (u : URL) (opts : FetchOptions) :
    Option (List FetchEvent × Option (List Nat) × Option FetchError) :=
  match n.TempFile with
  | .error err => some ([.tempFile], none, some err)
  | .ok file =>
    match Fetch fuel n f u file opts with
    | none => none
    | some ⟨tr, _, some err⟩ => some (.tempFile :: tr, none, some err)
    | some ⟨tr, file, none⟩ =>
      match file.seekErr with
      | some err => some (.tempFile :: tr, none, some err)
      | none =>
        match file.reader.err with
        | some err => some (.tempFile :: tr, none, some err)
        | none => some (.tempFile :: tr, some file.reader.data, none)

/-! ## Resource fetcher: concrete scenarios -/

/-- A stand-in for a hash algorithm in concrete scenarios: the one-byte sum of
the input. -/
def checksum (bs : List Nat) : List Nat := [bs.sum % 256]

/-- A destination file for concrete scenarios: the given content, no failing
operation. -/
def scenarioFile (content : List Nat) : File :=
  ⟨content, none, .external (lit "write error"), none, none⟩

/-- A network for concrete scenarios.  HTTP answers with `status` and `body`;
a data URL decodes to `body`; TFTP delivers `body` without error; the stand-in
for gzip only strips the two magic bytes `1f 8b`; no OEM file exists; S3 is
unreachable. -/
def scenarioNet (status : Nat) (body : List Nat) : Net where
  gzipNewReader := fun r =>
    match r.data with
    | 31 :: 139 :: rest => .ok ⟨rest, r.err⟩
    | _ => .error (.external (lit "gzip: invalid header"))
  newHttpClient := none
  getReaderWithHeader := fun _ _ => .ok (⟨body, none⟩, status)
  tftpNewClient := fun _ => none
  tftpReceive := fun _ _ _ => .ok ⟨body, none, none, 2⟩
  dataurlDecode := fun _ => .ok body
  filepathClean := fun p => p
  filepathJoin := fun a b => a ++ b
  OEMLookasideDir := lit "/usr/share/oem"
  OEMDevicePath := lit "/dev/disk/by-label/OEM"
  osOpen := fun _ => .error (.external (lit "no such file or directory"))
  osIsNotExist := fun _ => true
  TempDir := fun _ _ => .ok (lit "/mnt/oem1")
  WaitOnDevices := fun _ _ => none
  MkdirAll := fun _ => none
  Mount := fun _ _ _ => none
  NewSession := .error (.external (lit "no session"))
  GetBucketRegion := fun _ _ _ => .error (.external (lit "unreachable"))
  awsErrCode := fun _ => none
  defaultHTTPClient := none
  Download := fun _ _ dest => (dest, some (.external (lit "unreachable")))
  queryGet := fun _ _ => none
  TempFile := .ok (scenarioFile [])

/-- The scenario network with the TFTP transfer `wt`. -/
def tftpNet (wt : TFTPTransfer) : Net :=
  { scenarioNet 200 [] with tftpReceive := fun _ _ _ => .ok wt }

/-- The scenario network with an S3 service for concrete scenarios: a download
with instance credentials fails with the code EC2RoleRequestError; a download
with anonymous credentials fails the same way while the file holds fewer than
`anonFailures` bytes (each failed attempt leaves one byte), and then succeeds
writing "hi". -/
def s3Net (anonFailures : Nat) : Net :=
  { scenarioNet 200 [] with
    awsErrCode := fun err =>
      match err with
      | .external msg => some msg
      | _ => none
    Download := fun s _ d =>
      if s.anonymous = false then
        (d, some (.external (lit "EC2RoleRequestError")))
      else if d.content.length < anonFailures then
        (scenarioFile (d.content ++ [0]), some (.external (lit "EC2RoleRequestError")))
      else
        (scenarioFile (d.content ++ [104, 105]), none) }

/-- A fetcher with an HTTP client and no AWS session. -/
def scenarioFetcher : Fetcher := ⟨false, none, lit ""⟩

/-- Fetch options for concrete scenarios: no headers, the checksum stand-in as
hasher (with `absorbed` left over from an earlier use) when `hashed`. -/
def scenarioOpts (hashed : Bool) (expected : List Nat) (compression : GoString) :
    FetchOptions :=
  ⟨[], if hashed then some ⟨checksum, [7, 7]⟩ else none, expected, compression⟩

/-- A fetch result that, if it is a success, appended to the file `dest` a
stream whose digest is the expected sum whenever a hasher is set. -/
def Delivered (dest : File) (opts : FetchOptions) (r : FetchResult) : Prop :=
  r.err = none →
    ∃ data, r.dest.content = dest.content ++ data ∧
      ∀ hs, opts.Hash = some hs → hs.digest data = opts.ExpectedSum

/-! ## Files stage: systemd and networkd units (`internal/exec/stages/files/units.go`) -/

/-- A drop-in of a unit (`types.SystemdDropin`, `types.NetworkdDropin`). -/
structure Dropin where
  Name : GoString
  Contents : GoString
  deriving DecidableEq, Repr

/-- A systemd unit of the configuration (`types.Unit`), with the fields the
source reads; `Enabled = none` is the nil pointer. -/
structure SystemdUnit where
  Name : GoString
  Enable : Bool
  Enabled : Option Bool
  Mask : Bool
  Contents : GoString
  Dropins : List Dropin
  deriving DecidableEq, Repr

/-- A networkd unit of the configuration (`types.Networkdunit`). -/
structure Networkdunit where
  Name : GoString
  Contents : GoString
  Dropins : List Dropin
  deriving DecidableEq, Repr

/-- The file to write for a unit or drop-in (`util.FetchOp`); the source reads
its `Path`. -/
structure FetchOp where
  Path : GoString
  Data : GoString
  deriving DecidableEq, Repr

/-- What the files stage consumes from outside the file: the conversions and
operations of package `util`, `distro.BlackboxTesting`, `filepath.Dir`, the
`DestDir` of the stage's `Util` and `util.PresetPath`. -/
structure UnitEnv where
  BlackboxTesting : Bool
  DestDir : GoString
  PresetPath : GoString
  filepathDir : GoString → GoString
  FileFromSystemdUnitDropin : SystemdUnit → Dropin → Bool → Except GoError FetchOp
  FileFromSystemdUnit : SystemdUnit → Bool → Except GoError FetchOp
  FileFromNetworkdUnitDropin : Networkdunit → Dropin → Except GoError FetchOp
  FileFromNetworkdUnit : Networkdunit → Except GoError FetchOp
  PerformFetch : GoString → FetchOp → Option GoError
  EnableUnit : SystemdUnit → Option GoError
  DisableUnit : SystemdUnit → Option GoError
  MaskUnit : SystemdUnit → Option GoError

/-- An observable step of the files stage.  `performFetch` carries the
`DestDir` of the `Util` it is called on. -/
inductive UnitEvent where
  | performFetch (destDir : GoString) (f : FetchOp)
  | relabel (path : GoString)
  | enable (unit : SystemdUnit)
  | disable (unit : SystemdUnit)
  | mask (unit : SystemdUnit)
  deriving DecidableEq, Repr

/-- The loop over `unit.Dropins` of `writeSystemdUnit` (units.go, lines
93-113); `relabeledDropinDir` is the loop's flag. -/
def writeSystemdDropins (e : UnitEnv) (destDir : GoString) (unit : SystemdUnit)
    (runtime : Bool) : List Dropin → Bool → List UnitEvent × Option GoError
  | [], _ => ([], none)
  | dropin :: rest, relabeledDropinDir =>
    if dropin.Contents = lit "" then
      writeSystemdDropins e destDir unit runtime rest relabeledDropinDir
    else
      match e.FileFromSystemdUnitDropin unit dropin runtime with
      | .error err => ([], some err)
      | .ok f =>
        match e.PerformFetch destDir f with
        | some err => ([.performFetch destDir f], some err)
        | none =>
          let step : List UnitEvent :=
            if relabeledDropinDir then [.performFetch destDir f]
            else [.performFetch destDir f, .relabel (e.filepathDir (lit "/" ++ f.Path))]
          match writeSystemdDropins e destDir unit runtime rest true with
          | (tr, err) => (step ++ tr, err)

/-- Source: `stage.writeSystemdUnit` (units.go, lines 84-134). -/
def writeSystemdUnit (e : UnitEnv) (unit : SystemdUnit) (runtime : Bool) :
    List UnitEvent × Option GoError :=
  let destDir := if runtime ∧ ¬ e.BlackboxTesting then lit "/" else e.DestDir
  match writeSystemdDropins e destDir unit runtime unit.Dropins false with
  | (tr, some err) => (tr, some err)
  | (tr, none) =>
    if unit.Contents = lit "" then
      (tr, none)
    else
      match e.FileFromSystemdUnit unit runtime with
      | .error err => (tr, some err)
      | .ok f =>
        match e.PerformFetch destDir f with
        | some err => (tr ++ [.performFetch destDir f], some err)
        | none => (tr ++ [.performFetch destDir f, .relabel (lit "/" ++ f.Path)], none)

/-- The loop over `unit.Dropins` of `writeNetworkdUnit` (units.go, lines
141-158). -/
def writeNetworkdDropins (e : UnitEnv) (unit : Networkdunit) :
    List Dropin → List UnitEvent × Option GoError
  | [] => ([], none)
  | dropin :: rest =>
    if dropin.Contents = lit "" then
      writeNetworkdDropins e unit rest
    else
      match e.FileFromNetworkdUnitDropin unit dropin with
      | .error err => ([], some err)
      | .ok f =>
        match e.PerformFetch e.DestDir f with
        | some err => ([.performFetch e.DestDir f], some err)
        | none =>
          match writeNetworkdDropins e unit rest with
          | (tr, err) =>
            ([.performFetch e.DestDir f, .relabel (lit "/" ++ f.Path)] ++ tr, err)

/-- Source: `stage.writeNetworkdUnit` (units.go, lines 139-178). -/
def writeNetworkdUnit (e : UnitEnv) (unit : Networkdunit) : List UnitEvent × Option GoError :=
  match writeNetworkdDropins e unit unit.Dropins with
  | (tr, some err) => (tr, some err)
  | (tr, none) =>
    if unit.Contents = lit "" then
      (tr, none)
    else
      match e.FileFromNetworkdUnit unit with
      | .error err => (tr, some err)
      | .ok f =>
        match e.PerformFetch e.DestDir f with
        | some err => (tr ++ [.performFetch e.DestDir f], some err)
        | none => (tr ++ [.performFetch e.DestDir f, .relabel (lit "/" ++ f.Path)], none)

/-- The enable, disable and mask steps of one iteration of the first loop of
`createUnits` (units.go, lines 32-67), after the unit was written.  Returns the
steps made, the error that ends `createUnits` if any, and whether the iteration
sets `enabledOneUnit`. -/
def presetUnit (e : UnitEnv) (unit : SystemdUnit) : List UnitEvent × Option GoError × Bool :=
  let step1 : List UnitEvent × Option GoError :=
    if unit.Enable then ([.enable unit], e.EnableUnit unit) else ([], none)
  match step1.2 with
  | some err => (step1.1, some err, false)
  | none =>
    let step2 : List UnitEvent × Option GoError :=
      match unit.Enabled with
      | some true => ([.enable unit], e.EnableUnit unit)
      | some false => ([.disable unit], e.DisableUnit unit)
      | none => ([], none)
    match step2.2 with
    | some err => (step1.1 ++ step2.1, some err, unit.Enable)
    | none =>
      let step3 : List UnitEvent × Option GoError :=
        if unit.Mask then ([.mask unit], e.MaskUnit unit) else ([], none)
      (step1.1 ++ step2.1 ++ step3.1, step3.2, unit.Enable || unit.Enabled.isSome)

/-- The first loop of `createUnits` (units.go, lines 28-68), with the flag
`enabledOneUnit`; returns the steps, the error if any, and the flag at the
end. -/
def createSystemdUnits (e : UnitEnv) :
    List SystemdUnit → Bool → List UnitEvent × Option GoError × Bool
  | [], enabledOneUnit => ([], none, enabledOneUnit)
  | unit :: rest, enabledOneUnit =>
    match writeSystemdUnit e unit false with
    | (tr, some err) => (tr, some err, enabledOneUnit)
    | (tr, none) =>
      match presetUnit e unit with
      | (tr2, some err, flag) => (tr ++ tr2, some err, enabledOneUnit || flag)
      | (tr2, none, flag) =>
        match createSystemdUnits e rest (enabledOneUnit || flag) with
        | (tr3, err, flag3) => (tr ++ tr2 ++ tr3, err, flag3)

/-- The second loop of `createUnits` (units.go, lines 73-77). -/
def createNetworkdUnits (e : UnitEnv) : List Networkdunit → List UnitEvent × Option GoError
  | [] => ([], none)
  | unit :: rest =>
    match writeNetworkdUnit e unit with
    | (tr, some err) => (tr, some err)
    | (tr, none) =>
      match createNetworkdUnits e rest with
      | (tr2, err) => (tr ++ tr2, err)

/-- Source: `stage.createUnits` (units.go, lines 26-79), on the
`config.Systemd.Units` and `config.Networkd.Units` of the configuration. -/
def createUnits (e : UnitEnv) (systemdUnits : List SystemdUnit)
    (networkdUnits : List Networkdunit) : List UnitEvent × Option GoError :=
  match createSystemdUnits e systemdUnits false with
  | (tr, some err, _) => (tr, some err)
  | (tr, none, enabledOneUnit) =>
    let tr := if enabledOneUnit then tr ++ [.relabel e.PresetPath] else tr
    match createNetworkdUnits e networkdUnits with
    | (tr2, err) => (tr ++ tr2, err)

/-- A files-stage environment for concrete scenarios: files go to
`/etc/systemd/system/<unit>` and `/etc/systemd/system/<unit>.d/<dropin>`,
`filepath.Dir` is supplied for these paths only by dropping the last element,
and every operation succeeds except enabling when `enableFails`. -/
def scenarioUnitEnv (enableFails : Bool) : UnitEnv where
  BlackboxTesting := false
  DestDir := lit "/sysroot"
  PresetPath := lit "/etc/systemd/system-preset/20-ignition.preset"
  filepathDir := fun p => (p.reverse.dropWhile (fun c => c != 47)).reverse.dropLast
  FileFromSystemdUnitDropin := fun u d _ =>
    .ok ⟨lit "etc/systemd/system/" ++ u.Name ++ lit ".d/" ++ d.Name, d.Contents⟩
  FileFromSystemdUnit := fun u _ => .ok ⟨lit "etc/systemd/system/" ++ u.Name, u.Contents⟩
  FileFromNetworkdUnitDropin := fun u d =>
    .ok ⟨lit "etc/systemd/network/" ++ u.Name ++ lit ".d/" ++ d.Name, d.Contents⟩
  FileFromNetworkdUnit := fun u => .ok ⟨lit "etc/systemd/network/" ++ u.Name, u.Contents⟩
  PerformFetch := fun _ _ => none
  EnableUnit := fun _ => if enableFails then some (.external (lit "preset: read-only")) else none
  DisableUnit := fun _ => none
  MaskUnit := fun _ => none

/-- The files written by a trace of the files stage, in order. -/
def fetched : List UnitEvent → List FetchOp
  | [] => []
  | .performFetch _ f :: rest => f :: fetched rest
  | _ :: rest => fetched rest

/-- The paths relabelled by a trace of the files stage, in order. -/
def relabels : List UnitEvent → List GoString
  | [] => []
  | .relabel path :: rest => path :: relabels rest
  | _ :: rest => relabels rest

/-- The drop-ins of a unit with non-empty contents, in order. -/
def nonEmptyDropins (unit : SystemdUnit) : List Dropin :=
  unit.Dropins.filter (fun d => decide (d.Contents ≠ lit ""))

/-- A unit for concrete scenarios: `a.service` with the given fields. -/
def scenarioUnit (enable : Bool) (enabled : Option Bool) (contents : GoString)
    (dropins : List Dropin) : SystemdUnit :=
  ⟨lit "a.service", enable, enabled, false, contents, dropins⟩

/-! ## Storage stage: all filesystems (`createFilesystems`) -/

/-- The method `Error()` of the error values of the stage.  The verb `%q` of
`fmt.Errorf` quotes its argument with `strconv.Quote`, a parameter here; `%v`
of an error is its message. -/
def GoError.Error (quote : GoString → GoString) : GoError → GoString
  | .ErrBadFilesystem => lit "filesystem is not of the correct type"
  | .external msg => msg
  | .unsupportedFormat format => lit "unsupported filesystem format: " ++ quote format
  | .mkfsFailed cause => lit "mkfs failed: " ++ cause.Error quote
  | .combined msg => msg

/-- Go `strings.Join`. -/
def Join : List GoString → GoString → GoString
  | [], _ => []
  | [a], _ => a
  | a :: b :: rest, sep => a ++ sep ++ Join (b :: rest) sep

/-- An entry of `config.Storage.Filesystems` (`types.Filesystem`); `Mount =
none` is the nil pointer. -/
structure Filesystem where
  Name : GoString
  Mount : Option Mount
  deriving DecidableEq, Repr

/-- What `createFilesystems` consumes besides the environment of
`createFilesystem`: the device wait of the stage, the quoting of `%q`, and the
order in which the workers deliver their results on the `results` channel (a
rearrangement of the work list, decided by the scheduler). -/
structure StageEnv where
  env : Env
  quote : GoString → GoString
  waitOnDevicesAndCreateAliases : List GoString → GoString → Option GoError
  arrival : List Mount → List Mount

/-- The outcome of `createFilesystems`: the devices waited on (`none`: no
wait), the runs of `createFilesystem` in the order their results arrive, and
the returned error. -/
structure FilesystemsRun where
  waited : Option (List GoString)
  runs : List (Mount × (List Event × Option GoError))
  err : Option GoError

/-- Source: `stage.createFilesystems` (filesystems.go, lines 38-92).  Each
mount is sent once on the `work` channel and handled by one worker; the
workers share no state, so a run is `createFilesystem` on its mount. -/
def createFilesystems (s : StageEnv) (filesystems : List Filesystem) : FilesystemsRun :=
  let fss := filesystems.filterMap (fun fs => fs.Mount)
  if fss.length = 0 then
    ⟨none, [], none⟩
  else
    let devs := fss.map (fun fs => fs.Device)
    match s.waitOnDevicesAndCreateAliases devs (lit "filesystems") with
    | some err => ⟨some devs, [], some err⟩
    | none =>
      let runs := (s.arrival fss).map (fun fs => (fs, createFilesystem s.env fs))
      let errs := runs.filterMap (fun r => r.2.2.map (GoError.Error s.quote))
      if errs.length > 0 then
        ⟨some devs, runs, some (.combined (Join errs (lit "\n")))⟩
      else
        ⟨some devs, runs, none⟩

/-- A stage environment for concrete scenarios: the device wait succeeds, the
results arrive in reverse order of the work list, and `%q` puts its argument
between double quotes. -/
def scenarioStage (w : Env) : StageEnv where
  env := w
  quote := fun s => [34] ++ s ++ [34]
  waitOnDevicesAndCreateAliases := fun _ _ => none
  arrival := fun fss => fss.reverse

/-! ## Blackbox validator (`tests/validator.go`) -/

/-- Go `strings.ToUpper`: byte-wise on ASCII input, like `ToLower`; the
Unicode mapping for other input is the parameter `uni`. -/
def ToUpper (uni : GoString → GoString) (s : GoString) : GoString :=
  if s.all (fun c => decide (c < 128)) then
    s.map (fun c => if 97 ≤ c ∧ c ≤ 122 then c - 32 else c)
  else
    uni s

/-- Source: `formatUUID` (validator.go, lines 138-140);
`strings.Replace(s, "-", "", -1)` drops every byte 45. -/
def formatUUID (uni : GoString → GoString) (s : GoString) : GoString :=
  ToUpper uni (s.filter (fun c => decide (c ≠ 45)))

/-! ## Entry point (`internal/main.go`, `internal/oem/oem.go`) -/

/-- The command-line flags of `main` after `flag.Parse`. -/
structure Flags where
  clearCache : Bool
  configCache : GoString
  fetchTimeout : Nat
  oem : GoString
  root : GoString
  stage : GoString
  version : Bool
  logToStdout : Bool

/-- Source: `oem.Config` (oem.go, lines 41-46), without the `fetch` function
that `main` does not call; `none` is a nil function. -/
structure Config where
  name : GoString
  newFetcher : Option (Except GoError Fetcher)
  status : Option (GoString → Fetcher → Option GoError → Option GoError)

/-- Source: `Config.NewFetcherFunc` (oem.go, lines 56-65), applied to the
logger: the default is `resource.Fetcher{Logger: l}`, whose client and session
are nil. -/
def Config.NewFetcherFunc (c : Config) : Except GoError Fetcher :=
  match c.newFetcher with
  | some newFetcher => newFetcher
  | none => .ok ⟨true, none, lit ""⟩

/-- Source: `Config.Status` (oem.go, lines 68-73). -/
def Config.Status (c : Config) (stageName : GoString) (f : Fetcher)
    (statusErr : Option GoError) : Option GoError :=
  match c.status with
  | some status => status stageName f statusErr
  | none => none

/-- What `main` consumes from outside the two files: the registry of OEM
configs behind `oem.MustGet` (`none`: the name is not registered and `MustGet`
panics), `os.Remove`, and `exec.Engine.Run` on the engine built from the flags,
the config and the fetcher. -/
structure MainEnv where
  configs : GoString → Option Config
  Remove : GoString → Option GoError
  Run : Flags → Fetcher → GoString → Option GoError

/-- An observable step of `main`.  `status` is the call of `Config.Status`
with the stage's error, and carries what it returned. -/
inductive MainEvent where
  | printVersion
  | stderr (msg : GoString)
  | remove (path : GoString)
  | newFetcher
  | run (stage : GoString)
  | status (stage : GoString) (err : Option GoError) (statusErr : Option GoError)
  deriving DecidableEq, Repr

/-- How the process ends: an exit code (0 when `main` returns), or a panic. -/
inductive Exit where
  | code (n : Nat)
  | panic
  deriving DecidableEq, Repr

/-- Source: `main` (main.go, lines 33-107), after `flag.Parse`. -/
def main (e : MainEnv) (flags : Flags) : List MainEvent × Exit :=
  if flags.version then
    ([.printVersion], .code 0)
  else if flags.oem = lit "" then
    ([.stderr (lit "'--oem' must be provided\n")], .code 2)
  else if flags.stage = lit "" then
    ([.stderr (lit "'--stage' must be provided\n")], .code 2)
  else
    let pre : List MainEvent := if flags.clearCache then [.remove flags.configCache] else []
    match e.configs flags.oem with
    | none => (pre, .panic)
    | some oemConfig =>
      match oemConfig.NewFetcherFunc with
      | .error _ => (pre ++ [.newFetcher], .code 3)
      | .ok fetcher =>
        let err := e.Run flags fetcher flags.stage
        let statusErr := oemConfig.Status flags.stage fetcher err
        match err with
        | some _ =>
          (pre ++ [.newFetcher, .run flags.stage, .status flags.stage err statusErr], .code 1)
        | none =>
          (pre ++ [.newFetcher, .run flags.stage, .status flags.stage err statusErr], .code 0)

/-- Flags for concrete scenarios: defaults, with the given `--version`,
`--oem` and `--stage`. -/
def scenarioFlags (version : Bool) (oem stage : GoString) : Flags :=
  ⟨false, lit "/run/ignition.json", 0, oem, lit "/", stage, version, false⟩

/-- An entry-point environment for concrete scenarios: every OEM name is
registered with the given config, and the stage run returns `runErr`. -/
def scenarioMain (c : Config) (runErr : Option GoError) : MainEnv where
  configs := fun _ => some c
  Remove := fun _ => none
  Run := fun _ _ _ => runErr

/-- The transfer that `decompressCopyHashAndVerify` makes before it checks the
hash succeeds: the stream `src` decompresses to `data` and ends without error,
and the file `dest` takes all of `data`. -/
def Streams (n : Net) (dest : File) (src : Reader) (opts : FetchOptions)
    (data : List Nat) : Prop :=
  uncompress n src opts = .ok ⟨data, none⟩ ∧ (dest.Write data).2 = none

/-- The scenario S3 service made reachable: a session with instance
credentials is created, and the bucket lives in the hinted region. -/
def s3RegionNet (anonFailures : Nat) : Net :=
  { s3Net anonFailures with
    NewSession := .ok ⟨false, lit ""⟩
    GetBucketRegion := fun _ _ hint => .ok hint }

/-! ## Structure of a run of `createFilesystem` -/

theorem execs_append (xs ys : List Event) : execs (xs ++ ys) = execs xs ++ execs ys := by
  induction xs with
  | nil => rfl
  | cons x xs ih => cases x <;> simp [execs, ih]

theorem execs_probeTrace (d : GoString) : execs (probeTrace d) = [] := rfl

theorem readFilesystemInfo_ok {w : Env} {fs : Mount} {info : filesystemInfo}
    (hp : Probed w fs info) :
    readFilesystemInfo w fs = (probeTrace fs.Device, .ok info) := by
  obtain ⟨h1, h2, h3⟩ := hp
  simp [readFilesystemInfo, h1, h2, h3, probeTrace]

theorem createFilesystem_early {w : Env} {fs : Mount} {info : filesystemInfo}
    {result : Option GoError} (hp : Probed w fs info)
    (hr : reconcile w fs info = some result) :
    createFilesystem w fs = (probeTrace fs.Device, result) := by
  simp [createFilesystem, readFilesystemInfo_ok hp, hr]

theorem createFilesystem_mkfs {w : Env} {fs : Mount} {info : filesystemInfo}
    {mkfs : GoString} {args : List GoString} (hp : Probed w fs info)
    (hr : reconcile w fs info = none)
    (hs : mkfsSwitch w fs (userArgs fs) = some (mkfs, args)) :
    createFilesystem w fs =
      (probeTrace fs.Device ++ [.exec mkfs (args ++ [w.DeviceAlias fs.Device])],
        (w.LogCmd mkfs (args ++ [w.DeviceAlias fs.Device])).map .mkfsFailed) := by
  unfold userArgs at hs
  simp only [createFilesystem, readFilesystemInfo_ok hp, hr, hs]
  cases w.LogCmd mkfs (args ++ [w.DeviceAlias fs.Device]) <;> rfl

theorem createFilesystem_unsupported {w : Env} {fs : Mount} {info : filesystemInfo}
    (hp : Probed w fs info) (hr : reconcile w fs info = none)
    (hs : mkfsSwitch w fs (userArgs fs) = none) :
    createFilesystem w fs = (probeTrace fs.Device, some (.unsupportedFormat fs.Format)) := by
  unfold userArgs at hs
  simp only [createFilesystem, readFilesystemInfo_ok hp, hr, hs]

theorem mkfsSwitch_isSome {w : Env} {fs : Mount} (args : List GoString)
    (hf : SupportedFormat fs.Format) : ∃ mkfs out, mkfsSwitch w fs args = some (mkfs, out) := by
  unfold mkfsSwitch
  split_ifs with h1 h2 h3 h4 h5
  · exact ⟨_, _, rfl⟩
  · exact ⟨_, _, rfl⟩
  · exact ⟨_, _, rfl⟩
  · exact ⟨_, _, rfl⟩
  · exact ⟨_, _, rfl⟩
  · rcases hf with h | h | h | h | h <;> contradiction

/-- The keep-or-reject branch (lines 107-120): without `create` and without
`wipeFilesystem` the early return is decided by the three-part condition of
line 111-113, stated here with the pointers dereferenced. -/
theorem reconcile_keep_iff {w : Env} {fs : Mount} {info : filesystemInfo}
    (hc : fs.Create = none) (hw : fs.WipeFilesystem = false) :
    (reconcile w fs info = some none ↔
      (info.format = fs.Format ∨ info.label = lit "OEM") ∧
      (∀ l, fs.Label = some l → info.label = l) ∧
      (∀ u, fs.UUID = some u →
        canonicalizeFilesystemUUID w.uni info.format info.uuid =
          canonicalizeFilesystemUUID w.uni fs.Format u)) := by
  have hl : (fs.Label = none ∨ some info.label = fs.Label) ↔
      ∀ l, fs.Label = some l → info.label = l := by
    cases fs.Label <;> simp
  have hu : (fs.UUID = none ∨
      (fs.UUID.map (canonicalizeFilesystemUUID w.uni fs.Format)) =
        some (canonicalizeFilesystemUUID w.uni info.format info.uuid)) ↔
      ∀ u, fs.UUID = some u →
        canonicalizeFilesystemUUID w.uni info.format info.uuid =
          canonicalizeFilesystemUUID w.uni fs.Format u := by
    cases fs.UUID <;> simp [eq_comm]
  simp only [reconcile, hc, hw, hl, hu]
  split_ifs <;> simp_all

theorem reconcile_reject {w : Env} {fs : Mount} {info : filesystemInfo}
    (hc : fs.Create = none) (hw : fs.WipeFilesystem = false)
    (hk : reconcile w fs info ≠ some none) (hf : info.format ≠ lit "") :
    reconcile w fs info = some (some .ErrBadFilesystem) := by
  simp only [reconcile, hc, hw] at hk ⊢
  split_ifs at hk ⊢ <;> simp_all

theorem reconcile_blank {w : Env} {fs : Mount} {info : filesystemInfo}
    (hc : fs.Create = none) (hw : fs.WipeFilesystem = false)
    (hk : reconcile w fs info ≠ some none) (hf : info.format = lit "") :
    reconcile w fs info = none := by
  simp only [reconcile, hc, hw] at hk ⊢
  split_ifs at hk ⊢ <;> simp_all

/-! ## The reconcile decision table -/

/-- C1 (as amended): for every filesystem with no create record and
wipeFilesystem false whose probed label is "OEM", if the desired label is unset
or equals the observed label and the desired UUID is unset or has the canonical
form of the observed UUID, then createFilesystem skips: it returns success and
runs no command, also when the desired format differs from the observed one. -/
theorem createFilesystem_oem_skip (w : Env) (fs : Mount) (info : filesystemInfo)
    (hp : Probed w fs info) (hc : fs.Create = none) (hw : fs.WipeFilesystem = false)
    (hoem : info.label = lit "OEM")
    (hl : ∀ l, fs.Label = some l → info.label = l)
    (hu : ∀ u, fs.UUID = some u →
      canonicalizeFilesystemUUID w.uni info.format info.uuid =
        canonicalizeFilesystemUUID w.uni fs.Format u) :
    createFilesystem w fs = (probeTrace fs.Device, none) ∧
      execs (createFilesystem w fs).1 = [] := by
  have h := createFilesystem_early hp
    ((reconcile_keep_iff hc hw).mpr ⟨Or.inr hoem, hl, hu⟩)
  exact ⟨h, by rw [h]; rfl⟩

/-- Witness of C1 (as amended): an OEM partition probed as btrfs, configured
as ext4 with label "OEM", is skipped. -/
theorem createFilesystem_oem_skip_witness :
    createFilesystem (scenarioEnv (lit "btrfs") (lit "") (lit "OEM") none)
        (scenarioMount (lit "ext4") (some (lit "OEM")) none false none) =
      (probeTrace (lit "/dev/sda1"), none) ∧
    execs (createFilesystem (scenarioEnv (lit "btrfs") (lit "") (lit "OEM") none)
        (scenarioMount (lit "ext4") (some (lit "OEM")) none false none)).1 = [] :=
  createFilesystem_oem_skip (scenarioEnv (lit "btrfs") (lit "") (lit "OEM") none)
    (scenarioMount (lit "ext4") (some (lit "OEM")) none false none)
    ⟨lit "btrfs", lit "", lit "OEM"⟩ ⟨rfl, rfl, rfl⟩ rfl rfl rfl
    (by decide) (by decide)

/-- Counterexample to C1 as stated: the probe reports an ext4 filesystem
labelled "OEM", the configuration asks for ext4 with label "ROOT", no create
record and no wipe.  The label check of line 112 fails and createFilesystem
returns ErrBadFilesystem instead of skipping. -/
theorem createFilesystem_oem_label_mismatch :
    Probed (scenarioEnv (lit "ext4") (lit "") (lit "OEM") none)
      (scenarioMount (lit "ext4") (some (lit "ROOT")) none false none)
      ⟨lit "ext4", lit "", lit "OEM"⟩ ∧
    (scenarioMount (lit "ext4") (some (lit "ROOT")) none false none).Create = none ∧
    (scenarioMount (lit "ext4") (some (lit "ROOT")) none false none).WipeFilesystem = false ∧
    createFilesystem (scenarioEnv (lit "ext4") (lit "") (lit "OEM") none)
        (scenarioMount (lit "ext4") (some (lit "ROOT")) none false none) =
      (probeTrace (lit "/dev/sda1"), some .ErrBadFilesystem) :=
  ⟨⟨rfl, rfl, rfl⟩, rfl, rfl, by decide⟩

/-- C2: for every filesystem with a create record whose force is false, if the
probe reports a non-empty format then createFilesystem returns ErrBadFilesystem
and runs no command, whatever the desired format, label, UUID, options and
wipeFilesystem flag are. -/
theorem createFilesystem_create_no_force (w : Env) (fs : Mount) (info : filesystemInfo)
    (create : Create) (hp : Probed w fs info) (hc : fs.Create = some create)
    (hforce : create.Force = false) (hf : info.format ≠ lit "") :
    createFilesystem w fs = (probeTrace fs.Device, some .ErrBadFilesystem) ∧
      execs (createFilesystem w fs).1 = [] := by
  have hr : reconcile w fs info = some (some .ErrBadFilesystem) := by
    simp [reconcile, hc, hforce, hf]
  have h := createFilesystem_early hp hr
  exact ⟨h, by rw [h]; rfl⟩

/-- Witness of C2: create without force on a device probed as xfs, with
wipeFilesystem also set, is rejected. -/
theorem createFilesystem_create_no_force_witness :
    createFilesystem (scenarioEnv (lit "xfs") (lit "") (lit "") none)
        (scenarioMount (lit "ext4") none none true (some ⟨false, [lit "-E"]⟩)) =
      (probeTrace (lit "/dev/sda1"), some .ErrBadFilesystem) ∧
    execs (createFilesystem (scenarioEnv (lit "xfs") (lit "") (lit "") none)
        (scenarioMount (lit "ext4") none none true (some ⟨false, [lit "-E"]⟩))).1 = [] :=
  createFilesystem_create_no_force (scenarioEnv (lit "xfs") (lit "") (lit "") none)
    (scenarioMount (lit "ext4") none none true (some ⟨false, [lit "-E"]⟩))
    ⟨lit "xfs", lit "", lit ""⟩ ⟨false, [lit "-E"]⟩ ⟨rfl, rfl, rfl⟩ rfl rfl (by decide)

/-- C3: for every filesystem with no create record and wipeFilesystem false, if
the observed format equals the desired format, the desired label is unset or
equals the observed label, and the desired UUID is unset or its canonical form
equals the canonical form of the observed UUID, then createFilesystem returns
success and issues zero external commands. -/
theorem createFilesystem_match_skip (w : Env) (fs : Mount) (info : filesystemInfo)
    (hp : Probed w fs info) (hc : fs.Create = none) (hw : fs.WipeFilesystem = false)
    (hf : info.format = fs.Format)
    (hl : fs.Label = none ∨ fs.Label = some info.label)
    (hu : fs.UUID = none ∨ ∃ u, fs.UUID = some u ∧
      canonicalizeFilesystemUUID w.uni fs.Format u =
        canonicalizeFilesystemUUID w.uni fs.Format info.uuid) :
    createFilesystem w fs = (probeTrace fs.Device, none) ∧
      execs (createFilesystem w fs).1 = [] := by
  have hk : reconcile w fs info = some none := by
    refine (reconcile_keep_iff hc hw).mpr ⟨Or.inl hf, ?_, ?_⟩
    · intro l hl1
      rcases hl with h | h <;> simp_all
    · intro u hu1
      rcases hu with h | ⟨v, hv, hcanon⟩
      · simp_all
      · rw [hu1] at hv
        cases hv
        rw [hf, hcanon]
  have h := createFilesystem_early hp hk
  exact ⟨h, by rw [h]; rfl⟩

/-- Witness of C3, the ext4 scenario of the specification: observed ext4 with
uuid fefefefe-fefe-fefe-fefe-fefefefefefe and label DATA, desired ext4 with the
same UUID in upper case and label DATA. -/
theorem createFilesystem_match_skip_witness :
    createFilesystem
        (scenarioEnv (lit "ext4") (lit "fefefefe-fefe-fefe-fefe-fefefefefefe") (lit "DATA") none)
        (scenarioMount (lit "ext4") (some (lit "DATA"))
          (some (lit "FEFEFEFE-FEFE-FEFE-FEFE-FEFEFEFEFEFE")) false none) =
      (probeTrace (lit "/dev/sda1"), none) ∧
    execs (createFilesystem
        (scenarioEnv (lit "ext4") (lit "fefefefe-fefe-fefe-fefe-fefefefefefe") (lit "DATA") none)
        (scenarioMount (lit "ext4") (some (lit "DATA"))
          (some (lit "FEFEFEFE-FEFE-FEFE-FEFE-FEFEFEFEFEFE")) false none)).1 = [] :=
  createFilesystem_match_skip
    (scenarioEnv (lit "ext4") (lit "fefefefe-fefe-fefe-fefe-fefefefefefe") (lit "DATA") none)
    (scenarioMount (lit "ext4") (some (lit "DATA"))
      (some (lit "FEFEFEFE-FEFE-FEFE-FEFE-FEFEFEFEFEFE")) false none)
    ⟨lit "ext4", lit "fefefefe-fefe-fefe-fefe-fefefefefefe", lit "DATA"⟩
    ⟨rfl, rfl, rfl⟩ rfl rfl rfl (Or.inr rfl)
    (Or.inr ⟨lit "FEFEFEFE-FEFE-FEFE-FEFE-FEFEFEFEFEFE", rfl, by decide⟩)

/-- C4 (as amended): for every filesystem with no create record and
wipeFilesystem false whose probed format is non-empty, if the observed format
differs from the desired one while the observed label is not "OEM", or a
specified label differs from the observed label, or the canonical form of a
specified UUID (under the desired format) differs from the canonical form of
the observed UUID (under the observed format), then createFilesystem returns
ErrBadFilesystem and runs no command. -/
theorem createFilesystem_mismatch_rejected (w : Env) (fs : Mount) (info : filesystemInfo)
    (hp : Probed w fs info) (hc : fs.Create = none) (hw : fs.WipeFilesystem = false)
    (hf : info.format ≠ lit "")
    (hm : (info.format ≠ fs.Format ∧ info.label ≠ lit "OEM") ∨
      (∃ l, fs.Label = some l ∧ l ≠ info.label) ∨
      (∃ u, fs.UUID = some u ∧
        canonicalizeFilesystemUUID w.uni fs.Format u ≠
          canonicalizeFilesystemUUID w.uni info.format info.uuid)) :
    createFilesystem w fs = (probeTrace fs.Device, some .ErrBadFilesystem) ∧
      execs (createFilesystem w fs).1 = [] := by
  have hk : reconcile w fs info ≠ some none := by
    rw [Ne, reconcile_keep_iff hc hw]
    rintro ⟨h1, h2, h3⟩
    rcases hm with ⟨ha, hb⟩ | ⟨l, hl, hne⟩ | ⟨u, hu, hne⟩
    · rcases h1 with h | h
      · exact ha h
      · exact hb h
    · exact hne (h2 l hl).symm
    · exact hne (h3 u hu).symm
  have h := createFilesystem_early hp (reconcile_reject hc hw hk hf)
  exact ⟨h, by rw [h]; rfl⟩

/-- Witness of C4 (as amended): a device probed as xfs with label DATA,
configured as ext4, is rejected. -/
theorem createFilesystem_mismatch_rejected_witness :
    createFilesystem (scenarioEnv (lit "xfs") (lit "") (lit "DATA") none)
        (scenarioMount (lit "ext4") none none false none) =
      (probeTrace (lit "/dev/sda1"), some .ErrBadFilesystem) ∧
    execs (createFilesystem (scenarioEnv (lit "xfs") (lit "") (lit "DATA") none)
        (scenarioMount (lit "ext4") none none false none)).1 = [] :=
  createFilesystem_mismatch_rejected (scenarioEnv (lit "xfs") (lit "") (lit "DATA") none)
    (scenarioMount (lit "ext4") none none false none)
    ⟨lit "xfs", lit "", lit "DATA"⟩ ⟨rfl, rfl, rfl⟩ rfl rfl (by decide)
    (Or.inl ⟨by decide, by decide⟩)

/-- Counterexample to C4 as stated: the probe reports a btrfs filesystem
labelled "OEM", the configuration asks for ext4 without label or UUID, no
create record and no wipe.  The probed format is non-empty and differs from the
desired one, yet createFilesystem returns success without any command. -/
theorem createFilesystem_oem_format_mismatch :
    Probed (scenarioEnv (lit "btrfs") (lit "") (lit "OEM") none)
      (scenarioMount (lit "ext4") none none false none)
      ⟨lit "btrfs", lit "", lit "OEM"⟩ ∧
    (scenarioMount (lit "ext4") none none false none).Create = none ∧
    (scenarioMount (lit "ext4") none none false none).WipeFilesystem = false ∧
    lit "btrfs" ≠ lit "" ∧
    lit "btrfs" ≠ (scenarioMount (lit "ext4") none none false none).Format ∧
    createFilesystem (scenarioEnv (lit "btrfs") (lit "") (lit "OEM") none)
        (scenarioMount (lit "ext4") none none false none) =
      (probeTrace (lit "/dev/sda1"), none) :=
  ⟨⟨rfl, rfl, rfl⟩, rfl, rfl, by decide, by decide, by decide⟩

/-! ## Formatting -/

/-- Once the reconcile step falls through with a supported format, the
formatter is run exactly once, after the probes, and its error decides the
result. -/
theorem createFilesystem_runs_mkfs {w : Env} {fs : Mount} {info : filesystemInfo}
    (hs : SupportedFormat fs.Format) (hp : Probed w fs info)
    (hr : reconcile w fs info = none) :
    ∃ mkfs args,
      createFilesystem w fs =
        (probeTrace fs.Device ++ [.exec mkfs args], (w.LogCmd mkfs args).map .mkfsFailed) ∧
      execs (createFilesystem w fs).1 = [(mkfs, args)] ∧
      ((createFilesystem w fs).2 = none ↔ w.LogCmd mkfs args = none) := by
  obtain ⟨mkfs, out, hsw⟩ := mkfsSwitch_isSome (w := w) (userArgs fs) hs
  have h := createFilesystem_mkfs hp hr hsw
  refine ⟨mkfs, out ++ [w.DeviceAlias fs.Device], h, ?_, ?_⟩
  · rw [h]
    simp [execs_append, execs_probeTrace, execs]
  · rw [h]
    cases w.LogCmd mkfs (out ++ [w.DeviceAlias fs.Device]) <;> simp

/-- C5: for every filesystem with a supported format whose probe succeeds, if
create is set and (create.force is true or the observed format is empty), or
create is absent and wipeFilesystem is true, then createFilesystem invokes the
formatter exactly once, whatever the observed format, label and UUID are, and
returns success iff the formatter succeeds. -/
theorem createFilesystem_forced_format (w : Env) (fs : Mount) (info : filesystemInfo)
    (hs : SupportedFormat fs.Format) (hp : Probed w fs info)
    (hcase : (∃ create, fs.Create = some create ∧
        (create.Force = true ∨ info.format = lit "")) ∨
      (fs.Create = none ∧ fs.WipeFilesystem = true)) :
    ∃ mkfs args,
      createFilesystem w fs =
        (probeTrace fs.Device ++ [.exec mkfs args], (w.LogCmd mkfs args).map .mkfsFailed) ∧
      execs (createFilesystem w fs).1 = [(mkfs, args)] ∧
      ((createFilesystem w fs).2 = none ↔ w.LogCmd mkfs args = none) := by
  apply createFilesystem_runs_mkfs hs hp
  rcases hcase with ⟨create, hc, hforce | hblank⟩ | ⟨hc, hw⟩
  · simp [reconcile, hc, hforce]
  · simp [reconcile, hc, hblank]
  · simp [reconcile, hc, hw]

/-- Witness of C5: create with force on a device probed as ext4 with label
DATA, desired xfs; the formatter fails and the failure is returned. -/
theorem createFilesystem_forced_format_witness :
    ∃ mkfs args,
      createFilesystem
          (scenarioEnv (lit "ext4") (lit "") (lit "DATA") (some (.external (lit "exit status 1"))))
          (scenarioMount (lit "xfs") none none false (some ⟨true, []⟩)) =
        (probeTrace (lit "/dev/sda1") ++ [.exec mkfs args],
          ((scenarioEnv (lit "ext4") (lit "") (lit "DATA")
            (some (.external (lit "exit status 1")))).LogCmd mkfs args).map .mkfsFailed) ∧
      execs (createFilesystem
          (scenarioEnv (lit "ext4") (lit "") (lit "DATA") (some (.external (lit "exit status 1"))))
          (scenarioMount (lit "xfs") none none false (some ⟨true, []⟩))).1 = [(mkfs, args)] ∧
      ((createFilesystem
          (scenarioEnv (lit "ext4") (lit "") (lit "DATA") (some (.external (lit "exit status 1"))))
          (scenarioMount (lit "xfs") none none false (some ⟨true, []⟩))).2 = none ↔
        (scenarioEnv (lit "ext4") (lit "") (lit "DATA")
          (some (.external (lit "exit status 1")))).LogCmd mkfs args = none) :=
  createFilesystem_forced_format
    (scenarioEnv (lit "ext4") (lit "") (lit "DATA") (some (.external (lit "exit status 1"))))
    (scenarioMount (lit "xfs") none none false (some ⟨true, []⟩))
    ⟨lit "ext4", lit "", lit "DATA"⟩ (by decide) ⟨rfl, rfl, rfl⟩
    (Or.inl ⟨⟨true, []⟩, rfl, Or.inl rfl⟩)

/-- C6 (as amended): for every filesystem with a supported desired format, no
create record and wipeFilesystem false, if the probe reports an empty format
then createFilesystem invokes the formatter exactly once, for every observed
UUID and every desired label and UUID, unless the keep condition of line
111-113 holds through the label: the observed label is "OEM", the desired label
is unset or "OEM", and the desired UUID is unset or has the canonical form of
the observed UUID. -/
theorem createFilesystem_blank_format (w : Env) (fs : Mount) (info : filesystemInfo)
    (hs : SupportedFormat fs.Format) (hp : Probed w fs info)
    (hc : fs.Create = none) (hw : fs.WipeFilesystem = false)
    (hf : info.format = lit "")
    (hne : info.label ≠ lit "OEM" ∨
      (∃ l, fs.Label = some l ∧ l ≠ info.label) ∨
      (∃ u, fs.UUID = some u ∧
        canonicalizeFilesystemUUID w.uni fs.Format u ≠
          canonicalizeFilesystemUUID w.uni info.format info.uuid)) :
    ∃ mkfs args,
      createFilesystem w fs =
        (probeTrace fs.Device ++ [.exec mkfs args], (w.LogCmd mkfs args).map .mkfsFailed) ∧
      execs (createFilesystem w fs).1 = [(mkfs, args)] ∧
      ((createFilesystem w fs).2 = none ↔ w.LogCmd mkfs args = none) := by
  apply createFilesystem_runs_mkfs hs hp
  have hfmt : info.format ≠ fs.Format := by
    intro h
    rw [hf] at h
    rcases hs with h1 | h1 | h1 | h1 | h1 <;> rw [h1] at h <;> exact absurd h (by decide)
  have hk : reconcile w fs info ≠ some none := by
    rw [Ne, reconcile_keep_iff hc hw]
    rintro ⟨h1, h2, h3⟩
    rcases hne with hb | ⟨l, hl, hn⟩ | ⟨u, hu, hn⟩
    · rcases h1 with h | h
      · exact hfmt h
      · exact hb h
    · exact hn (h2 l hl).symm
    · exact hn (h3 u hu).symm
  exact reconcile_blank hc hw hk hf

/-- Witness of C6 (as amended): a blank device, desired ext4 with label DATA. -/
theorem createFilesystem_blank_format_witness :
    ∃ mkfs args,
      createFilesystem (scenarioEnv (lit "") (lit "") (lit "") none)
          (scenarioMount (lit "ext4") (some (lit "DATA")) none false none) =
        (probeTrace (lit "/dev/sda1") ++ [.exec mkfs args],
          ((scenarioEnv (lit "") (lit "") (lit "") none).LogCmd mkfs args).map .mkfsFailed) ∧
      execs (createFilesystem (scenarioEnv (lit "") (lit "") (lit "") none)
          (scenarioMount (lit "ext4") (some (lit "DATA")) none false none)).1 = [(mkfs, args)] ∧
      ((createFilesystem (scenarioEnv (lit "") (lit "") (lit "") none)
          (scenarioMount (lit "ext4") (some (lit "DATA")) none false none)).2 = none ↔
        (scenarioEnv (lit "") (lit "") (lit "") none).LogCmd mkfs args = none) :=
  createFilesystem_blank_format (scenarioEnv (lit "") (lit "") (lit "") none)
    (scenarioMount (lit "ext4") (some (lit "DATA")) none false none)
    ⟨lit "", lit "", lit ""⟩ (by decide) ⟨rfl, rfl, rfl⟩ rfl rfl rfl
    (Or.inl (by decide))

/-- Counterexample to C6 as stated: the probe reports no filesystem (empty
format) but the label "OEM"; the configuration asks for ext4 without label or
UUID, no create record and no wipe.  The condition of line 111 holds through
the label and createFilesystem returns success without running the
formatter. -/
theorem createFilesystem_blank_oem_not_formatted :
    Probed (scenarioEnv (lit "") (lit "") (lit "OEM") none)
      (scenarioMount (lit "ext4") none none false none)
      ⟨lit "", lit "", lit "OEM"⟩ ∧
    (scenarioMount (lit "ext4") none none false none).Create = none ∧
    (scenarioMount (lit "ext4") none none false none).WipeFilesystem = false ∧
    createFilesystem (scenarioEnv (lit "") (lit "") (lit "OEM") none)
        (scenarioMount (lit "ext4") none none false none) =
      (probeTrace (lit "/dev/sda1"), none) ∧
    execs (createFilesystem (scenarioEnv (lit "") (lit "") (lit "OEM") none)
        (scenarioMount (lit "ext4") none none false none)).1 = [] :=
  ⟨⟨rfl, rfl, rfl⟩, rfl, rfl, by decide, by decide⟩

/-- Every run of `readFilesystemInfo` either reports an `info` after the three
probes or stops at a failed probe; no command is run either way. -/
theorem readFilesystemInfo_cases (w : Env) (fs : Mount) :
    (∃ info, Probed w fs info) ∨
      ∃ tr err, readFilesystemInfo w fs = (tr, .error err) ∧ execs tr = [] := by
  unfold readFilesystemInfo Probed
  cases h1 : w.FilesystemType fs.Device with
  | error e => exact Or.inr ⟨_, e, rfl, rfl⟩
  | ok format =>
    cases h2 : w.FilesystemUUID fs.Device with
    | error e => exact Or.inr ⟨_, e, rfl, rfl⟩
    | ok uuid =>
      cases h3 : w.FilesystemLabel fs.Device with
      | error e => exact Or.inr ⟨_, e, rfl, rfl⟩
      | ok label => exact Or.inl ⟨⟨format, uuid, label⟩, rfl, rfl, rfl⟩

/-- The shape of every run: a command-free part `pre` (the probes), then either
an early return, or the formatter as the last event, whose outcome is the
result. -/
theorem createFilesystem_shape (w : Env) (fs : Mount) :
    ∃ pre, execs pre = [] ∧
      ((∃ result, createFilesystem w fs = (pre, result)) ∨
        (∃ mkfs args, createFilesystem w fs =
          (pre ++ [.exec mkfs args], (w.LogCmd mkfs args).map .mkfsFailed))) := by
  rcases readFilesystemInfo_cases w fs with ⟨info, hp⟩ | ⟨tr, err, hr, he⟩
  · refine ⟨probeTrace fs.Device, rfl, ?_⟩
    cases hrec : reconcile w fs info with
    | some result => exact Or.inl ⟨result, createFilesystem_early hp hrec⟩
    | none =>
      cases hsw : mkfsSwitch w fs (userArgs fs) with
      | none => exact Or.inl ⟨_, createFilesystem_unsupported hp hrec hsw⟩
      | some p =>
        obtain ⟨mkfs, out⟩ := p
        exact Or.inr ⟨mkfs, _, createFilesystem_mkfs hp hrec hsw⟩
  · refine ⟨tr, he, Or.inl ⟨some err, ?_⟩⟩
    simp [createFilesystem, hr]

/-- The trace of a run (which probes are made, whether the formatter is run,
and with which arguments) does not depend on the outcome of the command. -/
theorem createFilesystem_trace_indep (w : Env) (fs : Mount)
    (cmd : GoString → List GoString → Option GoError) :
    (createFilesystem (withLogCmd w cmd) fs).1 = (createFilesystem w fs).1 := by
  have h1 : readFilesystemInfo (withLogCmd w cmd) fs = readFilesystemInfo w fs := rfl
  have h2 : ∀ info, reconcile (withLogCmd w cmd) fs info = reconcile w fs info :=
    fun _ => rfl
  have h3 : ∀ args, mkfsSwitch (withLogCmd w cmd) fs args = mkfsSwitch w fs args :=
    fun _ => rfl
  have h4 : (withLogCmd w cmd).DeviceAlias = w.DeviceAlias := rfl
  have h5 : (withLogCmd w cmd).LogCmd = cmd := rfl
  unfold createFilesystem
  simp only [h1, h2, h3, h4, h5]
  split
  · rfl
  · split
    · rfl
    · split
      · rfl
      · split <;> split <;> rfl

/-- C7: for every observed state (every environment, failing probes included)
and every desired filesystem, createFilesystem takes exactly one of three
actions: skip (success, no command), fail (an error, no command) or format (the
formatter is the one command, run last, after the probes, and its outcome is
the result).  The formatter is never run more than once, never on a run that
ends in ErrBadFilesystem, and which action is taken, with which arguments, is
fixed before the command runs: the trace does not depend on its outcome. -/
theorem createFilesystem_one_action (w : Env) (fs : Mount) :
    (∃ pre, execs pre = [] ∧
      (createFilesystem w fs = (pre, none) ∨
        (∃ err, createFilesystem w fs = (pre, some err)) ∨
        (∃ mkfs args, createFilesystem w fs =
          (pre ++ [.exec mkfs args], (w.LogCmd mkfs args).map .mkfsFailed)))) ∧
    (((createFilesystem w fs).2 = none ∧ execs (createFilesystem w fs).1 = []) ∨
      ((createFilesystem w fs).2 ≠ none ∧ execs (createFilesystem w fs).1 = []) ∨
      (execs (createFilesystem w fs).1).length = 1) ∧
    (execs (createFilesystem w fs).1).length ≤ 1 ∧
    ((createFilesystem w fs).2 = some .ErrBadFilesystem →
      execs (createFilesystem w fs).1 = []) ∧
    (∀ cmd, (createFilesystem (withLogCmd w cmd) fs).1 = (createFilesystem w fs).1) := by
  obtain ⟨pre, hpre, h⟩ := createFilesystem_shape w fs
  refine ⟨⟨pre, hpre, ?_⟩, ?_, ?_, ?_, createFilesystem_trace_indep w fs⟩
  · rcases h with ⟨result, h⟩ | h
    · cases result with
      | none => exact Or.inl h
      | some err => exact Or.inr (Or.inl ⟨err, h⟩)
    · exact Or.inr (Or.inr h)
  · rcases h with ⟨result, h⟩ | ⟨mkfs, args, h⟩
    · rw [h]
      cases result with
      | none => exact Or.inl ⟨rfl, hpre⟩
      | some err => exact Or.inr (Or.inl ⟨by simp, hpre⟩)
    · rw [h]
      exact Or.inr (Or.inr (by simp [execs_append, hpre, execs]))
  · rcases h with ⟨result, h⟩ | ⟨mkfs, args, h⟩
    · rw [h]
      simp [hpre]
    · rw [h]
      simp [execs_append, hpre, execs]
  · rcases h with ⟨result, h⟩ | ⟨mkfs, args, h⟩
    · rw [h]
      exact fun _ => hpre
    · rw [h]
      intro hbad
      cases hcmd : w.LogCmd mkfs args <;> simp [hcmd] at hbad

/-! ## UUID canonicalization -/

/-- On ASCII input `ToLower` is the byte-wise map of the fast path. -/
theorem ToLower_ascii (uni : GoString → GoString) (s : GoString)
    (h : ∀ c ∈ s, c < 128) :
    ToLower uni s = s.map (fun c => if 65 ≤ c ∧ c ≤ 90 then c + 32 else c) := by
  have : s.all (fun c => decide (c < 128)) = true := by
    simpa [List.all_eq_true] using h
  simp [ToLower, this]

/-- Lower-casing a byte yields a dash only from a dash. -/
theorem lower_byte_eq_dash (c : Nat) :
    (if 65 ≤ c ∧ c ≤ 90 then c + 32 else c) = 45 ↔ c = 45 := by
  split_ifs with h <;> omega

/-- The canonical form only depends on the lower-cased string. -/
theorem canonicalizeFilesystemUUID_congr (uni : GoString → GoString)
    (format x y : GoString) (h : ToLower uni x = ToLower uni y) :
    canonicalizeFilesystemUUID uni format x = canonicalizeFilesystemUUID uni format y := by
  simp [canonicalizeFilesystemUUID, h]

/-- C9: canonicalizeFilesystemUUID(format, uuid) is the lower-cased uuid for
every format other than "vfat"; for "vfat" it is the lower-cased uuid with the
byte at index 4 removed when that byte is a dash (which needs at least 5
bytes), and the lower-cased uuid unchanged otherwise.  Only index 4 is ever
removed.  On ASCII input the lower-cased string has a dash at index 4 exactly
when the input has one. -/
theorem canonicalizeFilesystemUUID_spec (uni : GoString → GoString)
    (format uuid : GoString) :
    (format ≠ lit "vfat" →
      canonicalizeFilesystemUUID uni format uuid = ToLower uni uuid) ∧
    (format = lit "vfat" → (ToLower uni uuid)[4]? = some 45 →
      5 ≤ (ToLower uni uuid).length ∧
      canonicalizeFilesystemUUID uni format uuid = (ToLower uni uuid).eraseIdx 4) ∧
    (format = lit "vfat" → (ToLower uni uuid)[4]? ≠ some 45 →
      canonicalizeFilesystemUUID uni format uuid = ToLower uni uuid) ∧
    ((∀ c ∈ uuid, c < 128) →
      ((ToLower uni uuid)[4]? = some 45 ↔ uuid[4]? = some 45)) := by
  refine ⟨?_, ?_, ?_, ?_⟩
  · intro hf
    simp [canonicalizeFilesystemUUID, hf]
  · intro hf h4
    have hlen : 5 ≤ (ToLower uni uuid).length := by
      by_contra hlt
      rw [List.getElem?_eq_none (by omega)] at h4
      exact absurd h4 (by simp)
    refine ⟨hlen, ?_⟩
    simp only [canonicalizeFilesystemUUID, hf, if_true, h4, and_true, ge_iff_le, hlen]
    exact (List.eraseIdx_eq_take_drop_succ _ _).symm
  · intro hf h4
    simp [canonicalizeFilesystemUUID, hf, h4]
  · intro hascii
    rw [ToLower_ascii uni uuid hascii, List.getElem?_map]
    cases h : uuid[4]? with
    | none => simp
    | some c => simp [lower_byte_eq_dash]

/-- With a dash between two ASCII halves of four bytes, the vfat canonical form
is the lower-cased halves joined. -/
theorem canonicalizeFilesystemUUID_vfat_dashed (uni : GoString → GoString)
    (a b : GoString) (ha : a.length = 4) (hascii : ∀ c ∈ a ++ b, c < 128) :
    canonicalizeFilesystemUUID uni (lit "vfat") (a ++ lit "-" ++ b) =
      ToLower uni (a ++ b) := by
  have hdash : lit "-" = [45] := rfl
  have hascii2 : ∀ c ∈ a ++ lit "-" ++ b, c < 128 := by
    intro c hc
    simp only [hdash, List.mem_append, List.mem_singleton] at hc
    rcases hc with (hc | hc) | hc
    · exact hascii c (List.mem_append_left _ hc)
    · omega
    · exact hascii c (List.mem_append_right _ hc)
  rw [ToLower_ascii uni _ hascii]
  simp only [canonicalizeFilesystemUUID, ToLower_ascii uni _ hascii2, if_true]
  rw [hdash]
  obtain ⟨a0, a1, a2, a3, rfl⟩ : ∃ a0 a1 a2 a3, a = [a0, a1, a2, a3] := by
    match a, ha with
    | [a0, a1, a2, a3], _ => exact ⟨a0, a1, a2, a3, rfl⟩
  simp

/-- Without a dash at index 4, the vfat canonical form of an ASCII string is
its lower-cased form. -/
theorem canonicalizeFilesystemUUID_vfat_plain (uni : GoString → GoString)
    (s : GoString) (hascii : ∀ c ∈ s, c < 128) (hdash : s[4]? ≠ some 45) :
    canonicalizeFilesystemUUID uni (lit "vfat") s = ToLower uni s := by
  have h4 : (ToLower uni s)[4]? ≠ some 45 := by
    rw [ToLower_ascii uni s hascii, List.getElem?_map]
    cases h : s[4]? with
    | none => simp
    | some c =>
      rw [h] at hdash
      simpa [lower_byte_eq_dash] using hdash
  simp [canonicalizeFilesystemUUID, h4]

/-- C8: for every 8-character volume ID s = a ++ b of ASCII characters (a and b
of length 4, s[4] not a dash), in any letter case, the vfat canonical form of
a ++ "-" ++ b equals that of s, which is the lower-cased s.  Hence a device
probed as vfat with UUID a ++ "-" ++ b, and a desired vfat filesystem whose
UUID is s in any letter case (no create, no wipe, label unset or equal), are
considered equal and the filesystem is skipped. -/
theorem canonicalizeFilesystemUUID_vfat_dash (uni : GoString → GoString)
    (a b : GoString) (ha : a.length = 4) (hb : b.length = 4)
    (hascii : ∀ c ∈ a ++ b, c < 128) (hdash : (a ++ b)[4]? ≠ some 45) :
    canonicalizeFilesystemUUID uni (lit "vfat") (a ++ lit "-" ++ b) =
      canonicalizeFilesystemUUID uni (lit "vfat") (a ++ b) ∧
    canonicalizeFilesystemUUID uni (lit "vfat") (a ++ b) = ToLower uni (a ++ b) ∧
    (a ++ b).length = 8 ∧
    ∀ (w : Env) (fs : Mount) (info : filesystemInfo) (d : GoString),
      w.uni = uni → Probed w fs info → fs.Create = none → fs.WipeFilesystem = false →
      info.format = lit "vfat" → fs.Format = lit "vfat" →
      (fs.Label = none ∨ fs.Label = some info.label) →
      info.uuid = a ++ lit "-" ++ b → fs.UUID = some d →
      ToLower uni d = ToLower uni (a ++ b) →
      createFilesystem w fs = (probeTrace fs.Device, none) ∧
        execs (createFilesystem w fs).1 = [] := by
  have h1 := canonicalizeFilesystemUUID_vfat_dashed uni a b ha hascii
  have h2 := canonicalizeFilesystemUUID_vfat_plain uni (a ++ b) hascii hdash
  refine ⟨h1.trans h2.symm, h2, by simp [ha, hb], ?_⟩
  intro w fs info d hw hp hc hwipe hif hff hl hiu hfu hd
  subst hw
  have hk : reconcile w fs info = some none := by
    refine (reconcile_keep_iff hc hwipe).mpr ⟨Or.inl (hif.trans hff.symm), ?_, ?_⟩
    · intro l hl1
      rcases hl with h | h <;> simp_all
    · intro u hu1
      rw [hfu] at hu1
      cases hu1
      rw [hif, hff, hiu, h1, ← h2]
      exact (canonicalizeFilesystemUUID_congr w.uni _ _ _ hd).symm
  have h := createFilesystem_early hp hk
  exact ⟨h, by rw [h]; rfl⟩

/-- Witness of C8, the vfat scenario of the specification: observed UUID
A1B2-C3D4, desired UUID a1b2c3d4. -/
theorem canonicalizeFilesystemUUID_vfat_dash_witness :
    canonicalizeFilesystemUUID (fun s => s) (lit "vfat") (lit "A1B2-C3D4") =
      canonicalizeFilesystemUUID (fun s => s) (lit "vfat") (lit "A1B2C3D4") ∧
    canonicalizeFilesystemUUID (fun s => s) (lit "vfat") (lit "A1B2C3D4") = lit "a1b2c3d4" ∧
    createFilesystem (scenarioEnv (lit "vfat") (lit "A1B2-C3D4") (lit "") none)
        (scenarioMount (lit "vfat") none (some (lit "a1b2c3d4")) false none) =
      (probeTrace (lit "/dev/sda1"), none) :=
  have h := canonicalizeFilesystemUUID_vfat_dash (fun s => s) (lit "A1B2") (lit "C3D4")
    rfl rfl (by decide) (by decide)
  ⟨h.1, h.2.1, (h.2.2.2 (scenarioEnv (lit "vfat") (lit "A1B2-C3D4") (lit "") none)
    (scenarioMount (lit "vfat") none (some (lit "a1b2c3d4")) false none)
    ⟨lit "vfat", lit "A1B2-C3D4", lit ""⟩ (lit "a1b2c3d4")
    rfl ⟨rfl, rfl, rfl⟩ rfl rfl rfl rfl (Or.inl rfl) rfl rfl rfl).1⟩

/-! ## The formatter's argument list -/

theorem userArgs_eq_spec (fs : Mount) : userArgs fs = specUserOptions fs := by
  unfold userArgs specUserOptions translateMountOptionSliceToStringSlice
    translateCreateOptionSliceToStringSlice
  cases fs.Create <;> simp

/-- What the `switch` appends to `args`, in the words of the specification. -/
theorem mkfsSwitch_args {w : Env} {fs : Mount} {args out : List GoString}
    {mkfs : GoString} (h : mkfsSwitch w fs args = some (mkfs, out)) :
    out = args ++ specForceFlag fs.Format ++
      (match fs.UUID with
        | some u => specUUIDFlag fs.Format (canonicalizeFilesystemUUID w.uni fs.Format u)
        | none => []) ++
      (match fs.Label with
        | some l => specLabelFlag fs.Format l
        | none => []) := by
  have e1 : lit "ext4" ≠ lit "btrfs" := by decide
  have e2 : lit "xfs" ≠ lit "btrfs" := by decide
  have e3 : lit "xfs" ≠ lit "ext4" := by decide
  have e4 : lit "swap" ≠ lit "btrfs" := by decide
  have e5 : lit "swap" ≠ lit "ext4" := by decide
  have e6 : lit "swap" ≠ lit "xfs" := by decide
  have e7 : lit "vfat" ≠ lit "btrfs" := by decide
  have e8 : lit "vfat" ≠ lit "ext4" := by decide
  have e9 : lit "vfat" ≠ lit "xfs" := by decide
  have e10 : lit "vfat" ≠ lit "swap" := by decide
  have e11 : lit "btrfs" ≠ lit "xfs" := by decide
  have e12 : lit "btrfs" ≠ lit "vfat" := by decide
  have e13 : lit "ext4" ≠ lit "xfs" := by decide
  have e14 : lit "ext4" ≠ lit "vfat" := by decide
  have e15 : lit "swap" ≠ lit "vfat" := by decide
  unfold mkfsSwitch at h
  unfold specForceFlag specUUIDFlag specLabelFlag
  split_ifs at h with h1 h2 h3 h4 h5
  · simp only [Option.some.injEq, Prod.mk.injEq] at h
    rw [← h.2, h1]
    cases fs.UUID <;> cases fs.Label <;> simp [e11, e12]
  · simp only [Option.some.injEq, Prod.mk.injEq] at h
    rw [← h.2, h2]
    cases fs.UUID <;> cases fs.Label <;> simp [e1, e13, e14]
  · simp only [Option.some.injEq, Prod.mk.injEq] at h
    rw [← h.2, h3]
    cases fs.UUID <;> cases fs.Label <;> simp [e2, e3, e9.symm]
  · simp only [Option.some.injEq, Prod.mk.injEq] at h
    rw [← h.2, h4]
    cases fs.UUID <;> cases fs.Label <;> simp [e4, e5, e6, e15]
  · simp only [Option.some.injEq, Prod.mk.injEq] at h
    rw [← h.2, h5]
    cases fs.UUID <;> cases fs.Label <;> simp [e7, e8, e9, e10]

/-- C10: for every filesystem that is formatted (every command in the trace of
createFilesystem), the formatter's argument list is exactly: the user-provided
options in their original order (create.options when create is set, otherwise
the mount options), then the force flag of the format, then, iff a UUID is set,
the UUID flag with the canonical UUID, then, iff a label is set, the label
flag, then the device alias as the last argument. -/
theorem createFilesystem_mkfs_args (w : Env) (fs : Mount)
    (name : GoString) (args : List GoString)
    (hmem : (name, args) ∈ execs (createFilesystem w fs).1) :
    args = specMkfsArgs w fs := by
  rcases readFilesystemInfo_cases w fs with ⟨info, hp⟩ | ⟨tr, err, hr, he⟩
  · cases hrec : reconcile w fs info with
    | some result =>
      rw [createFilesystem_early hp hrec] at hmem
      simp [execs_probeTrace] at hmem
    | none =>
      cases hsw : mkfsSwitch w fs (userArgs fs) with
      | none =>
        rw [createFilesystem_unsupported hp hrec hsw] at hmem
        simp [execs_probeTrace] at hmem
      | some p =>
        obtain ⟨mkfs, out⟩ := p
        rw [createFilesystem_mkfs hp hrec hsw] at hmem
        simp only [execs_append, execs_probeTrace, execs, List.nil_append,
          List.mem_singleton, Prod.mk.injEq] at hmem
        rw [hmem.2, mkfsSwitch_args hsw, userArgs_eq_spec]
        rfl
  · have h : createFilesystem w fs = (tr, some err) := by
      simp [createFilesystem, hr]
    rw [h] at hmem
    simp [he] at hmem

/-- Witness of C10: create with force and the option -K, desired xfs with UUID
AB-CD and label DATA; the command is mkfs.xfs -K -f -m uuid=ab-cd -L DATA
followed by the device alias. -/
theorem createFilesystem_mkfs_args_witness :
    (lit "mkfs.xfs", [lit "-K", lit "-f", lit "-m", lit "uuid=ab-cd", lit "-L", lit "DATA",
        lit "/run/ignition/dev_aliases/dev/sda1"]) ∈
      execs (createFilesystem (scenarioEnv (lit "ext4") (lit "") (lit "") none)
        (scenarioMount (lit "xfs") (some (lit "DATA")) (some (lit "AB-CD")) false
          (some ⟨true, [lit "-K"]⟩))).1 ∧
    [lit "-K", lit "-f", lit "-m", lit "uuid=ab-cd", lit "-L", lit "DATA",
        lit "/run/ignition/dev_aliases/dev/sda1"] =
      specMkfsArgs (scenarioEnv (lit "ext4") (lit "") (lit "") none)
        (scenarioMount (lit "xfs") (some (lit "DATA")) (some (lit "AB-CD")) false
          (some ⟨true, [lit "-K"]⟩)) :=
  ⟨by decide,
    createFilesystem_mkfs_args (scenarioEnv (lit "ext4") (lit "") (lit "") none)
      (scenarioMount (lit "xfs") (some (lit "DATA")) (some (lit "AB-CD")) false
        (some ⟨true, [lit "-K"]⟩))
      (lit "mkfs.xfs") _ (by decide)⟩

/-! ## Unsupported formats -/

theorem mkfsSwitch_unsupported {w : Env} {fs : Mount} (args : List GoString)
    (hf : ¬ SupportedFormat fs.Format) : mkfsSwitch w fs args = none := by
  unfold SupportedFormat at hf
  simp only [not_or] at hf
  obtain ⟨h1, h2, h3, h4, h5⟩ := hf
  simp [mkfsSwitch, h1, h2, h3, h4, h5]

/-- C11 (as amended): for every filesystem whose format is not one of btrfs,
ext4, xfs, swap, vfat (the empty format included), whatever the observed state,
create.force and wipeFilesystem are, the formatter is never invoked.  When the
probes succeed and the reconcile step does not return early (create with force
or on an empty observed format, or wipeFilesystem without create, or an empty
observed format that fails the keep condition), createFilesystem returns the
unsupported-format error.  It returns success only with no create record, no
wipe and the keep condition of lines 111-113 holding. -/
theorem createFilesystem_unsupported_format (w : Env) (fs : Mount)
    (hf : ¬ SupportedFormat fs.Format) :
    execs (createFilesystem w fs).1 = [] ∧
    (∀ info, Probed w fs info →
      ((∃ create, fs.Create = some create ∧
          (create.Force = true ∨ info.format = lit "")) ∨
        (fs.Create = none ∧ fs.WipeFilesystem = true) ∨
        (fs.Create = none ∧ fs.WipeFilesystem = false ∧ info.format = lit "" ∧
          ((info.format ≠ fs.Format ∧ info.label ≠ lit "OEM") ∨
            (∃ l, fs.Label = some l ∧ l ≠ info.label) ∨
            (∃ u, fs.UUID = some u ∧
              canonicalizeFilesystemUUID w.uni fs.Format u ≠
                canonicalizeFilesystemUUID w.uni info.format info.uuid)))) →
      createFilesystem w fs =
        (probeTrace fs.Device, some (.unsupportedFormat fs.Format))) ∧
    ((createFilesystem w fs).2 = none →
      fs.Create = none ∧ fs.WipeFilesystem = false ∧
      ∃ info, Probed w fs info ∧
        (info.format = fs.Format ∨ info.label = lit "OEM") ∧
        (∀ l, fs.Label = some l → info.label = l) ∧
        (∀ u, fs.UUID = some u →
          canonicalizeFilesystemUUID w.uni info.format info.uuid =
            canonicalizeFilesystemUUID w.uni fs.Format u)) := by
  have hsw := mkfsSwitch_unsupported (w := w) (userArgs fs) hf
  refine ⟨?_, ?_, ?_⟩
  · rcases readFilesystemInfo_cases w fs with ⟨info, hp⟩ | ⟨tr, err, hr, he⟩
    · cases hrec : reconcile w fs info with
      | some result => rw [createFilesystem_early hp hrec]; rfl
      | none => rw [createFilesystem_unsupported hp hrec hsw]; rfl
    · have h : createFilesystem w fs = (tr, some err) := by
        simp [createFilesystem, hr]
      rw [h]
      exact he
  · intro info hp hcase
    apply createFilesystem_unsupported hp _ hsw
    rcases hcase with ⟨create, hc, hforce | hblank⟩ | ⟨hc, hw⟩ | ⟨hc, hw, hblank, hm⟩
    · simp [reconcile, hc, hforce]
    · simp [reconcile, hc, hblank]
    · simp [reconcile, hc, hw]
    · apply reconcile_blank hc hw _ hblank
      rw [Ne, reconcile_keep_iff hc hw]
      rintro ⟨h1, h2, h3⟩
      rcases hm with ⟨ha, hb⟩ | ⟨l, hl, hne⟩ | ⟨u, hu, hne⟩
      · rcases h1 with h | h
        · exact ha h
        · exact hb h
      · exact hne (h2 l hl).symm
      · exact hne (h3 u hu).symm
  · intro hnone
    rcases readFilesystemInfo_cases w fs with ⟨info, hp⟩ | ⟨tr, err, hr, he⟩
    · cases hrec : reconcile w fs info with
      | some result =>
        rw [createFilesystem_early hp hrec] at hnone
        simp only at hnone
        subst hnone
        have hc : fs.Create = none := by
          unfold reconcile at hrec
          cases hcr : fs.Create with
          | none => rfl
          | some create =>
            rw [hcr] at hrec
            simp only at hrec
            split_ifs at hrec
            simp at hrec
        have hw : fs.WipeFilesystem = false := by
          unfold reconcile at hrec
          rw [hc] at hrec
          simp only at hrec
          cases hwf : fs.WipeFilesystem with
          | false => rfl
          | true => simp [hwf] at hrec
        exact ⟨hc, hw, info, hp, (reconcile_keep_iff hc hw).mp hrec⟩
      | none =>
        rw [createFilesystem_unsupported hp hrec hsw] at hnone
        simp at hnone
    · have h : createFilesystem w fs = (tr, some err) := by
        simp [createFilesystem, hr]
      rw [h] at hnone
      simp at hnone

/-- Witness of C11 (as amended): create with force and no format on a device
probed as vfat returns the unsupported-format error without any command. -/
theorem createFilesystem_unsupported_format_witness :
    execs (createFilesystem (scenarioEnv (lit "vfat") (lit "") (lit "EFI-SYSTEM") none)
        (scenarioMount (lit "") none none false (some ⟨true, []⟩))).1 = [] ∧
    createFilesystem (scenarioEnv (lit "vfat") (lit "") (lit "EFI-SYSTEM") none)
        (scenarioMount (lit "") none none false (some ⟨true, []⟩)) =
      (probeTrace (lit "/dev/sda1"), some (.unsupportedFormat (lit ""))) :=
  have h := createFilesystem_unsupported_format
    (scenarioEnv (lit "vfat") (lit "") (lit "EFI-SYSTEM") none)
    (scenarioMount (lit "") none none false (some ⟨true, []⟩)) (by decide)
  ⟨h.1, h.2.1 ⟨lit "vfat", lit "", lit "EFI-SYSTEM"⟩ ⟨rfl, rfl, rfl⟩
    (Or.inl ⟨⟨true, []⟩, rfl, Or.inl rfl⟩)⟩

/-- Counterexample to C11 as stated: a blank device (the probes report empty
format, UUID and label) and a configuration without format, label, UUID, create
record or wipe.  The observed format equals the desired one, the keep condition
holds, and createFilesystem returns success, not an error. -/
theorem createFilesystem_empty_format_kept :
    ¬ SupportedFormat (scenarioMount (lit "") none none false none).Format ∧
    Probed (scenarioEnv (lit "") (lit "") (lit "") none)
      (scenarioMount (lit "") none none false none) ⟨lit "", lit "", lit ""⟩ ∧
    createFilesystem (scenarioEnv (lit "") (lit "") (lit "") none)
        (scenarioMount (lit "") none none false none) =
      (probeTrace (lit "/dev/sda1"), none) :=
  ⟨by decide, ⟨rfl, rfl, rfl⟩, by decide⟩

/-! ## Fetcher: copy, hash and verify -/

theorem File.Write_content {f d : File} {p : List Nat}
    (h : f.Write p = (d, none)) : d.content = f.content ++ p := by
  unfold File.Write at h
  split at h
  · simp only [Prod.mk.injEq, and_true] at h
    rw [← h]
  · split_ifs at h
    · simp only [Prod.mk.injEq, and_true] at h
      rw [← h]
    · simp at h

theorem Hasher.Sum_Write_Reset (h : Hasher) (p : List Nat) :
    (h.Reset.Write p).Sum = h.digest p := by
  simp [Hasher.Sum, Hasher.Write, Hasher.Reset]

/-- The result of `decompressCopyHashAndVerify` once decompression and copy
succeed with a hasher set. -/
theorem decompressCopyHashAndVerify_hashed {n : Net} {dest d : File} {src r : Reader}
    {opts : FetchOptions} {h : Hasher} (hh : opts.Hash = some h)
    (hu : uncompress n src opts = .ok r) (hr : r.err = none)
    (hw : dest.Write r.data = (d, none)) :
    decompressCopyHashAndVerify n dest src opts =
      (d, if h.digest r.data = opts.ExpectedSum then none
        else some (.ErrHashMismatch (EncodeToString (h.digest r.data))
          (EncodeToString opts.ExpectedSum))) := by
  simp only [decompressCopyHashAndVerify, hu, ioCopy, hw, hh, Option.map_some', hr,
    Hasher.Sum_Write_Reset]
  split_ifs <;> simp_all

/-- A successful `decompressCopyHashAndVerify` appended a stream to the file
whose digest, when a hasher is set, is the expected sum. -/
theorem decompressCopyHashAndVerify_success {n : Net} {dest d : File} {src : Reader}
    {opts : FetchOptions}
    (h : decompressCopyHashAndVerify n dest src opts = (d, none)) :
    ∃ data, d.content = dest.content ++ data ∧
      ∀ hs, opts.Hash = some hs → hs.digest data = opts.ExpectedSum := by
  unfold decompressCopyHashAndVerify at h
  cases hu : uncompress n src opts with
  | error e => simp [hu] at h
  | ok r =>
    simp only [hu, ioCopy] at h
    cases hw : dest.Write r.data with
    | mk d1 werr =>
      cases werr with
      | some e => simp [hw] at h
      | none =>
        simp only [hw] at h
        cases hr : r.err with
        | some e => simp [hr] at h
        | none =>
          simp only [hr] at h
          cases hh : opts.Hash with
          | none =>
            simp only [hh, Option.map_none', Prod.mk.injEq, and_true] at h
            subst h
            exact ⟨r.data, File.Write_content hw, by simp⟩
          | some hs =>
            simp only [hh, Option.map_some', Hasher.Sum_Write_Reset] at h
            split_ifs at h with hne
            · simp at h
            · simp only [Prod.mk.injEq, and_true] at h
              subst h
              refine ⟨r.data, File.Write_content hw, ?_⟩
              intro hs2 hhs2
              cases hhs2
              exact not_not.mp hne

/-- C13: for every source stream and options with a hash set, when
decompression (gzip, or none) and copying succeed, decompressCopyHashAndVerify
appends exactly the decompressed bytes to the sink and returns success iff the
digest of the decompressed bytes (the stream of the gzip reader, not the source
bytes) equals ExpectedSum; otherwise it returns ErrHashMismatch whose
Calculated and Expected fields are the hex encodings of the computed and the
expected digest. -/
theorem decompressCopyHashAndVerify_verifies (n : Net) (dest : File) (src r : Reader)
    (opts : FetchOptions) (h : Hasher) (hh : opts.Hash = some h)
    (hu : uncompress n src opts = .ok r) (hr : r.err = none)
    (hw : (dest.Write r.data).2 = none) :
    (opts.Compression = lit "" ∨ opts.Compression = lit "gzip") ∧
    (opts.Compression = lit "" → r = src) ∧
    (opts.Compression = lit "gzip" → n.gzipNewReader src = .ok r) ∧
    (decompressCopyHashAndVerify n dest src opts).1.content = dest.content ++ r.data ∧
    ((decompressCopyHashAndVerify n dest src opts).2 = none ↔
      h.digest r.data = opts.ExpectedSum) ∧
    (h.digest r.data ≠ opts.ExpectedSum →
      (decompressCopyHashAndVerify n dest src opts).2 =
        some (.ErrHashMismatch (EncodeToString (h.digest r.data))
          (EncodeToString opts.ExpectedSum))) := by
  have hw2 : dest.Write r.data = ((dest.Write r.data).1, none) := by
    rw [← hw]
  have hres := decompressCopyHashAndVerify_hashed hh hu hr hw2
  have hgz : lit "gzip" ≠ lit "" := by decide
  refine ⟨?_, ?_, ?_, ?_, ?_, ?_⟩
  · unfold uncompress at hu
    split_ifs at hu with h1 h2
    · exact Or.inl h1
    · exact Or.inr h2
  · intro hc
    simp only [uncompress, hc, if_true, Except.ok.injEq] at hu
    exact hu.symm
  · intro hc
    simpa [uncompress, hc, hgz] using hu
  · rw [hres]
    exact File.Write_content hw2
  · rw [hres]
    split_ifs with heq <;> simp [heq]
  · intro hne
    rw [hres]
    simp [hne]

/-- Witness of C13: the stand-in gzip stream `1f 8b 68 69` decompresses to
`68 69` ("hi"), whose checksum is d1 (the checksum of the compressed bytes is
7b).  With expected sum d1 the call succeeds and the sink holds "hi". -/
theorem decompressCopyHashAndVerify_verifies_witness :
    (decompressCopyHashAndVerify (scenarioNet 200 []) (scenarioFile [])
        ⟨[31, 139, 104, 105], none⟩ (scenarioOpts true [209] (lit "gzip"))).1.content =
      [104, 105] ∧
    (decompressCopyHashAndVerify (scenarioNet 200 []) (scenarioFile [])
        ⟨[31, 139, 104, 105], none⟩ (scenarioOpts true [209] (lit "gzip"))).2 = none ∧
    checksum [31, 139, 104, 105] ≠ [209] :=
  have h := decompressCopyHashAndVerify_verifies (scenarioNet 200 []) (scenarioFile [])
    ⟨[31, 139, 104, 105], none⟩ ⟨[104, 105], none⟩ (scenarioOpts true [209] (lit "gzip"))
    ⟨checksum, [7, 7]⟩ rfl rfl rfl rfl
  ⟨h.2.2.2.1, h.2.2.2.2.1.mpr (by decide), by decide⟩

/-! ## Fetcher: what a successful backend wrote -/

theorem Delivered_of_err (dest : File) (opts : FetchOptions) (tr : List FetchEvent)
    (d : File) (e : FetchError) : Delivered dest opts ⟨tr, d, some e⟩ := by
  intro h
  simp at h

theorem Delivered_of_copy {n : Net} {dest d : File} {src : Reader} {opts : FetchOptions}
    {e : Option FetchError} (tr : List FetchEvent)
    (h : decompressCopyHashAndVerify n dest src opts = (d, e)) :
    Delivered dest opts ⟨tr, d, e⟩ := by
  intro he
  simp only at he
  subst he
  exact decompressCopyHashAndVerify_success h

theorem FetchFromHTTP_delivered (n : Net) (f : Fetcher) (u : URL) (dest : File)
    (opts : FetchOptions) : Delivered dest opts (FetchFromHTTP n f u dest opts) := by
  unfold FetchFromHTTP
  dsimp only
  repeat' split
  all_goals first
    | exact Delivered_of_err _ _ _ _ _
    | exact Delivered_of_copy _ ‹_›
    | exact Delivered_of_copy _ rfl

theorem FetchFromTFTP_delivered (n : Net) (u : URL) (dest : File)
    (opts : FetchOptions) : Delivered dest opts (FetchFromTFTP n u dest opts) := by
  unfold FetchFromTFTP
  dsimp only
  repeat' split
  all_goals first
    | exact Delivered_of_err _ _ _ _ _
    | exact Delivered_of_copy _ ‹_›

theorem FetchFromDataURL_delivered (n : Net) (u : URL) (dest : File)
    (opts : FetchOptions) : Delivered dest opts (FetchFromDataURL n u dest opts) := by
  unfold FetchFromDataURL
  repeat' split
  all_goals first
    | exact Delivered_of_err _ _ _ _ _
    | exact Delivered_of_copy _ ‹_›

theorem FetchFromOEM_delivered (n : Net) (u : URL) (dest : File)
    (opts : FetchOptions) : Delivered dest opts (FetchFromOEM n u dest opts) := by
  unfold FetchFromOEM
  dsimp only
  repeat' split
  all_goals first
    | exact Delivered_of_err _ _ _ _ _
    | exact Delivered_of_copy _ ‹_›
    | exact Delivered_of_copy _ rfl

theorem FetchFromS3_verified {fuel : Nat} {n : Net} {f : Fetcher} {u : URL} {dest : File}
    {opts : FetchOptions} {r : FetchResult}
    (h : FetchFromS3 fuel n f u dest opts = some r) (hok : r.err = none) :
    ∀ hs, opts.Hash = some hs → hs.digest r.dest.content = opts.ExpectedSum := by
  unfold FetchFromS3 at h
  dsimp only at h
  repeat' split at h
  all_goals try (simp only [Option.some.injEq] at h; subst h; simp at hok; done)
  all_goals try (simp at h; done)
  all_goals
    simp only [Option.some.injEq] at h
    subst h
    intro hs hhs
    simp_all [Hasher.Sum_Write_Reset, File.reader]

/-! ## Fetcher: scheme dispatch -/

/-- C16: for every URL whose scheme is not exactly one of "http", "https",
"tftp", "data", "oem", "s3" or the empty string, Fetch returns
ErrSchemeUnsupported, makes no call and leaves the sink as it was; for each of
the listed schemes Fetch returns exactly the result of the corresponding
backend (for the empty scheme: success, nothing done). -/
theorem Fetch_dispatch (fuel : Nat) (n : Net) (f : Fetcher) (u : URL) (dest : File)
    (opts : FetchOptions) :
    (u.Scheme = lit "http" ∨ u.Scheme = lit "https" →
      Fetch fuel n f u dest opts = some (FetchFromHTTP n f u dest opts)) ∧
    (u.Scheme = lit "tftp" →
      Fetch fuel n f u dest opts = some (FetchFromTFTP n u dest opts)) ∧
    (u.Scheme = lit "data" →
      Fetch fuel n f u dest opts = some (FetchFromDataURL n u dest opts)) ∧
    (u.Scheme = lit "oem" →
      Fetch fuel n f u dest opts = some (FetchFromOEM n u dest opts)) ∧
    (u.Scheme = lit "s3" →
      Fetch fuel n f u dest opts = FetchFromS3 fuel n f u dest opts) ∧
    (u.Scheme = lit "" → Fetch fuel n f u dest opts = some ⟨[], dest, none⟩) ∧
    (u.Scheme ≠ lit "http" → u.Scheme ≠ lit "https" → u.Scheme ≠ lit "tftp" →
      u.Scheme ≠ lit "data" → u.Scheme ≠ lit "oem" → u.Scheme ≠ lit "s3" →
      u.Scheme ≠ lit "" →
      Fetch fuel n f u dest opts = some ⟨[], dest, some .ErrSchemeUnsupported⟩) := by
  refine ⟨?_, ?_, ?_, ?_, ?_, ?_, ?_⟩
  · intro h
    simp [Fetch, h]
  · intro h
    have : lit "tftp" ≠ lit "http" ∧ lit "tftp" ≠ lit "https" := by decide
    simp [Fetch, h, this]
  · intro h
    have : lit "data" ≠ lit "http" ∧ lit "data" ≠ lit "https" ∧ lit "data" ≠ lit "tftp" := by
      decide
    simp [Fetch, h, this]
  · intro h
    have : lit "oem" ≠ lit "http" ∧ lit "oem" ≠ lit "https" ∧ lit "oem" ≠ lit "tftp" ∧
        lit "oem" ≠ lit "data" := by decide
    simp [Fetch, h, this]
  · intro h
    have : lit "s3" ≠ lit "http" ∧ lit "s3" ≠ lit "https" ∧ lit "s3" ≠ lit "tftp" ∧
        lit "s3" ≠ lit "data" ∧ lit "s3" ≠ lit "oem" := by decide
    simp [Fetch, h, this]
  · intro h
    have : lit "" ≠ lit "http" ∧ lit "" ≠ lit "https" ∧ lit "" ≠ lit "tftp" ∧
        lit "" ≠ lit "data" ∧ lit "" ≠ lit "oem" ∧ lit "" ≠ lit "s3" := by decide
    simp [Fetch, h, this]
  · intro h1 h2 h3 h4 h5 h6 h7
    simp [Fetch, h1, h2, h3, h4, h5, h6, h7]

/-- C15: for every URL with empty scheme and every options (any headers, hash,
expected sum and compression), Fetch returns success, makes no call and writes
zero bytes to the sink. -/
theorem Fetch_empty_scheme (fuel : Nat) (n : Net) (f : Fetcher) (u : URL) (dest : File)
    (opts : FetchOptions) (hs : u.Scheme = lit "") :
    Fetch fuel n f u dest opts = some ⟨[], dest, none⟩ := by
  have : lit "" ≠ lit "http" ∧ lit "" ≠ lit "https" ∧ lit "" ≠ lit "tftp" ∧
      lit "" ≠ lit "data" ∧ lit "" ≠ lit "oem" ∧ lit "" ≠ lit "s3" := by decide
  simp [Fetch, hs, this]

/-- Witness of C15: a path without scheme, with a hash and gzip set. -/
theorem Fetch_empty_scheme_witness :
    Fetch 0 (scenarioNet 200 [104, 105]) scenarioFetcher ⟨lit "", lit "", lit "/etc/motd", lit ""⟩
        (scenarioFile []) (scenarioOpts true [1] (lit "gzip")) =
      some ⟨[], scenarioFile [], none⟩ :=
  Fetch_empty_scheme 0 (scenarioNet 200 [104, 105]) scenarioFetcher
    ⟨lit "", lit "", lit "/etc/motd", lit ""⟩ (scenarioFile [])
    (scenarioOpts true [1] (lit "gzip")) rfl

/-- C17: for every data: or s3: URL and every options whose compression is
non-empty, Fetch returns ErrCompressionUnsupported before doing anything else:
the trace is empty (the data URL is not decoded, no session, region or download
request is made) and the sink is as it was. -/
theorem Fetch_compression_unsupported (fuel : Nat) (n : Net) (f : Fetcher) (u : URL)
    (dest : File) (opts : FetchOptions)
    (hs : u.Scheme = lit "data" ∨ u.Scheme = lit "s3")
    (hc : opts.Compression ≠ lit "") :
    Fetch fuel n f u dest opts = some ⟨[], dest, some .ErrCompressionUnsupported⟩ := by
  rcases hs with h | h
  · have : lit "data" ≠ lit "http" ∧ lit "data" ≠ lit "https" ∧ lit "data" ≠ lit "tftp" := by
      decide
    simp [Fetch, h, this, FetchFromDataURL, hc]
  · have : lit "s3" ≠ lit "http" ∧ lit "s3" ≠ lit "https" ∧ lit "s3" ≠ lit "tftp" ∧
        lit "s3" ≠ lit "data" ∧ lit "s3" ≠ lit "oem" := by decide
    simp [Fetch, h, this, FetchFromS3, hc]

/-- Witness of C17: an s3 URL with gzip, with no fuel for the download. -/
theorem Fetch_compression_unsupported_witness :
    Fetch 0 (scenarioNet 200 []) scenarioFetcher ⟨lit "s3", lit "bucket", lit "/key", lit ""⟩
        (scenarioFile []) (scenarioOpts false [] (lit "gzip")) =
      some ⟨[], scenarioFile [], some .ErrCompressionUnsupported⟩ :=
  Fetch_compression_unsupported 0 (scenarioNet 200 []) scenarioFetcher
    ⟨lit "s3", lit "bucket", lit "/key", lit ""⟩ (scenarioFile [])
    (scenarioOpts false [] (lit "gzip")) (Or.inr rfl) (by decide)

/-! ## Fetcher: hash verification through `Fetch` -/

/-- Where a result of `Fetch` on a non-empty scheme comes from. -/
theorem Fetch_cases {fuel : Nat} {n : Net} {f : Fetcher} {u : URL} {dest : File}
    {opts : FetchOptions} {r : FetchResult} (hs : u.Scheme ≠ lit "")
    (h : Fetch fuel n f u dest opts = some r) :
    r = FetchFromHTTP n f u dest opts ∨ r = FetchFromTFTP n u dest opts ∨
    r = FetchFromDataURL n u dest opts ∨ r = FetchFromOEM n u dest opts ∨
    FetchFromS3 fuel n f u dest opts = some r ∨
    r = ⟨[], dest, some .ErrSchemeUnsupported⟩ := by
  unfold Fetch at h
  split_ifs at h
  · exact Or.inl (Option.some.inj h).symm
  · exact Or.inr (Or.inl (Option.some.inj h).symm)
  · exact Or.inr (Or.inr (Or.inl (Option.some.inj h).symm))
  · exact Or.inr (Or.inr (Or.inr (Or.inl (Option.some.inj h).symm)))
  · exact Or.inr (Or.inr (Or.inr (Or.inr (Or.inl h))))
  · exact Or.inr (Or.inr (Or.inr (Or.inr (Or.inr (Option.some.inj h).symm))))

/-- The verification step on a mismatch: the result of
`decompressCopyHashAndVerify` when the transfer succeeds and the digest of the
transferred bytes is not the expected one. -/
theorem decompressCopyHashAndVerify_mismatch {n : Net} {dest : File} {src : Reader}
    {opts : FetchOptions} {h : Hasher} {data : List Nat} (hh : opts.Hash = some h)
    (hstr : Streams n dest src opts data) (hne : h.digest data ≠ opts.ExpectedSum) :
    decompressCopyHashAndVerify n dest src opts =
      ((dest.Write data).1, some (.ErrHashMismatch (EncodeToString (h.digest data))
        (EncodeToString opts.ExpectedSum))) := by
  have hw2 : dest.Write data = ((dest.Write data).1, none) := by
    rw [← hstr.2]
  have hres := decompressCopyHashAndVerify_hashed hh hstr.1 rfl hw2
  rw [hres]
  simp [hne]

/-- What the file holds after a transfer that succeeded. -/
theorem Streams.content {n : Net} {dest : File} {src : Reader} {opts : FetchOptions}
    {data : List Nat} (hstr : Streams n dest src opts data) :
    (dest.Write data).1.content = dest.content ++ data := by
  have hw2 : dest.Write data = ((dest.Write data).1, none) := by
    rw [← hstr.2]
  exact File.Write_content hw2

theorem Fetch_http {fuel : Nat} {n : Net} {f : Fetcher} {u : URL} {dest : File}
    {opts : FetchOptions} (h : u.Scheme = lit "http" ∨ u.Scheme = lit "https") :
    Fetch fuel n f u dest opts = some (FetchFromHTTP n f u dest opts) := by
  simp [Fetch, h]

theorem Fetch_tftp {fuel : Nat} {n : Net} {f : Fetcher} {u : URL} {dest : File}
    {opts : FetchOptions} (h : u.Scheme = lit "tftp") :
    Fetch fuel n f u dest opts = some (FetchFromTFTP n u dest opts) := by
  have : lit "tftp" ≠ lit "http" ∧ lit "tftp" ≠ lit "https" := by decide
  simp [Fetch, h, this]

theorem Fetch_data {fuel : Nat} {n : Net} {f : Fetcher} {u : URL} {dest : File}
    {opts : FetchOptions} (h : u.Scheme = lit "data") :
    Fetch fuel n f u dest opts = some (FetchFromDataURL n u dest opts) := by
  have : lit "data" ≠ lit "http" ∧ lit "data" ≠ lit "https" ∧ lit "data" ≠ lit "tftp" := by
    decide
  simp [Fetch, h, this]

theorem Fetch_oem {fuel : Nat} {n : Net} {f : Fetcher} {u : URL} {dest : File}
    {opts : FetchOptions} (h : u.Scheme = lit "oem") :
    Fetch fuel n f u dest opts = some (FetchFromOEM n u dest opts) := by
  have : lit "oem" ≠ lit "http" ∧ lit "oem" ≠ lit "https" ∧ lit "oem" ≠ lit "tftp" ∧
      lit "oem" ≠ lit "data" := by decide
  simp [Fetch, h, this]

theorem Fetch_s3 {fuel : Nat} {n : Net} {f : Fetcher} {u : URL} {dest : File}
    {opts : FetchOptions} (h : u.Scheme = lit "s3") :
    Fetch fuel n f u dest opts = FetchFromS3 fuel n f u dest opts := by
  have : lit "s3" ≠ lit "http" ∧ lit "s3" ≠ lit "https" ∧ lit "s3" ≠ lit "tftp" ∧
      lit "s3" ≠ lit "data" ∧ lit "s3" ≠ lit "oem" := by decide
  simp [Fetch, h, this]

/-- An HTTP fetch whose request and transfer succeed and whose digest differs
returns the hash mismatch. -/
theorem FetchFromHTTP_mismatch {n : Net} {f : Fetcher} {u : URL} {dest : File}
    {opts : FetchOptions} {h : Hasher} {body : Reader} {status : Nat} {data : List Nat}
    (hh : opts.Hash = some h)
    (hc : f.clientNil = true → n.newHttpClient = none)
    (hg : n.getReaderWithHeader u opts.Headers = .ok (body, status))
    (hst : status = 200 ∨ status = 204)
    (hstr : Streams n dest body opts data) (hne : h.digest data ≠ opts.ExpectedSum) :
    (FetchFromHTTP n f u dest opts).dest = (dest.Write data).1 ∧
    (FetchFromHTTP n f u dest opts).err =
      some (.ErrHashMismatch (EncodeToString (h.digest data))
        (EncodeToString opts.ExpectedSum)) := by
  have hm := decompressCopyHashAndVerify_mismatch hh hstr hne
  unfold FetchFromHTTP
  cases hcn : f.clientNil
  · simp [hg, hst, hm]
  · simp [hc hcn, hg, hst, hm]

/-- A data URL fetch whose decoding and write succeed and whose digest differs
returns the hash mismatch. -/
theorem FetchFromDataURL_mismatch {n : Net} {u : URL} {dest : File}
    {opts : FetchOptions} {h : Hasher} {data : List Nat}
    (hh : opts.Hash = some h) (hcomp : opts.Compression = lit "")
    (hd : n.dataurlDecode u = .ok data) (hw : (dest.Write data).2 = none)
    (hne : h.digest data ≠ opts.ExpectedSum) :
    (FetchFromDataURL n u dest opts).dest = (dest.Write data).1 ∧
    (FetchFromDataURL n u dest opts).err =
      some (.ErrHashMismatch (EncodeToString (h.digest data))
        (EncodeToString opts.ExpectedSum)) := by
  have hstr : Streams n dest ⟨data, none⟩ opts data := ⟨by simp [uncompress, hcomp], hw⟩
  have hm := decompressCopyHashAndVerify_mismatch hh hstr hne
  unfold FetchFromDataURL
  simp [hcomp, hd, hm]

/-- An OEM fetch served from the lookaside directory whose transfer succeeds
and whose digest differs returns the hash mismatch. -/
theorem FetchFromOEM_lookaside_mismatch {n : Net} {u : URL} {dest : File}
    {opts : FetchOptions} {h : Hasher} {fi : Reader} {data : List Nat}
    (hh : opts.Hash = some h)
    (habs : (n.filepathClean u.Path).head? = some 47)
    (ho : n.osOpen (n.filepathJoin n.OEMLookasideDir (n.filepathClean u.Path)) = .ok fi)
    (hstr : Streams n dest fi opts data) (hne : h.digest data ≠ opts.ExpectedSum) :
    (FetchFromOEM n u dest opts).dest = (dest.Write data).1 ∧
    (FetchFromOEM n u dest opts).err =
      some (.ErrHashMismatch (EncodeToString (h.digest data))
        (EncodeToString opts.ExpectedSum)) := by
  have hm := decompressCopyHashAndVerify_mismatch hh hstr hne
  unfold FetchFromOEM
  simp [habs, ho, hm]

/-- An OEM fetch served from the mounted OEM partition whose transfer succeeds
and whose digest differs returns the hash mismatch. -/
theorem FetchFromOEM_mounted_mismatch {n : Net} {u : URL} {dest : File}
    {opts : FetchOptions} {h : Hasher} {err0 : FetchError} {mnt : GoString}
    {tr : List FetchEvent} {fi : Reader} {data : List Nat}
    (hh : opts.Hash = some h)
    (habs : (n.filepathClean u.Path).head? = some 47)
    (ho : n.osOpen (n.filepathJoin n.OEMLookasideDir (n.filepathClean u.Path)) = .error err0)
    (hne0 : n.osIsNotExist err0 = true)
    (ht : n.TempDir (lit "/mnt") (lit "oem") = .ok mnt)
    (hmnt : mountOEM n mnt = (tr, none))
    (ho2 : n.osOpen (n.filepathJoin mnt (n.filepathClean u.Path)) = .ok fi)
    (hstr : Streams n dest fi opts data) (hne : h.digest data ≠ opts.ExpectedSum) :
    (FetchFromOEM n u dest opts).dest = (dest.Write data).1 ∧
    (FetchFromOEM n u dest opts).err =
      some (.ErrHashMismatch (EncodeToString (h.digest data))
        (EncodeToString opts.ExpectedSum)) := by
  have hm := decompressCopyHashAndVerify_mismatch hh hstr hne
  unfold FetchFromOEM
  simp [habs, ho, hne0, ht, hmnt, ho2, hm]

/-- A TFTP fetch whose transfer succeeds on the reading side and whose digest
differs returns what `checkForDoneChanErr` makes of the hash mismatch. -/
theorem FetchFromTFTP_mismatch {n : Net} {u : URL} {dest : File}
    {opts : FetchOptions} {h : Hasher} {wt : TFTPTransfer} {data : List Nat}
    (hh : opts.Hash = some h)
    (hc : n.tftpNewClient (if ¬ (58 ∈ u.Host) then u.Host ++ lit ":69" else u.Host) = none)
    (hrcv : n.tftpReceive (if ¬ (58 ∈ u.Host) then u.Host ++ lit ":69" else u.Host)
      u.Path (lit "octet") = .ok wt)
    (hstr : Streams n dest ⟨wt.data, none⟩ opts data)
    (hne : h.digest data ≠ opts.ExpectedSum) :
    (FetchFromTFTP n u dest opts).dest = (dest.Write data).1 ∧
    (FetchFromTFTP n u dest opts).err =
      some (checkForDoneChanErr ([wt.writeErr, wt.closeErr].take wt.reported)
        (.ErrHashMismatch (EncodeToString (h.digest data))
          (EncodeToString opts.ExpectedSum))) := by
  have hm := decompressCopyHashAndVerify_mismatch hh hstr hne
  unfold FetchFromTFTP
  simp only [hc, hrcv, hm]
  exact ⟨trivial, trivial⟩

/-- An S3 fetch whose download, seek and read-back succeed and whose digest
differs returns the hash mismatch. -/
theorem FetchFromS3_mismatch {fuel : Nat} {n : Net} {f : Fetcher} {u : URL} {dest : File}
    {opts : FetchOptions} {h : Hasher} {sess : Session} {region : GoString}
    {tr : List FetchEvent} {d : File}
    (hh : opts.Hash = some h) (hcomp : opts.Compression = lit "")
    (hsess : (match f.AWSSession with
      | none => n.NewSession
      | some s => .ok s) = .ok sess)
    (hreg : n.GetBucketRegion sess u.Host
      (if f.S3RegionHint ≠ lit "" then f.S3RegionHint else lit "us-east-1") = .ok region)
    (hdl : fetchFromS3WithCreds n
      ⟨u.Host, u.Path, match n.queryGet u.RawQuery (lit "versionId") with
        | some (v :: _) => some v
        | _ => none⟩ fuel dest ⟨sess.anonymous, region⟩ = some (tr, d, none))
    (hseek : d.seekErr = none) (hread : d.readErr = none)
    (hne : h.digest d.content ≠ opts.ExpectedSum) :
    ∃ r, FetchFromS3 fuel n f u dest opts = some r ∧ r.dest = d ∧
      r.err = some (.ErrHashMismatch (EncodeToString (h.digest d.content))
        (EncodeToString opts.ExpectedSum)) := by
  unfold FetchFromS3
  simp only [hcomp, ne_eq, not_true_eq_false, if_false, hsess, hreg, hdl, hh, hseek,
    File.reader, hread, Hasher.Sum_Write_Reset, hne, not_false_eq_true, if_true]
  refine ⟨_, rfl, ?_, ?_⟩ <;> rfl

/-- C12 (as amended): for every URL with a non-empty scheme, every options
with a hash set and an empty sink.  If Fetch returns success, the bytes in the
sink hash to the expected digest (so a sink whose digest differs comes with an
error).  And whenever the transfer itself succeeds - the request is answered
(HTTP with status 200 or 204), the stream decompresses and is written to the
sink; for S3 the download, the seek and the read-back succeed - and the digest
of the fetched bytes differs from the expected digest, the call returns
HashMismatch with the hex encodings of the computed and the expected digest,
the fetched bytes being in the sink; except that for TFTP an error that the
writing side has already reported is returned in place of HashMismatch. -/
theorem Fetch_success_digest (fuel : Nat) (n : Net) (f : Fetcher) (u : URL) (dest : File)
    (opts : FetchOptions) (h : Hasher) (r : FetchResult)
    (hs : u.Scheme ≠ lit "") (hh : opts.Hash = some h) (hempty : dest.content = [])
    (hf : Fetch fuel n f u dest opts = some r) :
    (r.err = none → h.digest r.dest.content = opts.ExpectedSum) ∧
    (h.digest r.dest.content ≠ opts.ExpectedSum → r.err ≠ none) ∧
    (∀ body status data, u.Scheme = lit "http" ∨ u.Scheme = lit "https" →
      (f.clientNil = true → n.newHttpClient = none) →
      n.getReaderWithHeader u opts.Headers = .ok (body, status) →
      status = 200 ∨ status = 204 →
      Streams n dest body opts data → h.digest data ≠ opts.ExpectedSum →
      r.dest.content = data ∧
      r.err = some (.ErrHashMismatch (EncodeToString (h.digest data))
        (EncodeToString opts.ExpectedSum))) ∧
    (∀ data, u.Scheme = lit "data" → opts.Compression = lit "" →
      n.dataurlDecode u = .ok data → (dest.Write data).2 = none →
      h.digest data ≠ opts.ExpectedSum →
      r.dest.content = data ∧
      r.err = some (.ErrHashMismatch (EncodeToString (h.digest data))
        (EncodeToString opts.ExpectedSum))) ∧
    (∀ fi data, u.Scheme = lit "oem" → (n.filepathClean u.Path).head? = some 47 →
      n.osOpen (n.filepathJoin n.OEMLookasideDir (n.filepathClean u.Path)) = .ok fi →
      Streams n dest fi opts data → h.digest data ≠ opts.ExpectedSum →
      r.dest.content = data ∧
      r.err = some (.ErrHashMismatch (EncodeToString (h.digest data))
        (EncodeToString opts.ExpectedSum))) ∧
    (∀ err0 mnt tr fi data, u.Scheme = lit "oem" →
      (n.filepathClean u.Path).head? = some 47 →
      n.osOpen (n.filepathJoin n.OEMLookasideDir (n.filepathClean u.Path)) = .error err0 →
      n.osIsNotExist err0 = true →
      n.TempDir (lit "/mnt") (lit "oem") = .ok mnt → mountOEM n mnt = (tr, none) →
      n.osOpen (n.filepathJoin mnt (n.filepathClean u.Path)) = .ok fi →
      Streams n dest fi opts data → h.digest data ≠ opts.ExpectedSum →
      r.dest.content = data ∧
      r.err = some (.ErrHashMismatch (EncodeToString (h.digest data))
        (EncodeToString opts.ExpectedSum))) ∧
    (∀ wt data, u.Scheme = lit "tftp" →
      n.tftpNewClient (if ¬ (58 ∈ u.Host) then u.Host ++ lit ":69" else u.Host) = none →
      n.tftpReceive (if ¬ (58 ∈ u.Host) then u.Host ++ lit ":69" else u.Host)
        u.Path (lit "octet") = .ok wt →
      Streams n dest ⟨wt.data, none⟩ opts data → h.digest data ≠ opts.ExpectedSum →
      r.dest.content = data ∧
      (wt.reported = 0 ∨ wt.writeErr = none →
        r.err = some (.ErrHashMismatch (EncodeToString (h.digest data))
          (EncodeToString opts.ExpectedSum))) ∧
      (∀ w, 0 < wt.reported → wt.writeErr = some w → r.err = some w)) ∧
    (∀ sess region tr d, u.Scheme = lit "s3" → opts.Compression = lit "" →
      (match f.AWSSession with
        | none => n.NewSession
        | some s => .ok s) = .ok sess →
      n.GetBucketRegion sess u.Host
        (if f.S3RegionHint ≠ lit "" then f.S3RegionHint else lit "us-east-1") = .ok region →
      fetchFromS3WithCreds n
        ⟨u.Host, u.Path, match n.queryGet u.RawQuery (lit "versionId") with
          | some (v :: _) => some v
          | _ => none⟩ fuel dest ⟨sess.anonymous, region⟩ = some (tr, d, none) →
      d.seekErr = none → d.readErr = none → h.digest d.content ≠ opts.ExpectedSum →
      r.dest = d ∧
      r.err = some (.ErrHashMismatch (EncodeToString (h.digest d.content))
        (EncodeToString opts.ExpectedSum))) := by
  have key : r.err = none → h.digest r.dest.content = opts.ExpectedSum := by
    intro hok
    have hdel : ∀ r0 : FetchResult, Delivered dest opts r0 → r = r0 →
        h.digest r.dest.content = opts.ExpectedSum := by
      intro r0 hd heq
      subst heq
      obtain ⟨data, hcontent, hdig⟩ := hd hok
      rw [hcontent, hempty, List.nil_append]
      exact hdig h hh
    rcases Fetch_cases hs hf with h1 | h1 | h1 | h1 | h1 | h1
    · exact hdel _ (FetchFromHTTP_delivered n f u dest opts) h1
    · exact hdel _ (FetchFromTFTP_delivered n u dest opts) h1
    · exact hdel _ (FetchFromDataURL_delivered n u dest opts) h1
    · exact hdel _ (FetchFromOEM_delivered n u dest opts) h1
    · exact FetchFromS3_verified h1 hok h hh
    · rw [h1] at hok
      simp at hok
  refine ⟨key, fun hne hok => hne (key hok), ?_, ?_, ?_, ?_, ?_, ?_⟩
  · intro body status data hsch hc hg hst hstr hne
    rw [Fetch_http hsch] at hf
    have hr := (Option.some.inj hf).symm
    have hm := FetchFromHTTP_mismatch hh hc hg hst hstr hne
    rw [hr, hm.1, hm.2, hstr.content, hempty]
    exact ⟨rfl, rfl⟩
  · intro data hsch hcomp hd hw hne
    rw [Fetch_data hsch] at hf
    have hr := (Option.some.inj hf).symm
    have hm := FetchFromDataURL_mismatch hh hcomp hd hw hne
    have hstr : Streams n dest ⟨data, none⟩ opts data := ⟨by simp [uncompress, hcomp], hw⟩
    rw [hr, hm.1, hm.2, hstr.content, hempty]
    exact ⟨rfl, rfl⟩
  · intro fi data hsch habs ho hstr hne
    rw [Fetch_oem hsch] at hf
    have hr := (Option.some.inj hf).symm
    have hm := FetchFromOEM_lookaside_mismatch hh habs ho hstr hne
    rw [hr, hm.1, hm.2, hstr.content, hempty]
    exact ⟨rfl, rfl⟩
  · intro err0 mnt tr fi data hsch habs ho hne0 ht hmnt ho2 hstr hne
    rw [Fetch_oem hsch] at hf
    have hr := (Option.some.inj hf).symm
    have hm := FetchFromOEM_mounted_mismatch hh habs ho hne0 ht hmnt ho2 hstr hne
    rw [hr, hm.1, hm.2, hstr.content, hempty]
    exact ⟨rfl, rfl⟩
  · intro wt data hsch hc hrcv hstr hne
    rw [Fetch_tftp hsch] at hf
    have hr := (Option.some.inj hf).symm
    have hm := FetchFromTFTP_mismatch hh hc hrcv hstr hne
    rw [hr, hm.1, hm.2, hstr.content, hempty]
    refine ⟨rfl, ?_, ?_⟩
    · intro hcase
      rcases hcase with h0 | hw
      · simp [h0, checkForDoneChanErr]
      · rcases hrep : wt.reported with _ | k
        · simp [checkForDoneChanErr]
        · simp [hw, checkForDoneChanErr, List.take_succ_cons]
    · intro w hpos hw
      rcases hrep : wt.reported with _ | k
      · omega
      · simp [hw, checkForDoneChanErr, List.take_succ_cons]
  · intro sess region tr d hsch hcomp hsess hreg hdl hseek hread hne
    rw [Fetch_s3 hsch] at hf
    obtain ⟨r0, hr0, hd0, he0⟩ :=
      FetchFromS3_mismatch hh hcomp hsess hreg hdl hseek hread hne
    rw [hr0] at hf
    have hr := (Option.some.inj hf).symm
    rw [hr]
    exact ⟨hd0, he0⟩

/-- Witness of C12 (as amended): an HTTP fetch of the body "hi" with the
expected checksum d1 succeeds and the sink hashes to d1; with the expected
checksum 01 the same fetch returns HashMismatch{d1, 01} with "hi" in the sink;
and an S3 fetch that downloads "hi", with the expected checksum 01, returns
HashMismatch{d1, 01}. -/
theorem Fetch_success_digest_witness :
    (Fetch 0 (scenarioNet 200 [104, 105]) scenarioFetcher
        ⟨lit "http", lit "example.com", lit "/hi", lit ""⟩ (scenarioFile [])
        (scenarioOpts true [209] (lit "")) =
      some ⟨[.httpGet ⟨lit "http", lit "example.com", lit "/hi", lit ""⟩ []],
        scenarioFile [104, 105], none⟩ ∧
      checksum (scenarioFile [104, 105]).content = [209]) ∧
    (Fetch 0 (scenarioNet 200 [104, 105]) scenarioFetcher
        ⟨lit "http", lit "example.com", lit "/hi", lit ""⟩ (scenarioFile [])
        (scenarioOpts true [1] (lit "")) =
      some ⟨[.httpGet ⟨lit "http", lit "example.com", lit "/hi", lit ""⟩ []],
        scenarioFile [104, 105], some (.ErrHashMismatch (lit "d1") (lit "01"))⟩ ∧
      (scenarioFile [104, 105]).content = [104, 105] ∧
      some (FetchError.ErrHashMismatch (lit "d1") (lit "01")) =
        some (.ErrHashMismatch (EncodeToString (checksum [104, 105]))
          (EncodeToString (scenarioOpts true [1] (lit "")).ExpectedSum))) ∧
    (Fetch 3 (s3RegionNet 0) scenarioFetcher
        ⟨lit "s3", lit "bucket", lit "/key", lit ""⟩ (scenarioFile [])
        (scenarioOpts true [1] (lit "")) =
      some ⟨[.newSession, .getBucketRegion (lit "bucket") (lit "us-east-1"),
          .download ⟨false, lit "us-east-1"⟩ ⟨lit "bucket", lit "/key", none⟩,
          .download ⟨true, lit "us-east-1"⟩ ⟨lit "bucket", lit "/key", none⟩],
        scenarioFile [104, 105], some (.ErrHashMismatch (lit "d1") (lit "01"))⟩ ∧
      some (FetchError.ErrHashMismatch (lit "d1") (lit "01")) =
        some (.ErrHashMismatch (EncodeToString (checksum (scenarioFile [104, 105]).content))
          (EncodeToString (scenarioOpts true [1] (lit "")).ExpectedSum))) :=
  ⟨⟨rfl, (Fetch_success_digest 0 (scenarioNet 200 [104, 105]) scenarioFetcher
      ⟨lit "http", lit "example.com", lit "/hi", lit ""⟩ (scenarioFile [])
      (scenarioOpts true [209] (lit "")) ⟨checksum, [7, 7]⟩
      ⟨[.httpGet ⟨lit "http", lit "example.com", lit "/hi", lit ""⟩ []],
        scenarioFile [104, 105], none⟩ (by decide) rfl rfl rfl).1 rfl⟩,
    ⟨rfl, (Fetch_success_digest 0 (scenarioNet 200 [104, 105]) scenarioFetcher
      ⟨lit "http", lit "example.com", lit "/hi", lit ""⟩ (scenarioFile [])
      (scenarioOpts true [1] (lit "")) ⟨checksum, [7, 7]⟩
      ⟨[.httpGet ⟨lit "http", lit "example.com", lit "/hi", lit ""⟩ []],
        scenarioFile [104, 105], some (.ErrHashMismatch (lit "d1") (lit "01"))⟩
      (by decide) rfl rfl rfl).2.2.1 ⟨[104, 105], none⟩ 200 [104, 105] (Or.inl rfl)
        (fun _ => rfl) rfl (Or.inl rfl) ⟨rfl, rfl⟩ (by decide)⟩,
    ⟨rfl, ((Fetch_success_digest 3 (s3RegionNet 0) scenarioFetcher
      ⟨lit "s3", lit "bucket", lit "/key", lit ""⟩ (scenarioFile [])
      (scenarioOpts true [1] (lit "")) ⟨checksum, [7, 7]⟩
      ⟨[.newSession, .getBucketRegion (lit "bucket") (lit "us-east-1"),
          .download ⟨false, lit "us-east-1"⟩ ⟨lit "bucket", lit "/key", none⟩,
          .download ⟨true, lit "us-east-1"⟩ ⟨lit "bucket", lit "/key", none⟩],
        scenarioFile [104, 105], some (.ErrHashMismatch (lit "d1") (lit "01"))⟩
      (by decide) rfl rfl rfl).2.2.2.2.2.2.2 ⟨false, lit ""⟩ (lit "us-east-1")
        [.download ⟨false, lit "us-east-1"⟩ ⟨lit "bucket", lit "/key", none⟩,
          .download ⟨true, lit "us-east-1"⟩ ⟨lit "bucket", lit "/key", none⟩]
        (scenarioFile [104, 105]) rfl rfl rfl rfl rfl rfl rfl (by decide)).2⟩⟩

/-- Counterexample to C12 as stated: a URL with empty scheme, a hash set and
the expected sum 01.  Fetch returns success with nothing written, and the
bytes in the sink (none) hash to 00, not to the expected digest.  Also, a TFTP
fetch of "hi" with the expected sum 01 whose writing side has already reported
a timeout: the digest d1 of the fetched bytes differs from the expected one,
and the call returns the timeout, not HashMismatch. -/
theorem Fetch_empty_scheme_unverified :
    (Fetch 0 (scenarioNet 200 [104, 105]) scenarioFetcher
        ⟨lit "", lit "", lit "/etc/motd", lit ""⟩ (scenarioFile [])
        (scenarioOpts true [1] (lit "")) =
      some ⟨[], scenarioFile [], none⟩ ∧
    (scenarioOpts true [1] (lit "")).Hash.isSome = true ∧
    checksum (scenarioFile []).content = [0] ∧
    checksum (scenarioFile []).content ≠ (scenarioOpts true [1] (lit "")).ExpectedSum) ∧
    (Fetch 0 (tftpNet ⟨[104, 105], some (.external (lit "tftp: timeout")), none, 1⟩)
        scenarioFetcher ⟨lit "tftp", lit "example.com", lit "/hi", lit ""⟩ (scenarioFile [])
        (scenarioOpts true [1] (lit "")) =
      some ⟨[.tftpNewClient (lit "example.com:69"), .tftpReceive (lit "/hi") (lit "octet")],
        scenarioFile [104, 105], some (.external (lit "tftp: timeout"))⟩ ∧
    checksum [104, 105] = [209] ∧
    checksum [104, 105] ≠ (scenarioOpts true [1] (lit "")).ExpectedSum) :=
  ⟨⟨rfl, rfl, rfl, by decide⟩, rfl, rfl, by decide⟩

/-! ## Fetcher: a hash mismatch and the sink -/

/-- C14 (as amended): for every streamed fetch with a hash set whose
decompression and copy succeed and whose computed digest differs from the
expected one, decompressCopyHashAndVerify returns HashMismatch after the whole
decompressed stream has been appended to the sink; the sink is not rolled back
and is invalid for the caller.  Through FetchToBuffer the consumer gets no
bytes: whenever Fetch returns an error, FetchToBuffer returns nil and that
error. -/
theorem hash_mismatch_sink_written (n : Net) (dest : File) (src r : Reader)
    (opts : FetchOptions) (h : Hasher) (hh : opts.Hash = some h)
    (hu : uncompress n src opts = .ok r) (hr : r.err = none)
    (hw : (dest.Write r.data).2 = none)
    (hne : h.digest r.data ≠ opts.ExpectedSum) :
    (decompressCopyHashAndVerify n dest src opts).2 =
      some (.ErrHashMismatch (EncodeToString (h.digest r.data))
        (EncodeToString opts.ExpectedSum)) ∧
    (decompressCopyHashAndVerify n dest src opts).1.content = dest.content ++ r.data ∧
    ∀ (fuel : Nat) (f : Fetcher) (u : URL) (file : File) (res : FetchResult) (e : FetchError),
      n.TempFile = .ok file → Fetch fuel n f u file opts = some res → res.err = some e →
      ∃ tr, FetchToBuffer fuel n f u opts = some (tr, none, some e) := by
  have hw2 : dest.Write r.data = ((dest.Write r.data).1, none) := by
    rw [← hw]
  have hres := decompressCopyHashAndVerify_hashed hh hu hr hw2
  refine ⟨?_, ?_, ?_⟩
  · rw [hres]
    simp [hne]
  · rw [hres]
    exact File.Write_content hw2
  · intro fuel f u file res e htmp hfetch herr
    obtain ⟨tr, d, err⟩ := res
    simp only at herr
    subst herr
    exact ⟨.tempFile :: tr, by simp [FetchToBuffer, htmp, hfetch]⟩

/-- Witness of C14 (as amended): the stream "hi" with expected sum 00. -/
theorem hash_mismatch_sink_written_witness :
    (decompressCopyHashAndVerify (scenarioNet 200 []) (scenarioFile []) ⟨[104, 105], none⟩
        (scenarioOpts true [0] (lit ""))).2 =
      some (.ErrHashMismatch (lit "d1") (lit "00")) ∧
    (decompressCopyHashAndVerify (scenarioNet 200 []) (scenarioFile []) ⟨[104, 105], none⟩
        (scenarioOpts true [0] (lit ""))).1.content = [104, 105] :=
  have h := hash_mismatch_sink_written (scenarioNet 200 []) (scenarioFile [])
    ⟨[104, 105], none⟩ ⟨[104, 105], none⟩ (scenarioOpts true [0] (lit ""))
    ⟨checksum, [7, 7]⟩ rfl rfl rfl rfl (by decide)
  ⟨h.1, h.2.1⟩

/-- Counterexample to C14 as stated: a data URL decoding to "hi", a hash set
and the expected sum 00.  Fetch returns HashMismatch (calculated d1, expected
00) and the sink, empty before, holds the two fetched bytes. -/
theorem Fetch_mismatch_sink_not_empty :
    Fetch 0 (scenarioNet 200 [104, 105]) scenarioFetcher
        ⟨lit "data", lit "", lit "", lit ""⟩ (scenarioFile [])
        (scenarioOpts true [0] (lit "")) =
      some ⟨[.dataurlDecode ⟨lit "data", lit "", lit "", lit ""⟩],
        scenarioFile [104, 105], some (.ErrHashMismatch (lit "d1") (lit "00"))⟩ ∧
    (scenarioFile [104, 105]).content ≠ [] :=
  ⟨rfl, by decide⟩

/-! ## Fetcher: HTTP status codes -/

/-- C18: for an HTTP(S) fetch whose request yields a response with status code
s (the client exists or is created without error): if s is 200 or 204 the body
is decompressed, copied and hash-verified into the sink and the result is that
of decompressCopyHashAndVerify; if s is 404 the call returns ErrNotFound; for
every other s it returns ErrFailed; in the last two cases the sink is as it
was. -/
theorem FetchFromHTTP_status (n : Net) (f : Fetcher) (u : URL) (dest : File)
    (opts : FetchOptions) (body : Reader) (s : Nat)
    (hclient : f.clientNil = false ∨ n.newHttpClient = none)
    (hget : n.getReaderWithHeader u opts.Headers = .ok (body, s)) :
    (s = 200 ∨ s = 204 →
      (FetchFromHTTP n f u dest opts).dest =
          (decompressCopyHashAndVerify n dest body opts).1 ∧
        (FetchFromHTTP n f u dest opts).err =
          (decompressCopyHashAndVerify n dest body opts).2) ∧
    (s = 404 →
      (FetchFromHTTP n f u dest opts).err = some .ErrNotFound ∧
        (FetchFromHTTP n f u dest opts).dest = dest) ∧
    (s ≠ 200 → s ≠ 204 → s ≠ 404 →
      (FetchFromHTTP n f u dest opts).err = some .ErrFailed ∧
        (FetchFromHTTP n f u dest opts).dest = dest) := by
  have hc : (if f.clientNil = true then n.newHttpClient else none) = none := by
    rcases hclient with h | h
    · simp [h]
    · simp [h]
  refine ⟨?_, ?_, ?_⟩
  · intro hs
    simp [FetchFromHTTP, hc, hget, hs]
  · intro hs
    simp [FetchFromHTTP, hc, hget, hs]
  · intro h1 h2 h3
    simp [FetchFromHTTP, hc, hget, h1, h2, h3]

/-- Witness of C18: status 404 with a body; nothing reaches the sink. -/
theorem FetchFromHTTP_status_witness :
    (FetchFromHTTP (scenarioNet 404 [104, 105]) scenarioFetcher
        ⟨lit "https", lit "example.com", lit "/hi", lit ""⟩ (scenarioFile [])
        (scenarioOpts false [] (lit ""))).err = some .ErrNotFound ∧
    (FetchFromHTTP (scenarioNet 404 [104, 105]) scenarioFetcher
        ⟨lit "https", lit "example.com", lit "/hi", lit ""⟩ (scenarioFile [])
        (scenarioOpts false [] (lit ""))).dest = scenarioFile [] :=
  (FetchFromHTTP_status (scenarioNet 404 [104, 105]) scenarioFetcher
    ⟨lit "https", lit "example.com", lit "/hi", lit ""⟩ (scenarioFile [])
    (scenarioOpts false [] (lit "")) ⟨[104, 105], none⟩ 404 (Or.inl rfl) rfl).2.1 rfl

/-! ## Fetcher: TFTP -/

/-- C19, the code at the failing input: the address handed to
`tftp.NewClient` is the host with `:69` appended when the host holds no colon,
and the host unchanged when it holds one.  For the URL `tftp://[::1]/file`,
whose host is a bracketed IPv6 literal without a port, the address is therefore
`[::1]`, not `[::1]:69`. -/
theorem FetchFromTFTP_addr (n : Net) (u : URL) (dest : File) (opts : FetchOptions) :
    (58 ∉ u.Host →
      (FetchFromTFTP n u dest opts).trace.head? =
        some (.tftpNewClient (u.Host ++ lit ":69"))) ∧
    (58 ∈ u.Host →
      (FetchFromTFTP n u dest opts).trace.head? = some (.tftpNewClient u.Host)) ∧
    (FetchFromTFTP n ⟨lit "tftp", lit "[::1]", lit "/file", lit ""⟩ dest opts).trace.head? =
      some (.tftpNewClient (lit "[::1]")) ∧
    lit "[::1]" ≠ lit "[::1]:69" := by
  have key : ∀ v : URL, (FetchFromTFTP n v dest opts).trace.head? =
      some (.tftpNewClient (if ¬ (58 ∈ v.Host) then v.Host ++ lit ":69" else v.Host)) := by
    intro v
    unfold FetchFromTFTP
    dsimp only
    repeat' split
    all_goals rfl
  refine ⟨?_, ?_, ?_, by decide⟩
  · intro h
    rw [key, if_pos h]
  · intro h
    rw [key, if_neg (not_not.mpr h)]
  · rw [key]
    rfl

/-- C20: in FetchFromTFTP, once the transfer is started: when reading or
decompressing from the pipe fails with error e and the writer side has already
reported a non-nil error w, the call returns w and not e; when the writer side
has reported nothing yet, or has reported success, it returns e.  When the copy
succeeds, the call returns the writer's transfer error if non-nil, else the
pipe-close error if non-nil, else success. -/
theorem FetchFromTFTP_errors (n : Net) (u : URL) (dest : File) (opts : FetchOptions)
    (addr : GoString) (wt : TFTPTransfer)
    (haddr : addr = if ¬ (58 ∈ u.Host) then u.Host ++ lit ":69" else u.Host)
    (hclient : n.tftpNewClient addr = none)
    (hrecv : n.tftpReceive addr u.Path (lit "octet") = .ok wt) :
    (∀ d e w, decompressCopyHashAndVerify n dest ⟨wt.data, none⟩ opts = (d, some e) →
      0 < wt.reported → wt.writeErr = some w →
      (FetchFromTFTP n u dest opts).err = some w) ∧
    (∀ d e, decompressCopyHashAndVerify n dest ⟨wt.data, none⟩ opts = (d, some e) →
      wt.reported = 0 ∨ wt.writeErr = none →
      (FetchFromTFTP n u dest opts).err = some e) ∧
    (∀ d, decompressCopyHashAndVerify n dest ⟨wt.data, none⟩ opts = (d, none) →
      (FetchFromTFTP n u dest opts).err =
        match wt.writeErr with
        | some w => some w
        | none => wt.closeErr) := by
  subst haddr
  refine ⟨?_, ?_, ?_⟩
  · intro d e w hd hrep hw
    obtain ⟨k, hk⟩ : ∃ k, wt.reported = k + 1 := ⟨wt.reported - 1, by omega⟩
    simp only [FetchFromTFTP, hclient, hrecv, hd, hk, hw, checkForDoneChanErr,
      List.take_succ_cons]
  · intro d e hd hcase
    rcases hcase with h0 | hnone
    · simp only [FetchFromTFTP, hclient, hrecv, hd, h0, checkForDoneChanErr, List.take_zero]
    · cases hrep : wt.reported with
      | zero =>
        simp only [FetchFromTFTP, hclient, hrecv, hd, hrep, checkForDoneChanErr,
          List.take_zero]
      | succ k =>
        simp only [FetchFromTFTP, hclient, hrecv, hd, hrep, hnone, checkForDoneChanErr,
          List.take_succ_cons]
  · intro d hd
    cases hw : wt.writeErr with
    | some w => simp only [FetchFromTFTP, hclient, hrecv, hd, hw]
    | none =>
      cases hc : wt.closeErr with
      | some c => simp only [FetchFromTFTP, hclient, hrecv, hd, hw, hc]
      | none => simp only [FetchFromTFTP, hclient, hrecv, hd, hw, hc]

/-- Witness of C20, the TFTP scenario of the specification: the server closes
mid-transfer, the gzip reader fails on the truncated stream, and the writer has
already reported its error; the call returns the writer's error. -/
theorem FetchFromTFTP_errors_witness :
    (FetchFromTFTP
        (tftpNet ⟨[31], some (.external (lit "tftp: connection closed")), none, 1⟩)
        ⟨lit "tftp", lit "10.0.0.1", lit "/config", lit ""⟩ (scenarioFile [])
        (scenarioOpts false [] (lit "gzip"))).err =
      some (.external (lit "tftp: connection closed")) :=
  (FetchFromTFTP_errors
    (tftpNet ⟨[31], some (.external (lit "tftp: connection closed")), none, 1⟩)
    ⟨lit "tftp", lit "10.0.0.1", lit "/config", lit ""⟩ (scenarioFile [])
    (scenarioOpts false [] (lit "gzip")) (lit "10.0.0.1:69")
    ⟨[31], some (.external (lit "tftp: connection closed")), none, 1⟩
    (by decide) rfl rfl).1 (scenarioFile [])
    (.external (lit "gzip: invalid header")) (.external (lit "tftp: connection closed"))
    rfl (by decide) rfl

/-! ## Files stage: writing a systemd unit -/

theorem fetched_append (xs ys : List UnitEvent) :
    fetched (xs ++ ys) = fetched xs ++ fetched ys := by
  induction xs with
  | nil => rfl
  | cons x xs ih => cases x <;> simp [fetched, ih]

theorem relabels_append (xs ys : List UnitEvent) :
    relabels (xs ++ ys) = relabels xs ++ relabels ys := by
  induction xs with
  | nil => rfl
  | cons x xs ih => cases x <;> simp [relabels, ih]

/-- What a successful run of the drop-in loop wrote and relabelled. -/
theorem writeSystemdDropins_success (e : UnitEnv) (destDir : GoString) (unit : SystemdUnit)
    (runtime : Bool) (ds : List Dropin) :
    ∀ (flag : Bool) (tr : List UnitEvent),
      writeSystemdDropins e destDir unit runtime ds flag = (tr, none) →
      ∃ files : List FetchOp,
        List.Forall₂ (fun d f => e.FileFromSystemdUnitDropin unit d runtime = .ok f)
          (ds.filter (fun d => decide (d.Contents ≠ lit ""))) files ∧
        fetched tr = files ∧
        relabels tr =
          if flag then []
          else (files.head?.map (fun f => e.filepathDir (lit "/" ++ f.Path))).toList := by
  induction ds with
  | nil =>
    intro flag tr h
    simp only [writeSystemdDropins, Prod.mk.injEq, and_true] at h
    subst h
    exact ⟨[], by simp, rfl, by cases flag <;> rfl⟩
  | cons d rest ih =>
    intro flag tr h
    unfold writeSystemdDropins at h
    by_cases hc : d.Contents = lit ""
    · simp only [hc, if_true] at h
      obtain ⟨files, h1, h2, h3⟩ := ih flag tr h
      exact ⟨files, by simpa [hc] using h1, h2, h3⟩
    · simp only [hc, if_false] at h
      cases hconv : e.FileFromSystemdUnitDropin unit d runtime with
      | error err => simp [hconv] at h
      | ok f =>
        simp only [hconv] at h
        cases hp : e.PerformFetch destDir f with
        | some err => simp [hp] at h
        | none =>
          simp only [hp] at h
          rcases hrest : writeSystemdDropins e destDir unit runtime rest true with ⟨tr2, err2⟩
          simp only [hrest, Prod.mk.injEq] at h
          obtain ⟨htr, herr⟩ := h
          subst herr
          obtain ⟨files, h1, h2, h3⟩ := ih true tr2 hrest
          refine ⟨f :: files, ?_, ?_, ?_⟩
          · simpa [hc, hconv] using h1
          · rw [← htr, fetched_append, h2]
            cases flag <;> simp [fetched]
          · rw [← htr, relabels_append, h3]
            cases flag <;> simp [relabels]

/-- C24: for every systemd unit, when writeSystemdUnit returns without error
(no conversion and no write fails), it wrote exactly one file per drop-in with
non-empty contents, in order (drop-ins with empty contents are skipped), then
the unit file iff the unit's contents are non-empty; it relabelled the drop-in
directory exactly once iff at least one drop-in is non-empty, and the unit file
iff it was written. -/
theorem writeSystemdUnit_writes (e : UnitEnv) (unit : SystemdUnit) (runtime : Bool)
    (hok : (writeSystemdUnit e unit runtime).2 = none) :
    ∃ files : List FetchOp,
      List.Forall₂ (fun d f => e.FileFromSystemdUnitDropin unit d runtime = .ok f)
        (nonEmptyDropins unit) files ∧
      files.length = (nonEmptyDropins unit).length ∧
      (unit.Contents = lit "" →
        fetched (writeSystemdUnit e unit runtime).1 = files ∧
        relabels (writeSystemdUnit e unit runtime).1 =
          (files.head?.map (fun f => e.filepathDir (lit "/" ++ f.Path))).toList) ∧
      (unit.Contents ≠ lit "" →
        ∃ f, e.FileFromSystemdUnit unit runtime = .ok f ∧
          fetched (writeSystemdUnit e unit runtime).1 = files ++ [f] ∧
          relabels (writeSystemdUnit e unit runtime).1 =
            (files.head?.map (fun f => e.filepathDir (lit "/" ++ f.Path))).toList ++
              [lit "/" ++ f.Path]) ∧
      ((relabels (writeSystemdUnit e unit runtime).1).length =
        (if nonEmptyDropins unit = [] then 0 else 1) +
          (if unit.Contents = lit "" then 0 else 1)) := by
  unfold writeSystemdUnit at hok ⊢
  dsimp only at hok ⊢
  generalize (if runtime = true ∧ ¬e.BlackboxTesting = true then lit "/" else e.DestDir) =
    destDir at hok ⊢
  revert hok
  rcases hd : writeSystemdDropins e destDir unit runtime unit.Dropins false with ⟨tr, err⟩
  intro hok
  cases err with
  | some err => simp at hok
  | none =>
    simp only at hok ⊢
    obtain ⟨files, h1, h2, h3⟩ := writeSystemdDropins_success e destDir unit runtime _ false tr hd
    have hlen : files.length = (nonEmptyDropins unit).length := (List.Forall₂.length_eq h1).symm
    have hhead : ((files.head?.map (fun f => e.filepathDir (lit "/" ++ f.Path))).toList).length =
        if nonEmptyDropins unit = [] then 0 else 1 := by
      cases hf : files with
      | nil =>
        rw [hf] at hlen
        have : nonEmptyDropins unit = [] := List.length_eq_zero.mp hlen.symm
        simp [this]
      | cons f0 fs =>
        rw [hf] at hlen
        have : nonEmptyDropins unit ≠ [] := by
          intro h
          rw [h] at hlen
          simp at hlen
        simp [this]
    simp only [Bool.false_eq_true, if_false] at h3
    by_cases hc : unit.Contents = lit ""
    · simp only [hc, if_true] at hok ⊢
      refine ⟨files, h1, hlen, fun _ => ⟨h2, h3⟩, fun h => absurd rfl h, ?_⟩
      rw [h3, hhead, Nat.add_zero]
    · simp only [hc, if_false] at hok ⊢
      cases hconv : e.FileFromSystemdUnit unit runtime with
      | error err => simp [hconv] at hok
      | ok f =>
        simp only [hconv] at hok ⊢
        cases hp : e.PerformFetch destDir f with
        | some err => simp [hp] at hok
        | none =>
          simp only [hp]
          have hf : fetched (tr ++ [UnitEvent.performFetch destDir f,
              UnitEvent.relabel (lit "/" ++ f.Path)]) = files ++ [f] := by
            rw [fetched_append, h2]
            rfl
          have hr : relabels (tr ++ [UnitEvent.performFetch destDir f,
              UnitEvent.relabel (lit "/" ++ f.Path)]) =
              (files.head?.map (fun f => e.filepathDir (lit "/" ++ f.Path))).toList ++
                [lit "/" ++ f.Path] := by
            rw [relabels_append, h3]
            rfl
          refine ⟨files, h1, hlen, fun h => h.elim, fun _ => ⟨f, rfl, hf, hr⟩, ?_⟩
          rw [hr, List.length_append, hhead]
          rfl

/-- Witness of C24, the boundary case of the specification: a unit with empty
contents, one non-empty drop-in and one empty drop-in gets no unit file, one
drop-in file and one relabel, of the drop-in directory. -/
theorem writeSystemdUnit_writes_witness :
    (relabels (writeSystemdUnit (scenarioUnitEnv false)
        (scenarioUnit false none (lit "")
          [⟨lit "x.conf", lit "[Service]"⟩, ⟨lit "e.conf", lit ""⟩]) false).1).length =
      1 + 0 ∧
    fetched (writeSystemdUnit (scenarioUnitEnv false)
        (scenarioUnit false none (lit "")
          [⟨lit "x.conf", lit "[Service]"⟩, ⟨lit "e.conf", lit ""⟩]) false).1 =
      [⟨lit "etc/systemd/system/a.service.d/x.conf", lit "[Service]"⟩] ∧
    relabels (writeSystemdUnit (scenarioUnitEnv false)
        (scenarioUnit false none (lit "")
          [⟨lit "x.conf", lit "[Service]"⟩, ⟨lit "e.conf", lit ""⟩]) false).1 =
      [lit "/etc/systemd/system/a.service.d"] := by
  obtain ⟨_, _, _, _, _, h⟩ := writeSystemdUnit_writes (scenarioUnitEnv false)
    (scenarioUnit false none (lit "")
      [⟨lit "x.conf", lit "[Service]"⟩, ⟨lit "e.conf", lit ""⟩]) false rfl
  exact ⟨h, by decide, by decide⟩

/-! ## Files stage: enabling and disabling units -/

/-- The loop over the systemd units, split at a unit that is reached. -/
theorem createSystemdUnits_append (e : UnitEnv) (pre rest : List SystemdUnit) :
    ∀ (flag : Bool) (tr : List UnitEvent) (flag1 : Bool),
      createSystemdUnits e pre flag = (tr, none, flag1) →
      createSystemdUnits e (pre ++ rest) flag =
        (tr ++ (createSystemdUnits e rest flag1).1, (createSystemdUnits e rest flag1).2) := by
  induction pre with
  | nil =>
    intro flag tr flag1 h
    simp only [createSystemdUnits, Prod.mk.injEq, true_and] at h
    obtain ⟨h1, h2⟩ := h
    subst h1 h2
    simp
  | cons unit pre ih =>
    intro flag tr flag1 h
    simp only [List.cons_append]
    rw [createSystemdUnits] at h ⊢
    rcases hw : writeSystemdUnit e unit false with ⟨tr1, err1⟩
    cases err1 with
    | some err => simp [hw] at h
    | none =>
      simp only [hw] at h ⊢
      rcases hp : presetUnit e unit with ⟨tr2, err2, flag2⟩
      cases err2 with
      | some err => simp [hp] at h
      | none =>
        simp only [hp] at h ⊢
        rcases hrest : createSystemdUnits e pre (flag || flag2) with ⟨tr3, err3, flag3⟩
        simp only [hrest, Prod.mk.injEq] at h
        obtain ⟨h1, h2, h3⟩ := h
        subst h1 h2 h3
        rw [ih (flag || flag2) tr3 flag3 hrest]
        simp [List.append_assoc]

/-- Every step of the systemd loop is a step of `createUnits`. -/
theorem mem_createUnits_of_mem_systemd (e : UnitEnv) (us : List SystemdUnit)
    (ns : List Networkdunit) (ev : UnitEvent)
    (h : ev ∈ (createSystemdUnits e us false).1) : ev ∈ (createUnits e us ns).1 := by
  unfold createUnits
  rcases hs : createSystemdUnits e us false with ⟨tr, err, flag⟩
  rw [hs] at h
  cases err with
  | some err => exact h
  | none =>
    simp only
    cases flag <;> simp [List.mem_append] <;> exact Or.inl (by simpa using h)

/-- The steps for a unit that is reached and written: its files, then its
enable, disable and mask steps. -/
theorem createSystemdUnits_reached (e : UnitEnv) (pre post : List SystemdUnit)
    (unit : SystemdUnit)
    (hpre : (createSystemdUnits e pre false).2.1 = none)
    (hw : (writeSystemdUnit e unit false).2 = none) :
    ∃ after, (createSystemdUnits e (pre ++ unit :: post) false).1 =
      (createSystemdUnits e pre false).1 ++ (writeSystemdUnit e unit false).1 ++
        (presetUnit e unit).1 ++ after := by
  rcases hp : createSystemdUnits e pre false with ⟨tr, err, flag⟩
  rw [hp] at hpre
  simp only at hpre
  subst hpre
  rw [createSystemdUnits_append e pre (unit :: post) false tr flag hp]
  simp only
  rw [createSystemdUnits]
  rcases hwu : writeSystemdUnit e unit false with ⟨tr1, err1⟩
  rw [hwu] at hw
  simp only at hw
  subst hw
  simp only
  rcases hpu : presetUnit e unit with ⟨tr2, err2, flag2⟩
  cases err2 with
  | some err => exact ⟨[], by simp [List.append_assoc]⟩
  | none =>
    simp only
    exact ⟨(createSystemdUnits e post (flag || flag2)).1, by simp [List.append_assoc]⟩

/-- The result of the enable, disable and mask steps of a unit whose `enabled`
field is set, when the enable and disable operations succeed: the steps issued,
the error of the mask step, and the flag that asks for the preset relabel. -/
theorem presetUnit_enabled_result (e : UnitEnv) (unit : SystemdUnit) (b : Bool)
    (hEnabled : unit.Enabled = some b)
    (hen : unit.Enable = true ∨ b = true → e.EnableUnit unit = none)
    (hdis : b = false → e.DisableUnit unit = none) :
    presetUnit e unit =
      ((if unit.Enable then [.enable unit] else []) ++
        [if b then .enable unit else .disable unit] ++
        (if unit.Mask then [.mask unit] else []),
       (if unit.Mask then e.MaskUnit unit else none), true) := by
  unfold presetUnit
  cases hE : unit.Enable <;> cases b <;> cases hM : unit.Mask <;>
    simp_all

/-- C22 (as amended): for every systemd unit with enabled=false that
createUnits reaches (the units before it are processed without error) and
whose unit files are written without error, createUnits issues a disable for
that unit, including when the deprecated enable field is true, provided the
enable that it issues first for the deprecated field succeeds. -/
theorem createUnits_disables (e : UnitEnv) (pre post : List SystemdUnit)
    (ns : List Networkdunit) (unit : SystemdUnit)
    (hpre : (createSystemdUnits e pre false).2.1 = none)
    (hw : (writeSystemdUnit e unit false).2 = none)
    (hen : unit.Enable = true → e.EnableUnit unit = none)
    (hd : unit.Enabled = some false) :
    UnitEvent.disable unit ∈ (createUnits e (pre ++ unit :: post) ns).1 ∧
    (unit.Enable = true →
      UnitEvent.enable unit ∈ (createUnits e (pre ++ unit :: post) ns).1) := by
  have hmem : UnitEvent.disable unit ∈ (presetUnit e unit).1 ∧
      (unit.Enable = true → UnitEvent.enable unit ∈ (presetUnit e unit).1) := by
    unfold presetUnit
    cases hE : unit.Enable <;> cases hM : unit.Mask <;>
      cases hD : e.DisableUnit unit <;> simp_all
  obtain ⟨after, hafter⟩ := createSystemdUnits_reached e pre post unit hpre hw
  have hsub : ∀ ev, ev ∈ (presetUnit e unit).1 →
      ev ∈ (createUnits e (pre ++ unit :: post) ns).1 := by
    intro ev hev
    apply mem_createUnits_of_mem_systemd
    rw [hafter]
    simp [List.mem_append, hev]
  exact ⟨hsub _ hmem.1, fun h => hsub _ (hmem.2 h)⟩

/-- Witness of C22 (as amended): enable=true, enabled=false, every operation
succeeds: both an enable and a disable are issued. -/
theorem createUnits_disables_witness :
    UnitEvent.disable (scenarioUnit true (some false) (lit "[Unit]") []) ∈
      (createUnits (scenarioUnitEnv false)
        ([] ++ scenarioUnit true (some false) (lit "[Unit]") [] :: []) []).1 ∧
    UnitEvent.enable (scenarioUnit true (some false) (lit "[Unit]") []) ∈
      (createUnits (scenarioUnitEnv false)
        ([] ++ scenarioUnit true (some false) (lit "[Unit]") [] :: []) []).1 :=
  have h := createUnits_disables (scenarioUnitEnv false) [] [] []
    (scenarioUnit true (some false) (lit "[Unit]") []) rfl rfl (fun _ => rfl) rfl
  ⟨h.1, h.2 rfl⟩

/-- Counterexample to C22 as stated: a unit with enable=true and enabled=false
whose unit file is written without error, in an environment where enabling
fails.  createUnits returns the error of the enable issued for the deprecated
field and never issues the disable. -/
theorem createUnits_enable_fails_no_disable :
    (writeSystemdUnit (scenarioUnitEnv true)
      (scenarioUnit true (some false) (lit "[Unit]") []) false).2 = none ∧
    (scenarioUnit true (some false) (lit "[Unit]") []).Enabled = some false ∧
    (createUnits (scenarioUnitEnv true)
      [scenarioUnit true (some false) (lit "[Unit]") []] []).2 =
      some (.external (lit "preset: read-only")) ∧
    UnitEvent.disable (scenarioUnit true (some false) (lit "[Unit]") []) ∉
      (createUnits (scenarioUnitEnv true)
        [scenarioUnit true (some false) (lit "[Unit]") []] []).1 :=
  ⟨rfl, rfl, by decide, by decide⟩

/-- C23 (as amended): for every systemd unit whose enabled field is set, that
createUnits reaches and writes without error, and whose enable and disable
operations succeed, the whole sequence of steps of createUnits is: the steps of
the units before it, the writes of its files, then for this unit, in order,
one enable iff the deprecated enable field is true, exactly one operation
decided by enabled (an enable when enabled=true, a disable when
enabled=false) and the mask if requested, and right after these - nothing else
is issued for the unit - the steps of the units after it, the relabel of the
preset file and the networkd units (nothing at all when the mask fails).  Only
with enable=false are the operations determined by enabled alone. -/
theorem createUnits_enabled_ops (e : UnitEnv) (pre post : List SystemdUnit)
    (ns : List Networkdunit) (unit : SystemdUnit) (b : Bool)
    (hpre : (createSystemdUnits e pre false).2.1 = none)
    (hw : (writeSystemdUnit e unit false).2 = none)
    (hEnabled : unit.Enabled = some b)
    (hen : unit.Enable = true ∨ b = true → e.EnableUnit unit = none)
    (hdis : b = false → e.DisableUnit unit = none) :
    (createUnits e (pre ++ unit :: post) ns).1 =
      (createSystemdUnits e pre false).1 ++ (writeSystemdUnit e unit false).1 ++
        ((if unit.Enable then [.enable unit] else []) ++
          [if b then .enable unit else .disable unit] ++
          (if unit.Mask then [.mask unit] else [])) ++
        (if unit.Mask && (e.MaskUnit unit).isSome then []
         else (createSystemdUnits e post true).1 ++
           (if (createSystemdUnits e post true).2.1.isSome then []
            else (if (createSystemdUnits e post true).2.2 then [.relabel e.PresetPath]
                else []) ++ (createNetworkdUnits e ns).1)) := by
  have hpu := presetUnit_enabled_result e unit b hEnabled hen hdis
  rcases hp : createSystemdUnits e pre false with ⟨tr, err, flag⟩
  rw [hp] at hpre
  simp only at hpre
  subst hpre
  unfold createUnits
  rw [createSystemdUnits_append e pre (unit :: post) false tr flag hp]
  rw [createSystemdUnits]
  rcases hwu : writeSystemdUnit e unit false with ⟨tr1, err1⟩
  rw [hwu] at hw
  simp only at hw
  subst hw
  rw [hpu]
  simp only [Bool.or_true]
  cases hM : unit.Mask
  · simp only [Bool.false_and, Bool.false_eq_true, if_false]
    rcases hq : createSystemdUnits e post true with ⟨tr3, err3, flag3⟩
    cases err3 <;> cases flag3 <;> simp [hq, List.append_assoc]
  · cases hmask : e.MaskUnit unit with
    | some err => simp [List.append_assoc]
    | none =>
      simp only [Bool.true_and, Option.isSome_none, Bool.false_eq_true, if_false, if_true]
      rcases hq : createSystemdUnits e post true with ⟨tr3, err3, flag3⟩
      cases err3 <;> cases flag3 <;> simp [hq, List.append_assoc]

/-- Witness of C23 (as amended): enable=false and enabled=true gives exactly
one enable, followed by the relabel of the preset file. -/
theorem createUnits_enabled_ops_witness :
    (createUnits (scenarioUnitEnv false)
        ([] ++ scenarioUnit false (some true) (lit "") [] :: []) []).1 =
      [.enable (scenarioUnit false (some true) (lit "") []),
        .relabel (lit "/etc/systemd/system-preset/20-ignition.preset")] :=
  (createUnits_enabled_ops (scenarioUnitEnv false) [] [] []
    (scenarioUnit false (some true) (lit "") []) true rfl rfl rfl (fun _ => rfl)
    (fun h => absurd h (by decide))).trans (by decide)

/-- Counterexample to C23 as stated: a unit with enabled=false and the
deprecated enable=true, every operation succeeding.  createUnits issues an
enable and then a disable for it, not a disable alone; with enabled=true and
enable=true it issues two enables. -/
theorem createUnits_enable_and_disable :
    (createUnits (scenarioUnitEnv false)
      [scenarioUnit true (some false) (lit "") []] []).1 =
      [.enable (scenarioUnit true (some false) (lit "") []),
        .disable (scenarioUnit true (some false) (lit "") []),
        .relabel (lit "/etc/systemd/system-preset/20-ignition.preset")] ∧
    (createUnits (scenarioUnitEnv false)
      [scenarioUnit true (some true) (lit "") []] []).1 =
      [.enable (scenarioUnit true (some true) (lit "") []),
        .enable (scenarioUnit true (some true) (lit "") []),
        .relabel (lit "/etc/systemd/system-preset/20-ignition.preset")] :=
  ⟨by decide, by decide⟩

/-! ## Entry point: exit codes -/

/-- C21 (as amended): for every invocation without --version: the exit code
of main is 2 when --oem or --stage is missing (no stage is run); with both
given and the OEM name registered, it is 3 when the provider's fetcher
construction fails (no stage is run), and otherwise the stage is run once,
Config.Status is called exactly once after it with the stage's error (nil on
success), and the exit code is 1 iff the stage returned an error and 0 iff it
did not, whatever Config.Status returns. -/
theorem main_exit_code (e : MainEnv) (flags : Flags) (hv : flags.version = false) :
    (flags.oem = lit "" ∨ flags.stage = lit "" →
      (main e flags).2 = .code 2 ∧ ∀ st, MainEvent.run st ∉ (main e flags).1) ∧
    (∀ c, flags.oem ≠ lit "" → flags.stage ≠ lit "" → e.configs flags.oem = some c →
      (∀ err, c.NewFetcherFunc = .error err →
        (main e flags).2 = .code 3 ∧ ∀ st, MainEvent.run st ∉ (main e flags).1) ∧
      (∀ fetcher, c.NewFetcherFunc = .ok fetcher →
        (main e flags).1 =
          (if flags.clearCache then [MainEvent.remove flags.configCache] else []) ++
            [.newFetcher, .run flags.stage,
              .status flags.stage (e.Run flags fetcher flags.stage)
                (c.Status flags.stage fetcher (e.Run flags fetcher flags.stage))] ∧
        ((main e flags).2 = .code 1 ↔ e.Run flags fetcher flags.stage ≠ none) ∧
        ((main e flags).2 = .code 0 ↔ e.Run flags fetcher flags.stage = none))) := by
  refine ⟨?_, ?_⟩
  · intro h
    unfold main
    by_cases ho : flags.oem = lit ""
    · simp [hv, ho]
    · rcases h with h | h
      · exact absurd h ho
      · simp [hv, ho, h]
  · intro c ho hs hc
    refine ⟨?_, ?_⟩
    · intro err hn
      unfold main
      simp only [hv, ho, hs, hc, hn, Bool.false_eq_true, if_false]
      refine ⟨trivial, ?_⟩
      intro st
      cases flags.clearCache <;> simp
    · intro fetcher hn
      unfold main
      simp only [hv, ho, hs, hc, hn, Bool.false_eq_true, if_false]
      cases hr : e.Run flags fetcher flags.stage with
      | none => simp
      | some err => simp

/-- Witness of C21 (as amended): the stage fails and the status hook fails
too; the exit code is 1. -/
theorem main_exit_code_witness :
    (main (scenarioMain ⟨lit "packet", none,
        some (fun _ _ _ => some (.external (lit "POST failed")))⟩
        (some (.external (lit "stage failed"))))
      (scenarioFlags false (lit "packet") (lit "disks"))).2 = .code 1 :=
  (((main_exit_code (scenarioMain ⟨lit "packet", none,
        some (fun _ _ _ => some (.external (lit "POST failed")))⟩
        (some (.external (lit "stage failed"))))
      (scenarioFlags false (lit "packet") (lit "disks")) rfl).2
    ⟨lit "packet", none, some (fun _ _ _ => some (.external (lit "POST failed")))⟩
    (by decide) (by decide) rfl).2 ⟨true, none, lit ""⟩ rfl).2.1.mpr (by decide)

/-- Counterexample to C21 as stated: --version without --oem and --stage.
main prints the version and returns, so the exit code is 0, not 2. -/
theorem main_version_without_oem :
    (scenarioFlags true (lit "") (lit "")).oem = lit "" ∧
    main (scenarioMain ⟨lit "packet", none, none⟩ none)
        (scenarioFlags true (lit "") (lit "")) =
      ([.printVersion], .code 0) :=
  ⟨rfl, rfl⟩

/-! ## Storage stage: failing probes -/

/-- C28: if one of the three probes of a device (filesystem type, UUID, label,
in that order) fails, createFilesystem returns that probe's error; the trace
holds the probes up to the failed one and nothing else: later probes are not
attempted and no formatter is invoked, whatever wipeFilesystem, create and
create.force are. -/
theorem createFilesystem_probe_failure (w : Env) (fs : Mount) :
    (∀ err, w.FilesystemType fs.Device = .error err →
      createFilesystem w fs = ([.probeType fs.Device], some err)) ∧
    (∀ format err, w.FilesystemType fs.Device = .ok format →
      w.FilesystemUUID fs.Device = .error err →
      createFilesystem w fs = ([.probeType fs.Device, .probeUUID fs.Device], some err)) ∧
    (∀ format uuid err, w.FilesystemType fs.Device = .ok format →
      w.FilesystemUUID fs.Device = .ok uuid →
      w.FilesystemLabel fs.Device = .error err →
      createFilesystem w fs =
        ([.probeType fs.Device, .probeUUID fs.Device, .probeLabel fs.Device], some err)) ∧
    ((∀ info, ¬ Probed w fs info) → execs (createFilesystem w fs).1 = []) := by
  refine ⟨?_, ?_, ?_, ?_⟩
  · intro err h1
    simp [createFilesystem, readFilesystemInfo, h1]
  · intro format err h1 h2
    simp [createFilesystem, readFilesystemInfo, h1, h2]
  · intro format uuid err h1 h2 h3
    simp [createFilesystem, readFilesystemInfo, h1, h2, h3]
  · intro hno
    rcases readFilesystemInfo_cases w fs with ⟨info, hp⟩ | ⟨tr, err, hr, he⟩
    · exact absurd hp (hno info)
    · have h : createFilesystem w fs = (tr, some err) := by
        simp [createFilesystem, hr]
      rw [h]
      exact he

/-! ## Fetcher: the state of the hasher -/

/-- C30: the outcome of a fetch does not depend on the prior state of the
caller-supplied hasher: for the same algorithm, source, expected sum and other
options, two hashers that had absorbed different data give the same result of
decompressCopyHashAndVerify, of FetchFromS3 and of Fetch (the same sink and
the same success or error). -/
theorem hasher_state_irrelevant (fuel : Nat) (n : Net) (f : Fetcher) (u : URL)
    (dest : File) (src : Reader) (headers : List (GoString × List GoString))
    (digest : List Nat → List Nat) (a1 a2 expected : List Nat) (compression : GoString) :
    decompressCopyHashAndVerify n dest src ⟨headers, some ⟨digest, a1⟩, expected, compression⟩ =
      decompressCopyHashAndVerify n dest src
        ⟨headers, some ⟨digest, a2⟩, expected, compression⟩ ∧
    FetchFromS3 fuel n f u dest ⟨headers, some ⟨digest, a1⟩, expected, compression⟩ =
      FetchFromS3 fuel n f u dest ⟨headers, some ⟨digest, a2⟩, expected, compression⟩ ∧
    Fetch fuel n f u dest ⟨headers, some ⟨digest, a1⟩, expected, compression⟩ =
      Fetch fuel n f u dest ⟨headers, some ⟨digest, a2⟩, expected, compression⟩ := by
  have hcopy : ∀ (d : File) (r : Reader),
      decompressCopyHashAndVerify n d r ⟨headers, some ⟨digest, a1⟩, expected, compression⟩ =
        decompressCopyHashAndVerify n d r
          ⟨headers, some ⟨digest, a2⟩, expected, compression⟩ := fun _ _ => rfl
  have hs3 : FetchFromS3 fuel n f u dest ⟨headers, some ⟨digest, a1⟩, expected, compression⟩ =
      FetchFromS3 fuel n f u dest ⟨headers, some ⟨digest, a2⟩, expected, compression⟩ := rfl
  refine ⟨hcopy dest src, hs3, ?_⟩
  unfold Fetch
  rw [hs3]
  have h1 : FetchFromHTTP n f u dest ⟨headers, some ⟨digest, a1⟩, expected, compression⟩ =
      FetchFromHTTP n f u dest ⟨headers, some ⟨digest, a2⟩, expected, compression⟩ := rfl
  have h2 : FetchFromTFTP n u dest ⟨headers, some ⟨digest, a1⟩, expected, compression⟩ =
      FetchFromTFTP n u dest ⟨headers, some ⟨digest, a2⟩, expected, compression⟩ := rfl
  have h3 : FetchFromDataURL n u dest ⟨headers, some ⟨digest, a1⟩, expected, compression⟩ =
      FetchFromDataURL n u dest ⟨headers, some ⟨digest, a2⟩, expected, compression⟩ := rfl
  have h4 : FetchFromOEM n u dest ⟨headers, some ⟨digest, a1⟩, expected, compression⟩ =
      FetchFromOEM n u dest ⟨headers, some ⟨digest, a2⟩, expected, compression⟩ := rfl
  rw [h1, h2, h3, h4]

/-! ## Storage stage: all filesystems -/

/-- C25: for every list of configured filesystems (entries without a mount
record are ignored): with no mount record createFilesystems returns success
without waiting on any device; otherwise, when the device wait succeeds and
the results arrive in some order of the mounts, createFilesystem is run exactly
once per mount, success is returned iff every per-filesystem result is
success, and otherwise the error is one combined error whose message is the
messages of the failed filesystems, one each, in arrival order, joined by
newlines. -/
theorem createFilesystems_combines (s : StageEnv) (filesystems : List Filesystem)
    (harrival : (s.arrival (filesystems.filterMap (fun fs => fs.Mount))).Perm
      (filesystems.filterMap (fun fs => fs.Mount)))
    (hwait : s.waitOnDevicesAndCreateAliases
      ((filesystems.filterMap (fun fs => fs.Mount)).map (fun fs => fs.Device))
      (lit "filesystems") = none) :
    (filesystems.filterMap (fun fs => fs.Mount) = [] →
      (createFilesystems s filesystems).waited = none ∧
      (createFilesystems s filesystems).runs = [] ∧
      (createFilesystems s filesystems).err = none) ∧
    (filesystems.filterMap (fun fs => fs.Mount) ≠ [] →
      ((createFilesystems s filesystems).runs.map (fun r => r.1)).Perm
        (filesystems.filterMap (fun fs => fs.Mount)) ∧
      (∀ r ∈ (createFilesystems s filesystems).runs, r.2 = createFilesystem s.env r.1) ∧
      ((createFilesystems s filesystems).err = none ↔
        ∀ fs ∈ filesystems.filterMap (fun fs => fs.Mount),
          (createFilesystem s.env fs).2 = none) ∧
      ((createFilesystems s filesystems).err ≠ none →
        (createFilesystems s filesystems).err =
          some (.combined (Join
            ((createFilesystems s filesystems).runs.filterMap
              (fun r => r.2.2.map (GoError.Error s.quote)))
            (lit "\n"))) ∧
        ((createFilesystems s filesystems).runs.filterMap
            (fun r => r.2.2.map (GoError.Error s.quote))).length =
          ((createFilesystems s filesystems).runs.filter
            (fun r => r.2.2.isSome)).length)) := by
  refine ⟨?_, ?_⟩
  · intro hnil
    simp [createFilesystems, hnil]
  · intro hne
    have hlen : (filesystems.filterMap (fun fs => fs.Mount)).length ≠ 0 := by
      intro h
      exact hne (List.length_eq_zero.mp h)
    have hruns : (createFilesystems s filesystems).runs =
        (s.arrival (filesystems.filterMap (fun fs => fs.Mount))).map
          (fun fs => (fs, createFilesystem s.env fs)) := by
      unfold createFilesystems
      simp only [hlen, if_false, hwait]
      split_ifs <;> rfl
    have hcount : ∀ l : List (Mount × (List Event × Option GoError)),
        (l.filterMap (fun r => r.2.2.map (GoError.Error s.quote))).length =
          (l.filter (fun r => r.2.2.isSome)).length := by
      intro l
      induction l with
      | nil => rfl
      | cons r l ih =>
        cases hr : r.2.2 <;> simp [List.filterMap_cons, List.filter_cons, hr, ih]
    have herr : (createFilesystems s filesystems).err =
        if ((createFilesystems s filesystems).runs.filterMap
            (fun r => r.2.2.map (GoError.Error s.quote))).length > 0 then
          some (.combined (Join ((createFilesystems s filesystems).runs.filterMap
            (fun r => r.2.2.map (GoError.Error s.quote))) (lit "\n")))
        else none := by
      rw [hruns]
      unfold createFilesystems
      simp only [hlen, if_false, hwait]
      split_ifs <;> rfl
    refine ⟨?_, ?_, ?_, ?_⟩
    · rw [hruns, List.map_map]
      have hid : ((fun r : Mount × (List Event × Option GoError) => r.1) ∘
          fun fs => (fs, createFilesystem s.env fs)) = id := rfl
      rw [hid, List.map_id]
      exact harrival
    · intro r hr
      rw [hruns] at hr
      simp only [List.mem_map] at hr
      obtain ⟨fs, _, rfl⟩ := hr
      rfl
    · rw [herr, hcount, hruns]
      constructor
      · intro h fs hfs
        split_ifs at h with hpos
        have hmem : fs ∈ s.arrival (filesystems.filterMap (fun fs => fs.Mount)) :=
          harrival.mem_iff.mpr hfs
        by_contra hsome
        apply hpos
        apply List.length_pos_of_mem (a := (fs, createFilesystem s.env fs))
        simp only [List.mem_filter, List.mem_map]
        refine ⟨⟨fs, hmem, rfl⟩, ?_⟩
        cases hc : (createFilesystem s.env fs).2 with
        | none => exact absurd hc hsome
        | some e => rfl
      · intro h
        rw [if_neg]
        intro hpos
        obtain ⟨r, hr⟩ := List.exists_mem_of_length_pos hpos
        simp only [List.mem_filter, List.mem_map] at hr
        obtain ⟨⟨fs, hfs, rfl⟩, hsome⟩ := hr
        have := h fs (harrival.mem_iff.mp hfs)
        simp [this] at hsome
    · intro hne2
      refine ⟨?_, hcount _⟩
      rw [herr] at hne2 ⊢
      split_ifs at hne2 ⊢ with hpos
      · rfl
      · exact absurd rfl hne2

/-- Witness of C25: a device probed as xfs with label DATA; one entry without
mount record, one mount asking for ext4 (rejected) and one asking for ntfs with
wipeFilesystem (unsupported).  The results arrive in reverse order and the
combined message joins the two messages with a newline. -/
theorem createFilesystems_combines_witness :
    (createFilesystems (scenarioStage (scenarioEnv (lit "xfs") (lit "") (lit "DATA") none))
      [⟨lit "a", some (scenarioMount (lit "ext4") none none false none)⟩,
        ⟨lit "b", none⟩,
        ⟨lit "c", some (scenarioMount (lit "ntfs") none none true none)⟩]).err =
      some (.combined (lit
        "unsupported filesystem format: \"ntfs\"\nfilesystem is not of the correct type")) :=
  (((createFilesystems_combines
      (scenarioStage (scenarioEnv (lit "xfs") (lit "") (lit "DATA") none))
      [⟨lit "a", some (scenarioMount (lit "ext4") none none false none)⟩,
        ⟨lit "b", none⟩,
        ⟨lit "c", some (scenarioMount (lit "ntfs") none none true none)⟩]
      (List.reverse_perm _) rfl).2 (by decide)).2.2.2 (by decide)).1

/-! ## UUID canonicalization: algebra -/

theorem ToUpper_ascii (uni : GoString → GoString) (s : GoString)
    (h : ∀ c ∈ s, c < 128) :
    ToUpper uni s = s.map (fun c => if 97 ≤ c ∧ c ≤ 122 then c - 32 else c) := by
  have : s.all (fun c => decide (c < 128)) = true := by
    simpa [List.all_eq_true] using h
  simp [ToUpper, this]

/-- Lower-casing a byte keeps it ASCII. -/
theorem lower_byte_lt (c : Nat) (h : c < 128) :
    (if 65 ≤ c ∧ c ≤ 90 then c + 32 else c) < 128 := by
  split_ifs with h1 <;> omega

/-- Lower-casing a byte twice is lower-casing it once. -/
theorem lower_byte_idem (c : Nat) :
    (fun c => if 65 ≤ c ∧ c ≤ 90 then c + 32 else c)
      (if 65 ≤ c ∧ c ≤ 90 then c + 32 else c) =
      (if 65 ≤ c ∧ c ≤ 90 then c + 32 else c) := by
  simp only
  split_ifs <;> omega

/-- Upper-casing a lower-cased byte is upper-casing the byte. -/
theorem upper_lower_byte (c : Nat) :
    (fun c => if 97 ≤ c ∧ c ≤ 122 then c - 32 else c)
      (if 65 ≤ c ∧ c ≤ 90 then c + 32 else c) =
      (if 97 ≤ c ∧ c ≤ 122 then c - 32 else c) := by
  simp only
  split_ifs <;> omega

/-- On ASCII input the canonical form is the byte-wise lower-cased input,
without its index 4 when the format is vfat and that byte is a dash. -/
theorem canonicalizeFilesystemUUID_ascii (uni : GoString → GoString)
    (format u : GoString) (hu : ∀ c ∈ u, c < 128) :
    canonicalizeFilesystemUUID uni format u =
      if format = lit "vfat" ∧ u[4]? = some 45 then
        (u.map (fun c => if 65 ≤ c ∧ c ≤ 90 then c + 32 else c)).eraseIdx 4
      else u.map (fun c => if 65 ≤ c ∧ c ≤ 90 then c + 32 else c) := by
  have h4 : ((u.map (fun c => if 65 ≤ c ∧ c ≤ 90 then c + 32 else c))[4]? = some 45) ↔
      u[4]? = some 45 := by
    rw [List.getElem?_map]
    cases h : u[4]? with
    | none => simp
    | some c => simp [lower_byte_eq_dash]
  unfold canonicalizeFilesystemUUID
  rw [ToLower_ascii uni u hu]
  by_cases hf : format = lit "vfat"
  · by_cases hd : u[4]? = some 45
    · have hl : 5 ≤ (u.map (fun c => if 65 ≤ c ∧ c ≤ 90 then c + 32 else c)).length := by
        by_contra hlt
        rw [List.length_map] at hlt
        rw [List.getElem?_eq_none (by omega)] at hd
        exact absurd hd (by simp)
      simp only [hf, hd, h4.mpr hd, hl, and_self, if_true, ge_iff_le]
      exact (List.eraseIdx_eq_take_drop_succ _ _).symm
    · have hd2 : ¬ (u.map (fun c => if 65 ≤ c ∧ c ≤ 90 then c + 32 else c))[4]? = some 45 :=
        fun h => hd (h4.mp h)
      simp only [hf, hd, hd2, and_false, if_true, if_false]
  · simp [hf]

/-- Erasing a dash does not change what remains after dropping all dashes. -/
theorem filter_dash_eraseIdx (l : List Nat) (i : Nat) (h : l[i]? = some 45) :
    (l.eraseIdx i).filter (fun c => decide (c ≠ 45)) =
      l.filter (fun c => decide (c ≠ 45)) := by
  induction l generalizing i with
  | nil => simp
  | cons a l ih =>
    cases i with
    | zero =>
      simp only [List.getElem?_cons_zero, Option.some.injEq] at h
      simp [h]
    | succ i =>
      simp only [List.getElem?_cons_succ] at h
      simp only [List.eraseIdx_cons_succ, List.filter_cons]
      rw [ih i h]

/-- On ASCII input, dropping the dashes of the canonical form gives the
lower-cased input without its dashes. -/
theorem filter_dash_canonical (uni : GoString → GoString) (format u : GoString)
    (hu : ∀ c ∈ u, c < 128) :
    (canonicalizeFilesystemUUID uni format u).filter (fun c => decide (c ≠ 45)) =
      (u.filter (fun c => decide (c ≠ 45))).map
        (fun c => if 65 ≤ c ∧ c ≤ 90 then c + 32 else c) := by
  have hmap : (u.map (fun c => if 65 ≤ c ∧ c ≤ 90 then c + 32 else c)).filter
      (fun c => decide (c ≠ 45)) =
      (u.filter (fun c => decide (c ≠ 45))).map
        (fun c => if 65 ≤ c ∧ c ≤ 90 then c + 32 else c) := by
    induction u with
    | nil => rfl
    | cons a u ih =>
      have ih2 := ih (fun c hc => hu c (List.mem_cons_of_mem _ hc))
      by_cases ha : a = 45
      · subst ha
        simpa [List.filter_cons] using ih2
      · have ha2 : (if 65 ≤ a ∧ a ≤ 90 then a + 32 else a) ≠ 45 :=
          fun h => ha ((lower_byte_eq_dash a).mp h)
        simp only [List.map_cons, List.filter_cons, ha2, ha, ne_eq, not_false_eq_true,
          decide_True, if_true]
        rw [ih2]
  rw [canonicalizeFilesystemUUID_ascii uni format u hu]
  split_ifs with h
  · rw [filter_dash_eraseIdx _ 4, hmap]
    rw [List.getElem?_map, h.2]
    rfl
  · exact hmap

/-- C26: for every format and every ASCII UUID strings u and v, the canonical
form is equivalent to the configured UUID under the validator's comparison:
formatUUID(canonicalizeFilesystemUUID(format, u)) = formatUUID(u); and if u and
v have equal canonical forms for the format then their formatUUID forms are
equal.  So the UUID check of validateFilesystems, which compares formatUUID
forms, passes between the configured UUID and its canonical form. -/
theorem formatUUID_canonical (uniL uniU : GoString → GoString) (format u v : GoString)
    (hu : ∀ c ∈ u, c < 128) (hv : ∀ c ∈ v, c < 128) :
    formatUUID uniU (canonicalizeFilesystemUUID uniL format u) = formatUUID uniU u ∧
    (canonicalizeFilesystemUUID uniL format u = canonicalizeFilesystemUUID uniL format v →
      formatUUID uniU u = formatUUID uniU v) := by
  have key : ∀ w : GoString, (∀ c ∈ w, c < 128) →
      formatUUID uniU (canonicalizeFilesystemUUID uniL format w) = formatUUID uniU w := by
    intro w hw
    unfold formatUUID
    rw [filter_dash_canonical uniL format w hw]
    have h1 : ∀ c ∈ (w.filter (fun c => decide (c ≠ 45))), c < 128 :=
      fun c hc => hw c (List.mem_of_mem_filter hc)
    have h2 : ∀ c ∈ (w.filter (fun c => decide (c ≠ 45))).map
        (fun c => if 65 ≤ c ∧ c ≤ 90 then c + 32 else c), c < 128 := by
      intro c hc
      obtain ⟨a, ha, rfl⟩ := List.mem_map.mp hc
      exact lower_byte_lt a (h1 a ha)
    rw [ToUpper_ascii uniU _ h1, ToUpper_ascii uniU _ h2, List.map_map]
    apply List.map_congr_left
    intro a _
    exact upper_lower_byte a
  refine ⟨key u hu, ?_⟩
  intro h
  rw [← key u hu, ← key v hv, h]

/-- Witness of C26: the vfat UUIDs a1b2-c3d4 and A1B2C3D4. -/
theorem formatUUID_canonical_witness :
    formatUUID (fun s => s)
        (canonicalizeFilesystemUUID (fun s => s) (lit "vfat") (lit "a1b2-c3d4")) =
      formatUUID (fun s => s) (lit "a1b2-c3d4") ∧
    formatUUID (fun s => s) (lit "a1b2-c3d4") = formatUUID (fun s => s) (lit "A1B2C3D4") ∧
    formatUUID (fun s => s) (lit "a1b2-c3d4") = lit "A1B2C3D4" :=
  have h := formatUUID_canonical (fun s => s) (fun s => s) (lit "vfat") (lit "a1b2-c3d4")
    (lit "A1B2C3D4") (by decide) (by decide)
  ⟨h.1, h.2 (by decide), by decide⟩

/-- On ASCII input every byte of the canonical form is a lower-cased byte of
the input. -/
theorem mem_canonical_ascii (uni : GoString → GoString) (format u : GoString)
    (hu : ∀ c ∈ u, c < 128) :
    ∀ x ∈ canonicalizeFilesystemUUID uni format u,
      ∃ a ∈ u, x = (if 65 ≤ a ∧ a ≤ 90 then a + 32 else a) := by
  intro x hx
  rw [canonicalizeFilesystemUUID_ascii uni format u hu] at hx
  have hx2 : x ∈ u.map (fun c => if 65 ≤ c ∧ c ≤ 90 then c + 32 else c) := by
    split_ifs at hx
    · exact List.mem_of_mem_eraseIdx hx
    · exact hx
  obtain ⟨a, ha, rfl⟩ := List.mem_map.mp hx2
  exact ⟨a, ha, rfl⟩

/-- C27 (as amended): canonicalizeFilesystemUUID is idempotent on every ASCII
string u for every format other than "vfat", and for "vfat" unless u has a dash
both at index 4 and at index 5:
canonicalizeFilesystemUUID(f, canonicalizeFilesystemUUID(f, u)) =
canonicalizeFilesystemUUID(f, u). -/
theorem canonicalizeFilesystemUUID_idempotent (uni : GoString → GoString)
    (format u : GoString) (hu : ∀ c ∈ u, c < 128)
    (hd : format ≠ lit "vfat" ∨ u[4]? ≠ some 45 ∨ u[5]? ≠ some 45) :
    canonicalizeFilesystemUUID uni format (canonicalizeFilesystemUUID uni format u) =
      canonicalizeFilesystemUUID uni format u := by
  have hmem := mem_canonical_ascii uni format u hu
  have hascii : ∀ c ∈ canonicalizeFilesystemUUID uni format u, c < 128 := by
    intro c hc
    obtain ⟨a, ha, rfl⟩ := hmem c hc
    exact lower_byte_lt a (hu a ha)
  have hfix : (canonicalizeFilesystemUUID uni format u).map
      (fun c => if 65 ≤ c ∧ c ≤ 90 then c + 32 else c) =
      canonicalizeFilesystemUUID uni format u := by
    conv_rhs => rw [← List.map_id (canonicalizeFilesystemUUID uni format u)]
    apply List.map_congr_left
    intro x hx
    obtain ⟨a, _, rfl⟩ := hmem x hx
    exact lower_byte_idem a
  rw [canonicalizeFilesystemUUID_ascii uni format _ hascii, hfix]
  rw [if_neg]
  rintro ⟨hf, h4⟩
  rw [canonicalizeFilesystemUUID_ascii uni format u hu] at h4
  by_cases hu4 : u[4]? = some 45
  · have hu5 : u[5]? ≠ some 45 := by
      rcases hd with h | h | h
      · exact absurd hf h
      · exact absurd hu4 h
      · exact h
    rw [if_pos ⟨hf, hu4⟩, List.getElem?_eraseIdx_of_ge _ 4 4 (le_refl 4),
      List.getElem?_map] at h4
    cases h5 : u[5]? with
    | none => simp [h5] at h4
    | some c =>
      rw [h5] at hu5 h4
      simp only [Option.map_some', Option.some.injEq] at h4
      exact hu5 (by rw [(lower_byte_eq_dash c).mp h4])
  · rw [if_neg (fun h => hu4 h.2), List.getElem?_map] at h4
    cases h5 : u[4]? with
    | none => simp [h5] at h4
    | some c =>
      rw [h5] at hu4 h4
      simp only [Option.map_some', Option.some.injEq] at h4
      exact hu4 (by rw [(lower_byte_eq_dash c).mp h4])

/-- Witness of C27 (as amended): the vfat volume ID A1B2-C3D4. -/
theorem canonicalizeFilesystemUUID_idempotent_witness :
    canonicalizeFilesystemUUID (fun s => s) (lit "vfat")
        (canonicalizeFilesystemUUID (fun s => s) (lit "vfat") (lit "A1B2-C3D4")) =
      canonicalizeFilesystemUUID (fun s => s) (lit "vfat") (lit "A1B2-C3D4") :=
  canonicalizeFilesystemUUID_idempotent (fun s => s) (lit "vfat") (lit "A1B2-C3D4")
    (by decide) (Or.inr (Or.inr (by decide)))

/-- Counterexample to C27 as stated: for the format "vfat" and the string
abcd--efg the canonical form is abcd-efg, whose canonical form is abcdefg: the
second pass strips the dash that moved to index 4. -/
theorem canonicalizeFilesystemUUID_double_dash :
    canonicalizeFilesystemUUID (fun s => s) (lit "vfat") (lit "abcd--efg") = lit "abcd-efg" ∧
    canonicalizeFilesystemUUID (fun s => s) (lit "vfat")
        (canonicalizeFilesystemUUID (fun s => s) (lit "vfat") (lit "abcd--efg")) =
      lit "abcdefg" ∧
    lit "abcdefg" ≠ lit "abcd-efg" :=
  ⟨by decide, by decide, by decide⟩

/-! ## Fetcher: the S3 retry -/

/-- C29 (as amended): when no download with anonymous credentials fails with
an EC2RoleRequestError, fetchFromS3WithCreds returns after at most two download
attempts (two calls suffice): when the first download fails with an
EC2RoleRequestError it retries once with anonymous credentials and returns the
result of that retry; any other error, and success, is returned without
retry. -/
theorem fetchFromS3WithCreds_two_attempts (n : Net) (input : GetObjectInput) (fuel : Nat)
    (dest : File) (sess : Session)
    (hanon : ∀ (s : Session) (d : File) (err : FetchError), s.anonymous = true →
      (n.Download s input d).2 = some err →
      n.awsErrCode err ≠ some (lit "EC2RoleRequestError"))
    (hclient : n.defaultHTTPClient = none) (hfuel : 2 ≤ fuel) :
    (∃ r, fetchFromS3WithCreds n input fuel dest sess = some r ∧ r.1.length ≤ 2) ∧
    ((n.Download sess input dest).2 = none →
      fetchFromS3WithCreds n input fuel dest sess =
        some ([.download sess input], (n.Download sess input dest).1, none)) ∧
    (∀ err, (n.Download sess input dest).2 = some err →
      n.awsErrCode err ≠ some (lit "EC2RoleRequestError") →
      fetchFromS3WithCreds n input fuel dest sess =
        some ([.download sess input], (n.Download sess input dest).1, some err)) ∧
    (∀ err, (n.Download sess input dest).2 = some err →
      n.awsErrCode err = some (lit "EC2RoleRequestError") →
      fetchFromS3WithCreds n input fuel dest sess =
        some ([.download sess input, .download ⟨true, sess.Region⟩ input],
          (n.Download ⟨true, sess.Region⟩ input (n.Download sess input dest).1).1,
          (n.Download ⟨true, sess.Region⟩ input (n.Download sess input dest).1).2)) := by
  obtain ⟨k, rfl⟩ : ∃ k, fuel = k + 2 := ⟨fuel - 2, by omega⟩
  have hretry : ∀ d, fetchFromS3WithCreds n input (k + 1) d ⟨true, sess.Region⟩ =
      some ([.download ⟨true, sess.Region⟩ input],
        (n.Download ⟨true, sess.Region⟩ input d).1,
        (n.Download ⟨true, sess.Region⟩ input d).2) := by
    intro d
    rw [fetchFromS3WithCreds]
    simp only [hclient]
    rcases hdl : n.Download ⟨true, sess.Region⟩ input d with ⟨d2, e2⟩
    cases e2 with
    | none => rfl
    | some err =>
      have hne := hanon ⟨true, sess.Region⟩ d err rfl (by rw [hdl])
      simp only [hne, if_false]
  have h1 : (n.Download sess input dest).2 = none →
      fetchFromS3WithCreds n input (k + 2) dest sess =
        some ([.download sess input], (n.Download sess input dest).1, none) := by
    intro h
    rw [fetchFromS3WithCreds]
    simp only [hclient]
    rcases hdl : n.Download sess input dest with ⟨d1, e1⟩
    rw [hdl] at h
    simp only at h
    subst h
    rfl
  have h2 : ∀ err, (n.Download sess input dest).2 = some err →
      n.awsErrCode err ≠ some (lit "EC2RoleRequestError") →
      fetchFromS3WithCreds n input (k + 2) dest sess =
        some ([.download sess input], (n.Download sess input dest).1, some err) := by
    intro err h hne
    rw [fetchFromS3WithCreds]
    simp only [hclient]
    rcases hdl : n.Download sess input dest with ⟨d1, e1⟩
    rw [hdl] at h
    simp only at h
    subst h
    simp only [hne, if_false]
  have h3 : ∀ err, (n.Download sess input dest).2 = some err →
      n.awsErrCode err = some (lit "EC2RoleRequestError") →
      fetchFromS3WithCreds n input (k + 2) dest sess =
        some ([.download sess input, .download ⟨true, sess.Region⟩ input],
          (n.Download ⟨true, sess.Region⟩ input (n.Download sess input dest).1).1,
          (n.Download ⟨true, sess.Region⟩ input (n.Download sess input dest).1).2) := by
    intro err h hcode
    rw [fetchFromS3WithCreds]
    simp only [hclient]
    rcases hdl : n.Download sess input dest with ⟨d1, e1⟩
    rw [hdl] at h
    simp only at h
    subst h
    simp only [hcode, if_true, hretry d1]
  refine ⟨?_, h1, h2, h3⟩
  cases hres : (n.Download sess input dest).2 with
  | none => exact ⟨_, h1 hres, by simp⟩
  | some err =>
    by_cases hcode : n.awsErrCode err = some (lit "EC2RoleRequestError")
    · exact ⟨_, h3 err hres hcode, by simp⟩
    · exact ⟨_, h2 err hres hcode, by simp⟩

/-- Witness of C29 (as amended): the first download, with instance
credentials, fails with EC2RoleRequestError; the retry with anonymous
credentials succeeds; two download attempts. -/
theorem fetchFromS3WithCreds_two_attempts_witness :
    fetchFromS3WithCreds (s3Net 0) ⟨lit "bucket", lit "/key", none⟩ 2 (scenarioFile [])
        ⟨false, lit "us-east-1"⟩ =
      some ([.download ⟨false, lit "us-east-1"⟩ ⟨lit "bucket", lit "/key", none⟩,
          .download ⟨true, lit "us-east-1"⟩ ⟨lit "bucket", lit "/key", none⟩],
        scenarioFile [104, 105], none) :=
  (fetchFromS3WithCreds_two_attempts (s3Net 0) ⟨lit "bucket", lit "/key", none⟩ 2
    (scenarioFile []) ⟨false, lit "us-east-1"⟩
    (by
      intro s d err hs h
      simp [s3Net, hs] at h)
    rfl (le_refl 2)).2.2.2 (.external (lit "EC2RoleRequestError")) rfl rfl

/-- Counterexample to C29 as stated: an S3 service whose first anonymous
download also fails with EC2RoleRequestError.  The function makes three
download attempts before it succeeds, and two calls do not reach a result. -/
theorem fetchFromS3WithCreds_three_attempts :
    fetchFromS3WithCreds (s3Net 1) ⟨lit "bucket", lit "/key", none⟩ 3 (scenarioFile [])
        ⟨false, lit "us-east-1"⟩ =
      some ([.download ⟨false, lit "us-east-1"⟩ ⟨lit "bucket", lit "/key", none⟩,
          .download ⟨true, lit "us-east-1"⟩ ⟨lit "bucket", lit "/key", none⟩,
          .download ⟨true, lit "us-east-1"⟩ ⟨lit "bucket", lit "/key", none⟩],
        scenarioFile [0, 104, 105], none) ∧
    fetchFromS3WithCreds (s3Net 1) ⟨lit "bucket", lit "/key", none⟩ 2 (scenarioFile [])
        ⟨false, lit "us-east-1"⟩ = none :=
  ⟨by decide, by decide⟩

end Ignition
